import Mathlib

/-!
# Hardware-intrinsic recognition and expansion (src/jit/hwintrinsicxarch.cpp)

A shallow embedding of the xarch hardware-intrinsic layer of the JIT importer:
the intrinsic catalog, the ISA support resolver, the unsupported-call policy,
the dispatcher and the per-family expanders.

Conventions of the embedding.

* C++ enumerations are inductive types whose constructors keep the enumerator
  names.  `InstructionSet`, `NamedIntrinsic`, `var_types` and the helper ids
  have one extra constructor for the enumerators that this file never names,
  so that every `default:` branch is reachable.
* A function that can stop on an assertion, on `unreached()`, on a read outside
  an array, or on an importer stack underflow returns `Except Fault _`.
* The value that a scan returns after a read one past the array depends on
  the memory behind the array.  Statements about that value are made on
  `Catalog.followedBy`, the rows followed by the element that lies behind
  them; statements about which index is read are made on the catalog itself.
* `assert` is the debug-only assertion of the JIT: it is checked when the build
  symbol `DEBUG` is defined and is a no-op otherwise.
* The importer's operand stack is passed explicitly: an expander takes the
  stack and returns the node (or `none` for `nullptr`) with the new stack.
* A C string is the `String` of its characters before the terminator, a
  `const char*` that may be null is an `Option String`, and `strcmp(a, b) == 0`
  is equality of strings.
* `JITDUMP` only writes to the log and is left out.
-/

namespace HWIntrinsicXArch

/-! ## Enumerations -/

/-- Enumerators of `InstructionSet` named by the file; `InstructionSet_Other`
stands for every enumerator the file does not name. -/
inductive InstructionSet where
  | InstructionSet_ILLEGAL
  | InstructionSet_SSE
  | InstructionSet_SSE2
  | InstructionSet_SSE3
  | InstructionSet_SSSE3
  | InstructionSet_SSE41
  | InstructionSet_SSE42
  | InstructionSet_AVX
  | InstructionSet_AVX2
  | InstructionSet_AES
  | InstructionSet_BMI1
  | InstructionSet_BMI2
  | InstructionSet_FMA
  | InstructionSet_LZCNT
  | InstructionSet_PCLMULQDQ
  | InstructionSet_POPCNT
  | InstructionSet_Other (n : Nat)
  deriving DecidableEq, Repr

/-- Enumerators of `NamedIntrinsic` named by the file; `NI_Other` stands for
every enumerator the file does not name. -/
inductive NamedIntrinsic where
  | NI_Illegal
  | NI_HW_INTRINSIC_START
  | NI_HW_INTRINSIC_END
  | NI_SSE_IsSupported
  | NI_SSE2_IsSupported
  | NI_SSE3_IsSupported
  | NI_SSSE3_IsSupported
  | NI_SSE41_IsSupported
  | NI_SSE42_IsSupported
  | NI_AVX_IsSupported
  | NI_AVX2_IsSupported
  | NI_AES_IsSupported
  | NI_BMI1_IsSupported
  | NI_BMI2_IsSupported
  | NI_FMA_IsSupported
  | NI_LZCNT_IsSupported
  | NI_PCLMULQDQ_IsSupported
  | NI_POPCNT_IsSupported
  | NI_SSE_Add
  | NI_SSE_AddScalar
  | NI_SSE_And
  | NI_SSE_AndNot
  | NI_SSE_CompareEqual
  | NI_SSE_CompareEqualScalar
  | NI_SSE_CompareEqualOrderedScalar
  | NI_SSE_CompareEqualUnorderedScalar
  | NI_SSE_CompareGreaterThan
  | NI_SSE_CompareGreaterThanScalar
  | NI_SSE_CompareGreaterThanOrderedScalar
  | NI_SSE_CompareGreaterThanUnorderedScalar
  | NI_SSE_CompareGreaterThanOrEqual
  | NI_SSE_CompareGreaterThanOrEqualScalar
  | NI_SSE_CompareGreaterThanOrEqualOrderedScalar
  | NI_SSE_CompareGreaterThanOrEqualUnorderedScalar
  | NI_SSE_CompareLessThan
  | NI_SSE_CompareLessThanScalar
  | NI_SSE_CompareLessThanOrderedScalar
  | NI_SSE_CompareLessThanUnorderedScalar
  | NI_SSE_CompareLessThanOrEqual
  | NI_SSE_CompareLessThanOrEqualScalar
  | NI_SSE_CompareLessThanOrEqualOrderedScalar
  | NI_SSE_CompareLessThanOrEqualUnorderedScalar
  | NI_SSE_CompareNotEqual
  | NI_SSE_CompareNotEqualScalar
  | NI_SSE_CompareNotEqualOrderedScalar
  | NI_SSE_CompareNotEqualUnorderedScalar
  | NI_SSE_CompareNotGreaterThan
  | NI_SSE_CompareNotGreaterThanScalar
  | NI_SSE_CompareNotGreaterThanOrEqual
  | NI_SSE_CompareNotGreaterThanOrEqualScalar
  | NI_SSE_CompareNotLessThan
  | NI_SSE_CompareNotLessThanScalar
  | NI_SSE_CompareNotLessThanOrEqual
  | NI_SSE_CompareNotLessThanOrEqualScalar
  | NI_SSE_CompareOrdered
  | NI_SSE_CompareOrderedScalar
  | NI_SSE_CompareUnordered
  | NI_SSE_CompareUnorderedScalar
  | NI_SSE_ConvertToInt32
  | NI_SSE_ConvertToInt32WithTruncation
  | NI_SSE_ConvertToInt64
  | NI_SSE_ConvertToInt64WithTruncation
  | NI_SSE_ConvertToSingle
  | NI_SSE_ConvertToVector128SingleScalar
  | NI_SSE_Divide
  | NI_SSE_DivideScalar
  | NI_SSE_LoadAlignedVector128
  | NI_SSE_LoadHigh
  | NI_SSE_LoadLow
  | NI_SSE_LoadScalar
  | NI_SSE_LoadVector128
  | NI_SSE_Max
  | NI_SSE_MaxScalar
  | NI_SSE_Min
  | NI_SSE_MinScalar
  | NI_SSE_MoveHighToLow
  | NI_SSE_MoveLowToHigh
  | NI_SSE_MoveMask
  | NI_SSE_MoveScalar
  | NI_SSE_Multiply
  | NI_SSE_MultiplyScalar
  | NI_SSE_Or
  | NI_SSE_Reciprocal
  | NI_SSE_ReciprocalScalar
  | NI_SSE_ReciprocalSqrt
  | NI_SSE_ReciprocalSqrtScalar
  | NI_SSE_SetAllVector128
  | NI_SSE_SetScalar
  | NI_SSE_SetVector128
  | NI_SSE_SetZeroVector128
  | NI_SSE_Shuffle
  | NI_SSE_Sqrt
  | NI_SSE_SqrtScalar
  | NI_SSE_StaticCast
  | NI_SSE_Subtract
  | NI_SSE_SubtractScalar
  | NI_SSE_UnpackHigh
  | NI_SSE_UnpackLow
  | NI_SSE_Xor
  | NI_SSE2_Add
  | NI_SSE42_Crc32
  | NI_AVX_Add
  | NI_AVX2_Add
  | NI_LZCNT_LeadingZeroCount
  | NI_POPCNT_PopCount
  | NI_Other (n : Nat)
  deriving Repr

/-- Position of a constructor in the declaration above (not the enumerator's
value in the C++ enum, which is `Catalog.enumValue`). -/
def NamedIntrinsic.ctorCode : NamedIntrinsic → Nat
  | .NI_Illegal => 0
  | .NI_HW_INTRINSIC_START => 1
  | .NI_HW_INTRINSIC_END => 2
  | .NI_SSE_IsSupported => 3
  | .NI_SSE2_IsSupported => 4
  | .NI_SSE3_IsSupported => 5
  | .NI_SSSE3_IsSupported => 6
  | .NI_SSE41_IsSupported => 7
  | .NI_SSE42_IsSupported => 8
  | .NI_AVX_IsSupported => 9
  | .NI_AVX2_IsSupported => 10
  | .NI_AES_IsSupported => 11
  | .NI_BMI1_IsSupported => 12
  | .NI_BMI2_IsSupported => 13
  | .NI_FMA_IsSupported => 14
  | .NI_LZCNT_IsSupported => 15
  | .NI_PCLMULQDQ_IsSupported => 16
  | .NI_POPCNT_IsSupported => 17
  | .NI_SSE_Add => 18
  | .NI_SSE_AddScalar => 19
  | .NI_SSE_And => 20
  | .NI_SSE_AndNot => 21
  | .NI_SSE_CompareEqual => 22
  | .NI_SSE_CompareEqualScalar => 23
  | .NI_SSE_CompareEqualOrderedScalar => 24
  | .NI_SSE_CompareEqualUnorderedScalar => 25
  | .NI_SSE_CompareGreaterThan => 26
  | .NI_SSE_CompareGreaterThanScalar => 27
  | .NI_SSE_CompareGreaterThanOrderedScalar => 28
  | .NI_SSE_CompareGreaterThanUnorderedScalar => 29
  | .NI_SSE_CompareGreaterThanOrEqual => 30
  | .NI_SSE_CompareGreaterThanOrEqualScalar => 31
  | .NI_SSE_CompareGreaterThanOrEqualOrderedScalar => 32
  | .NI_SSE_CompareGreaterThanOrEqualUnorderedScalar => 33
  | .NI_SSE_CompareLessThan => 34
  | .NI_SSE_CompareLessThanScalar => 35
  | .NI_SSE_CompareLessThanOrderedScalar => 36
  | .NI_SSE_CompareLessThanUnorderedScalar => 37
  | .NI_SSE_CompareLessThanOrEqual => 38
  | .NI_SSE_CompareLessThanOrEqualScalar => 39
  | .NI_SSE_CompareLessThanOrEqualOrderedScalar => 40
  | .NI_SSE_CompareLessThanOrEqualUnorderedScalar => 41
  | .NI_SSE_CompareNotEqual => 42
  | .NI_SSE_CompareNotEqualScalar => 43
  | .NI_SSE_CompareNotEqualOrderedScalar => 44
  | .NI_SSE_CompareNotEqualUnorderedScalar => 45
  | .NI_SSE_CompareNotGreaterThan => 46
  | .NI_SSE_CompareNotGreaterThanScalar => 47
  | .NI_SSE_CompareNotGreaterThanOrEqual => 48
  | .NI_SSE_CompareNotGreaterThanOrEqualScalar => 49
  | .NI_SSE_CompareNotLessThan => 50
  | .NI_SSE_CompareNotLessThanScalar => 51
  | .NI_SSE_CompareNotLessThanOrEqual => 52
  | .NI_SSE_CompareNotLessThanOrEqualScalar => 53
  | .NI_SSE_CompareOrdered => 54
  | .NI_SSE_CompareOrderedScalar => 55
  | .NI_SSE_CompareUnordered => 56
  | .NI_SSE_CompareUnorderedScalar => 57
  | .NI_SSE_ConvertToInt32 => 58
  | .NI_SSE_ConvertToInt32WithTruncation => 59
  | .NI_SSE_ConvertToInt64 => 60
  | .NI_SSE_ConvertToInt64WithTruncation => 61
  | .NI_SSE_ConvertToSingle => 62
  | .NI_SSE_ConvertToVector128SingleScalar => 63
  | .NI_SSE_Divide => 64
  | .NI_SSE_DivideScalar => 65
  | .NI_SSE_LoadAlignedVector128 => 66
  | .NI_SSE_LoadHigh => 67
  | .NI_SSE_LoadLow => 68
  | .NI_SSE_LoadScalar => 69
  | .NI_SSE_LoadVector128 => 70
  | .NI_SSE_Max => 71
  | .NI_SSE_MaxScalar => 72
  | .NI_SSE_Min => 73
  | .NI_SSE_MinScalar => 74
  | .NI_SSE_MoveHighToLow => 75
  | .NI_SSE_MoveLowToHigh => 76
  | .NI_SSE_MoveMask => 77
  | .NI_SSE_MoveScalar => 78
  | .NI_SSE_Multiply => 79
  | .NI_SSE_MultiplyScalar => 80
  | .NI_SSE_Or => 81
  | .NI_SSE_Reciprocal => 82
  | .NI_SSE_ReciprocalScalar => 83
  | .NI_SSE_ReciprocalSqrt => 84
  | .NI_SSE_ReciprocalSqrtScalar => 85
  | .NI_SSE_SetAllVector128 => 86
  | .NI_SSE_SetScalar => 87
  | .NI_SSE_SetVector128 => 88
  | .NI_SSE_SetZeroVector128 => 89
  | .NI_SSE_Shuffle => 90
  | .NI_SSE_Sqrt => 91
  | .NI_SSE_SqrtScalar => 92
  | .NI_SSE_StaticCast => 93
  | .NI_SSE_Subtract => 94
  | .NI_SSE_SubtractScalar => 95
  | .NI_SSE_UnpackHigh => 96
  | .NI_SSE_UnpackLow => 97
  | .NI_SSE_Xor => 98
  | .NI_SSE2_Add => 99
  | .NI_SSE42_Crc32 => 100
  | .NI_AVX_Add => 101
  | .NI_AVX2_Add => 102
  | .NI_LZCNT_LeadingZeroCount => 103
  | .NI_POPCNT_PopCount => 104
  | .NI_Other n => 105 + n

/-- The constructors without argument, in declaration order. -/
def NamedIntrinsic.named : List NamedIntrinsic :=
  [NamedIntrinsic.NI_Illegal, NamedIntrinsic.NI_HW_INTRINSIC_START, NamedIntrinsic.NI_HW_INTRINSIC_END, NamedIntrinsic.NI_SSE_IsSupported,
   NamedIntrinsic.NI_SSE2_IsSupported, NamedIntrinsic.NI_SSE3_IsSupported, NamedIntrinsic.NI_SSSE3_IsSupported, NamedIntrinsic.NI_SSE41_IsSupported,
   NamedIntrinsic.NI_SSE42_IsSupported, NamedIntrinsic.NI_AVX_IsSupported, NamedIntrinsic.NI_AVX2_IsSupported, NamedIntrinsic.NI_AES_IsSupported,
   NamedIntrinsic.NI_BMI1_IsSupported, NamedIntrinsic.NI_BMI2_IsSupported, NamedIntrinsic.NI_FMA_IsSupported, NamedIntrinsic.NI_LZCNT_IsSupported,
   NamedIntrinsic.NI_PCLMULQDQ_IsSupported, NamedIntrinsic.NI_POPCNT_IsSupported, NamedIntrinsic.NI_SSE_Add, NamedIntrinsic.NI_SSE_AddScalar,
   NamedIntrinsic.NI_SSE_And, NamedIntrinsic.NI_SSE_AndNot, NamedIntrinsic.NI_SSE_CompareEqual, NamedIntrinsic.NI_SSE_CompareEqualScalar,
   NamedIntrinsic.NI_SSE_CompareEqualOrderedScalar, NamedIntrinsic.NI_SSE_CompareEqualUnorderedScalar,
   NamedIntrinsic.NI_SSE_CompareGreaterThan, NamedIntrinsic.NI_SSE_CompareGreaterThanScalar,
   NamedIntrinsic.NI_SSE_CompareGreaterThanOrderedScalar, NamedIntrinsic.NI_SSE_CompareGreaterThanUnorderedScalar,
   NamedIntrinsic.NI_SSE_CompareGreaterThanOrEqual, NamedIntrinsic.NI_SSE_CompareGreaterThanOrEqualScalar,
   NamedIntrinsic.NI_SSE_CompareGreaterThanOrEqualOrderedScalar,
   NamedIntrinsic.NI_SSE_CompareGreaterThanOrEqualUnorderedScalar, NamedIntrinsic.NI_SSE_CompareLessThan,
   NamedIntrinsic.NI_SSE_CompareLessThanScalar, NamedIntrinsic.NI_SSE_CompareLessThanOrderedScalar,
   NamedIntrinsic.NI_SSE_CompareLessThanUnorderedScalar, NamedIntrinsic.NI_SSE_CompareLessThanOrEqual,
   NamedIntrinsic.NI_SSE_CompareLessThanOrEqualScalar, NamedIntrinsic.NI_SSE_CompareLessThanOrEqualOrderedScalar,
   NamedIntrinsic.NI_SSE_CompareLessThanOrEqualUnorderedScalar, NamedIntrinsic.NI_SSE_CompareNotEqual,
   NamedIntrinsic.NI_SSE_CompareNotEqualScalar, NamedIntrinsic.NI_SSE_CompareNotEqualOrderedScalar,
   NamedIntrinsic.NI_SSE_CompareNotEqualUnorderedScalar, NamedIntrinsic.NI_SSE_CompareNotGreaterThan,
   NamedIntrinsic.NI_SSE_CompareNotGreaterThanScalar, NamedIntrinsic.NI_SSE_CompareNotGreaterThanOrEqual,
   NamedIntrinsic.NI_SSE_CompareNotGreaterThanOrEqualScalar, NamedIntrinsic.NI_SSE_CompareNotLessThan,
   NamedIntrinsic.NI_SSE_CompareNotLessThanScalar, NamedIntrinsic.NI_SSE_CompareNotLessThanOrEqual,
   NamedIntrinsic.NI_SSE_CompareNotLessThanOrEqualScalar, NamedIntrinsic.NI_SSE_CompareOrdered, NamedIntrinsic.NI_SSE_CompareOrderedScalar,
   NamedIntrinsic.NI_SSE_CompareUnordered, NamedIntrinsic.NI_SSE_CompareUnorderedScalar, NamedIntrinsic.NI_SSE_ConvertToInt32,
   NamedIntrinsic.NI_SSE_ConvertToInt32WithTruncation, NamedIntrinsic.NI_SSE_ConvertToInt64,
   NamedIntrinsic.NI_SSE_ConvertToInt64WithTruncation, NamedIntrinsic.NI_SSE_ConvertToSingle,
   NamedIntrinsic.NI_SSE_ConvertToVector128SingleScalar, NamedIntrinsic.NI_SSE_Divide, NamedIntrinsic.NI_SSE_DivideScalar,
   NamedIntrinsic.NI_SSE_LoadAlignedVector128, NamedIntrinsic.NI_SSE_LoadHigh, NamedIntrinsic.NI_SSE_LoadLow, NamedIntrinsic.NI_SSE_LoadScalar,
   NamedIntrinsic.NI_SSE_LoadVector128, NamedIntrinsic.NI_SSE_Max, NamedIntrinsic.NI_SSE_MaxScalar, NamedIntrinsic.NI_SSE_Min, NamedIntrinsic.NI_SSE_MinScalar,
   NamedIntrinsic.NI_SSE_MoveHighToLow, NamedIntrinsic.NI_SSE_MoveLowToHigh, NamedIntrinsic.NI_SSE_MoveMask, NamedIntrinsic.NI_SSE_MoveScalar,
   NamedIntrinsic.NI_SSE_Multiply, NamedIntrinsic.NI_SSE_MultiplyScalar, NamedIntrinsic.NI_SSE_Or, NamedIntrinsic.NI_SSE_Reciprocal,
   NamedIntrinsic.NI_SSE_ReciprocalScalar, NamedIntrinsic.NI_SSE_ReciprocalSqrt, NamedIntrinsic.NI_SSE_ReciprocalSqrtScalar,
   NamedIntrinsic.NI_SSE_SetAllVector128, NamedIntrinsic.NI_SSE_SetScalar, NamedIntrinsic.NI_SSE_SetVector128, NamedIntrinsic.NI_SSE_SetZeroVector128,
   NamedIntrinsic.NI_SSE_Shuffle, NamedIntrinsic.NI_SSE_Sqrt, NamedIntrinsic.NI_SSE_SqrtScalar, NamedIntrinsic.NI_SSE_StaticCast, NamedIntrinsic.NI_SSE_Subtract,
   NamedIntrinsic.NI_SSE_SubtractScalar, NamedIntrinsic.NI_SSE_UnpackHigh, NamedIntrinsic.NI_SSE_UnpackLow, NamedIntrinsic.NI_SSE_Xor, NamedIntrinsic.NI_SSE2_Add,
   NamedIntrinsic.NI_SSE42_Crc32, NamedIntrinsic.NI_AVX_Add, NamedIntrinsic.NI_AVX2_Add, NamedIntrinsic.NI_LZCNT_LeadingZeroCount, NamedIntrinsic.NI_POPCNT_PopCount]

/-- Inverse of `ctorCode`. -/
def NamedIntrinsic.ofCtorCode (k : Nat) : NamedIntrinsic :=
  if k < 105 then NamedIntrinsic.named.getD k NamedIntrinsic.NI_Illegal
  else NamedIntrinsic.NI_Other (k - 105)

theorem NamedIntrinsic.ofCtorCode_ctorCode (x : NamedIntrinsic) :
    NamedIntrinsic.ofCtorCode x.ctorCode = x := by
  cases x <;> first | rfl | simp [NamedIntrinsic.ofCtorCode, NamedIntrinsic.ctorCode]

theorem NamedIntrinsic.ctorCode_injective {a b : NamedIntrinsic}
    (h : a.ctorCode = b.ctorCode) : a = b := by
  have h2 := congrArg NamedIntrinsic.ofCtorCode h
  simpa [NamedIntrinsic.ofCtorCode_ctorCode] using h2

instance : DecidableEq NamedIntrinsic := fun a b =>
  if h : a.ctorCode = b.ctorCode then isTrue (NamedIntrinsic.ctorCode_injective h)
  else isFalse (fun e => h (congrArg NamedIntrinsic.ctorCode e))

/-- Enumerators of `var_types` named by the file, with the two narrower vector
types; `TYP_Other` stands for every other enumerator (TYP_STRUCT, TYP_REF, ...). -/
inductive var_types where
  | TYP_BOOL
  | TYP_BYTE
  | TYP_UBYTE
  | TYP_SHORT
  | TYP_USHORT
  | TYP_INT
  | TYP_UINT
  | TYP_LONG
  | TYP_ULONG
  | TYP_FLOAT
  | TYP_DOUBLE
  | TYP_SIMD8
  | TYP_SIMD12
  | TYP_SIMD16
  | TYP_SIMD32
  | TYP_UNKNOWN
  | TYP_Other (n : Nat)
  deriving DecidableEq, Repr

/-- Ways in which a call into this layer stops without returning. -/
inductive Fault where
  /-- an `assert` failed (DEBUG build) -/
  | assertFailed
  /-- `unreached()` was executed -/
  | unreached
  /-- an element outside `hwIntrinsicInfoArray` was read -/
  | outOfBounds
  /-- the importer stack was popped or peeked while empty -/
  | stackUnderflow
  deriving DecidableEq, Repr

open InstructionSet NamedIntrinsic var_types

/-! ## The intrinsic catalog -/

/-- `struct HWIntrinsicInfo`. -/
structure HWIntrinsicInfo where
  intrinsicID : NamedIntrinsic
  intrinsicName : String
  isa : InstructionSet
  deriving DecidableEq, Repr

/-- The two declarations that the file takes from headers outside `src/`: the
numeric value of every `NamedIntrinsic` enumerator (namedintrinsiclist.h) and
the rows that `hwintrinsiclistxarch.h` expands into `hwIntrinsicInfoArray`. -/
structure Catalog where
  enumValue : NamedIntrinsic → Nat
  hwIntrinsicInfoArray : List HWIntrinsicInfo

/-- `NI_HW_INTRINSIC_START` as a number. -/
def Catalog.start (K : Catalog) : Nat := K.enumValue NI_HW_INTRINSIC_START

/-- `NI_HW_INTRINSIC_END` as a number. -/
def Catalog.stop (K : Catalog) : Nat := K.enumValue NI_HW_INTRINSIC_END

/-- The read `hwIntrinsicInfoArray[i]` for a signed index. -/
def Catalog.at (K : Catalog) (i : Int) : Except Fault HWIntrinsicInfo :=
  if 0 ≤ i then
    match K.hwIntrinsicInfoArray[i.toNat]? with
    | some e => .ok e
    | none => .error .outOfBounds
  else .error .outOfBounds

/-- The index expression `intrinsic - NI_HW_INTRINSIC_START - 1`. For an
identifier at or below `NI_HW_INTRINSIC_START` the value is negative (with an
unsigned underlying type it wraps to a huge value): outside the array either
way. -/
def Catalog.indexOf (K : Catalog) (intrinsic : NamedIntrinsic) : Int :=
  (K.enumValue intrinsic : Int) - (K.start : Int) - 1

/-- `getHWIntrinsicName`: an unchecked indexed read. -/
def getHWIntrinsicName (K : Catalog) (intrinsic : NamedIntrinsic) : Except Fault String := do
  let e ← K.at (K.indexOf intrinsic)
  return e.intrinsicName

/-- First character of a C string (the terminator for the empty string). -/
def firstChar (s : String) : Char :=
  match s.data with
  | [] => Char.ofNat 0
  | c :: _ => c

/-- `Compiler::lookupHWIntrinsicISA`; `none` is the null pointer. -/
def lookupHWIntrinsicISA (className : Option String) : InstructionSet :=
  match className with
  | none => InstructionSet_ILLEGAL
  | some className =>
    let tail : InstructionSet :=
      if className = "Bmi1" then InstructionSet_BMI1
      else if className = "Bmi2" then InstructionSet_BMI2
      else if className = "Fma" then InstructionSet_FMA
      else if className = "Lzcnt" then InstructionSet_LZCNT
      else if className = "Pclmulqdq" then InstructionSet_PCLMULQDQ
      else if className = "Popcnt" then InstructionSet_POPCNT
      else InstructionSet_ILLEGAL
    let fromS : InstructionSet :=
      if firstChar className = 'S' then
        if className = "Sse" then InstructionSet_SSE
        else if className = "Sse2" then InstructionSet_SSE2
        else if className = "Sse3" then InstructionSet_SSE3
        else if className = "Ssse3" then InstructionSet_SSSE3
        else if className = "Sse41" then InstructionSet_SSE41
        else if className = "Sse42" then InstructionSet_SSE42
        else tail
      else tail
    if firstChar className = 'A' then
      if className = "Aes" then InstructionSet_AES
      else if className = "Avx" then InstructionSet_AVX
      else if className = "Avx2" then InstructionSet_AVX2
      else fromS
    else fromS

/-- The scan loop of `lookupHWIntrinsic`: `remaining` iterations are left, the
loop variable is `i`, the running value of `result` is `result`. -/
def lookupHWIntrinsicLoop (K : Catalog) (methodName : String) (isa : InstructionSet) :
    (remaining : Nat) → (i : Nat) → (result : NamedIntrinsic) → Except Fault NamedIntrinsic
  | 0, _, result => .ok result
  | remaining + 1, i, result => do
    let e ← K.at (i : Int)
    if isa = e.isa ∧ methodName = e.intrinsicName then
      lookupHWIntrinsicLoop K methodName isa remaining (i + 1) e.intrinsicID
    else
      lookupHWIntrinsicLoop K methodName isa remaining (i + 1) result

/-- `Compiler::lookupHWIntrinsic`: the loop condition is
`i < NI_HW_INTRINSIC_END - NI_HW_INTRINSIC_START`, so the body runs for
`i = 0 .. NI_HW_INTRINSIC_END - NI_HW_INTRINSIC_START - 1` (not at all when the
difference is not positive). -/
def lookupHWIntrinsic (K : Catalog) (methodName : String) (isa : InstructionSet) :
    Except Fault NamedIntrinsic :=
  if isa ≠ InstructionSet_ILLEGAL then
    lookupHWIntrinsicLoop K methodName isa (K.stop - K.start) 0 NI_Illegal
  else
    .ok NI_Illegal

/-! ## The compiler instance and the execution-engine interface -/

/-- Handles and type tokens of the execution-engine interface are plain tokens. -/
abbrev CORINFO_CLASS_HANDLE := Nat

/-- Token of a method. -/
abbrev CORINFO_METHOD_HANDLE := Nat

/-- Position in an argument list. -/
abbrev CORINFO_ARG_LIST_HANDLE := Nat

/-- A `CorInfoType` value. -/
abbrev CorInfoType := Nat

/-- A `CorInfoTypeWithMod` value. -/
abbrev CorInfoTypeWithMod := Nat

/-- The fields of `CORINFO_SIG_INFO` that the file reads. -/
structure CORINFO_SIG_INFO where
  retType : CorInfoType
  retTypeClass : CORINFO_CLASS_HANDLE
  retTypeSigClass : CORINFO_CLASS_HANDLE
  numArgs : Nat
  args : CORINFO_ARG_LIST_HANDLE
  deriving DecidableEq, Repr

/-- JIT helper ids; the file names one. -/
inductive CorInfoHelpFunc where
  | CORINFO_HELP_THROW_PLATFORM_NOT_SUPPORTED
  | CORINFO_HELP_Other (n : Nat)
  deriving DecidableEq, Repr

/-- What the file reads from its surroundings, none of it defined under `src/`:
the build symbols `DEBUG` and `_TARGET_X86_`, the compiler-wide toggles, the
hardware capability probe `compSupports`, and the type helpers of the JIT and
of the execution-engine interface (`info.compCompHnd`). -/
structure Compiler where
  DEBUG : Bool
  TARGET_X86 : Bool
  featureSIMD : Bool
  EnableIncompleteISAClass : Bool
  compSupports : InstructionSet → Bool
  JITtype2varType : CorInfoType → var_types
  getBaseTypeOfSIMDType : CORINFO_CLASS_HANDLE → var_types
  strip : CorInfoTypeWithMod → CorInfoType
  getArgNext : CORINFO_ARG_LIST_HANDLE → CORINFO_ARG_LIST_HANDLE
  getArgType : CORINFO_SIG_INFO → CORINFO_ARG_LIST_HANDLE → CorInfoTypeWithMod
  getArgClass : CORINFO_SIG_INFO → CORINFO_ARG_LIST_HANDLE → CORINFO_CLASS_HANDLE
  varTypeIsLong : var_types → Bool
  varTypeIsArithmetic : var_types → Bool

/-- The statement `assert(cond)`: checked in a DEBUG build only. -/
def Compiler.assert (C : Compiler) (cond : Bool) : Except Fault Unit :=
  if C.DEBUG && !cond then .error .assertFailed else .ok ()

/-- `Compiler::isaOfHWIntrinsic`. -/
def isaOfHWIntrinsic (K : Catalog) (C : Compiler) (intrinsic : NamedIntrinsic) :
    Except Fault InstructionSet := do
  C.assert (decide (intrinsic ≠ NI_Illegal))
  C.assert (decide (K.start < K.enumValue intrinsic ∧ K.enumValue intrinsic < K.stop))
  let e ← K.at (K.indexOf intrinsic)
  return e.isa

/-! ## The ISA support resolver -/

/-- `Compiler::isIntrinsicAnIsSupportedPropertyGetter`. -/
def isIntrinsicAnIsSupportedPropertyGetter (intrinsic : NamedIntrinsic) : Bool :=
  match intrinsic with
  | NI_SSE_IsSupported
  | NI_SSE2_IsSupported
  | NI_SSE3_IsSupported
  | NI_SSSE3_IsSupported
  | NI_SSE41_IsSupported
  | NI_SSE42_IsSupported
  | NI_AVX_IsSupported
  | NI_AVX2_IsSupported
  | NI_AES_IsSupported
  | NI_BMI1_IsSupported
  | NI_BMI2_IsSupported
  | NI_FMA_IsSupported
  | NI_LZCNT_IsSupported
  | NI_PCLMULQDQ_IsSupported
  | NI_POPCNT_IsSupported => true
  | _ => false

/-- `Compiler::isFullyImplmentedISAClass`; the default branch is `unreached()`. -/
def isFullyImplmentedISAClass (isa : InstructionSet) : Except Fault Bool :=
  match isa with
  | InstructionSet_SSE
  | InstructionSet_SSE2
  | InstructionSet_SSE3
  | InstructionSet_SSSE3
  | InstructionSet_SSE41
  | InstructionSet_SSE42
  | InstructionSet_AVX
  | InstructionSet_AVX2
  | InstructionSet_AES
  | InstructionSet_BMI1
  | InstructionSet_BMI2
  | InstructionSet_FMA
  | InstructionSet_PCLMULQDQ => .ok false
  | InstructionSet_LZCNT
  | InstructionSet_POPCNT => .ok true
  | _ => .error .unreached

/-- `Compiler::isScalarISA`. -/
def isScalarISA (isa : InstructionSet) : Bool :=
  match isa with
  | InstructionSet_BMI1
  | InstructionSet_BMI2
  | InstructionSet_LZCNT
  | InstructionSet_POPCNT => true
  | _ => false

/-- `Compiler::compSupportsHWIntrinsic`, with the short-circuit evaluation of
`&&` and `||`; the `JitConfig` operand exists in a DEBUG build only. -/
def compSupportsHWIntrinsic (C : Compiler) (isa : InstructionSet) : Except Fault Bool :=
  if C.featureSIMD || isScalarISA isa then
    if C.DEBUG && C.EnableIncompleteISAClass then .ok true
    else isFullyImplmentedISAClass isa
  else .ok false

/-! ## Instruction and immediate selection -/

/-- Enumerators of `instruction` named by the file. -/
inductive instruction where
  | INS_invalid
  | INS_addps
  | INS_addss
  | INS_andps
  | INS_andnps
  | INS_cmpps
  | INS_cmpss
  | INS_comiss
  | INS_ucomiss
  | INS_cvtss2si
  | INS_cvttss2si
  | INS_movss
  | INS_cvtsi2ss
  | INS_divps
  | INS_divss
  | INS_movaps
  | INS_movhps
  | INS_movlps
  | INS_movups
  | INS_maxps
  | INS_maxss
  | INS_minps
  | INS_minss
  | INS_movhlps
  | INS_movlhps
  | INS_movmskps
  | INS_mulps
  | INS_mulss
  | INS_orps
  | INS_rcpps
  | INS_rcpss
  | INS_rsqrtps
  | INS_rsqrtss
  | INS_sqrtps
  | INS_sqrtss
  | INS_subps
  | INS_subss
  | INS_unpckhps
  | INS_unpcklps
  | INS_xorps
  deriving DecidableEq, Repr

open instruction

/-- `Compiler::ivalOfHWIntrinsic`. -/
def ivalOfHWIntrinsic (K : Catalog) (C : Compiler) (intrinsic : NamedIntrinsic) :
    Except Fault Int := do
  C.assert (decide (intrinsic ≠ NI_Illegal))
  C.assert (decide (K.start < K.enumValue intrinsic ∧ K.enumValue intrinsic < K.stop))
  match intrinsic with
  | NI_SSE_CompareEqual
  | NI_SSE_CompareEqualScalar => return 0
  | NI_SSE_CompareLessThan
  | NI_SSE_CompareLessThanScalar
  | NI_SSE_CompareNotGreaterThanOrEqual
  | NI_SSE_CompareNotGreaterThanOrEqualScalar => return 1
  | NI_SSE_CompareLessThanOrEqual
  | NI_SSE_CompareLessThanOrEqualScalar
  | NI_SSE_CompareNotGreaterThan
  | NI_SSE_CompareNotGreaterThanScalar => return 2
  | NI_SSE_CompareUnordered
  | NI_SSE_CompareUnorderedScalar => return 3
  | NI_SSE_CompareNotEqual
  | NI_SSE_CompareNotEqualScalar => return 4
  | NI_SSE_CompareGreaterThanOrEqual
  | NI_SSE_CompareGreaterThanOrEqualScalar
  | NI_SSE_CompareNotLessThan
  | NI_SSE_CompareNotLessThanScalar => return 5
  | NI_SSE_CompareGreaterThan
  | NI_SSE_CompareGreaterThanScalar
  | NI_SSE_CompareNotLessThanOrEqual
  | NI_SSE_CompareNotLessThanOrEqualScalar => return 6
  | NI_SSE_CompareOrdered
  | NI_SSE_CompareOrderedScalar => return 7
  | _ => return -1

/-- `Compiler::insOfHWIntrinsic`. -/
def insOfHWIntrinsic (K : Catalog) (C : Compiler) (intrinsic : NamedIntrinsic)
    (_type : var_types) : Except Fault instruction := do
  C.assert (decide (intrinsic ≠ NI_Illegal))
  C.assert (decide (K.start < K.enumValue intrinsic ∧ K.enumValue intrinsic < K.stop))
  match intrinsic with
  | NI_SSE_Add => return INS_addps
  | NI_SSE_AddScalar => return INS_addss
  | NI_SSE_And => return INS_andps
  | NI_SSE_AndNot => return INS_andnps
  | NI_SSE_CompareEqual
  | NI_SSE_CompareGreaterThan
  | NI_SSE_CompareGreaterThanOrEqual
  | NI_SSE_CompareLessThan
  | NI_SSE_CompareLessThanOrEqual
  | NI_SSE_CompareNotEqual
  | NI_SSE_CompareNotGreaterThan
  | NI_SSE_CompareNotGreaterThanOrEqual
  | NI_SSE_CompareNotLessThan
  | NI_SSE_CompareNotLessThanOrEqual
  | NI_SSE_CompareOrdered
  | NI_SSE_CompareUnordered => return INS_cmpps
  | NI_SSE_CompareEqualScalar
  | NI_SSE_CompareGreaterThanScalar
  | NI_SSE_CompareGreaterThanOrEqualScalar
  | NI_SSE_CompareLessThanScalar
  | NI_SSE_CompareLessThanOrEqualScalar
  | NI_SSE_CompareNotEqualScalar
  | NI_SSE_CompareNotGreaterThanScalar
  | NI_SSE_CompareNotGreaterThanOrEqualScalar
  | NI_SSE_CompareNotLessThanScalar
  | NI_SSE_CompareNotLessThanOrEqualScalar
  | NI_SSE_CompareOrderedScalar
  | NI_SSE_CompareUnorderedScalar => return INS_cmpss
  | NI_SSE_CompareEqualOrderedScalar
  | NI_SSE_CompareGreaterThanOrderedScalar
  | NI_SSE_CompareGreaterThanOrEqualOrderedScalar
  | NI_SSE_CompareLessThanOrderedScalar
  | NI_SSE_CompareLessThanOrEqualOrderedScalar
  | NI_SSE_CompareNotEqualOrderedScalar => return INS_comiss
  | NI_SSE_CompareEqualUnorderedScalar
  | NI_SSE_CompareGreaterThanUnorderedScalar
  | NI_SSE_CompareGreaterThanOrEqualUnorderedScalar
  | NI_SSE_CompareLessThanUnorderedScalar
  | NI_SSE_CompareLessThanOrEqualUnorderedScalar
  | NI_SSE_CompareNotEqualUnorderedScalar => return INS_ucomiss
  | NI_SSE_ConvertToInt32
  | NI_SSE_ConvertToInt64 => return INS_cvtss2si
  | NI_SSE_ConvertToInt32WithTruncation
  | NI_SSE_ConvertToInt64WithTruncation => return INS_cvttss2si
  | NI_SSE_ConvertToSingle
  | NI_SSE_LoadScalar
  | NI_SSE_MoveScalar => return INS_movss
  | NI_SSE_ConvertToVector128SingleScalar => return INS_cvtsi2ss
  | NI_SSE_Divide => return INS_divps
  | NI_SSE_DivideScalar => return INS_divss
  | NI_SSE_LoadAlignedVector128
  | NI_SSE_StaticCast => return INS_movaps
  | NI_SSE_LoadHigh => return INS_movhps
  | NI_SSE_LoadLow => return INS_movlps
  | NI_SSE_LoadVector128 => return INS_movups
  | NI_SSE_Max => return INS_maxps
  | NI_SSE_MaxScalar => return INS_maxss
  | NI_SSE_Min => return INS_minps
  | NI_SSE_MinScalar => return INS_minss
  | NI_SSE_MoveHighToLow => return INS_movhlps
  | NI_SSE_MoveLowToHigh => return INS_movlhps
  | NI_SSE_MoveMask => return INS_movmskps
  | NI_SSE_Multiply => return INS_mulps
  | NI_SSE_MultiplyScalar => return INS_mulss
  | NI_SSE_Or => return INS_orps
  | NI_SSE_Reciprocal => return INS_rcpps
  | NI_SSE_ReciprocalScalar => return INS_rcpss
  | NI_SSE_ReciprocalSqrt => return INS_rsqrtps
  | NI_SSE_ReciprocalSqrtScalar => return INS_rsqrtss
  | NI_SSE_Sqrt => return INS_sqrtps
  | NI_SSE_SqrtScalar => return INS_sqrtss
  | NI_SSE_Subtract => return INS_subps
  | NI_SSE_SubtractScalar => return INS_subss
  | NI_SSE_UnpackHigh => return INS_unpckhps
  | NI_SSE_UnpackLow => return INS_unpcklps
  | NI_SSE_Xor => return INS_xorps
  | _ => return INS_invalid

/-! ## The vector type registry -/

/-- The class-handle members of the compiler that
`gtGetStructHandleForHWSIMD` can return, by name, and `NO_CLASS_HANDLE`. -/
inductive HWSIMDHandle where
  | NO_CLASS_HANDLE
  | Vector128FloatHandle
  | Vector128DoubleHandle
  | Vector128IntHandle
  | Vector128UShortHandle
  | Vector128UByteHandle
  | Vector128ShortHandle
  | Vector128ByteHandle
  | Vector128LongHandle
  | Vector128UIntHandle
  | Vector128ULongHandle
  | Vector256FloatHandle
  | Vector256DoubleHandle
  | Vector256IntHandle
  | Vector256UShortHandle
  | Vector256UByteHandle
  | Vector256ShortHandle
  | Vector256ByteHandle
  | Vector256LongHandle
  | Vector256UIntHandle
  | Vector256ULongHandle
  deriving DecidableEq, Repr

open HWSIMDHandle

/-- `Compiler::gtGetStructHandleForHWSIMD`; after the assertion of a default
branch control leaves the switch and reaches the final return. -/
def gtGetStructHandleForHWSIMD (C : Compiler) (simdType simdBaseType : var_types) :
    Except Fault HWSIMDHandle :=
  if simdType = TYP_SIMD16 then
    match simdBaseType with
    | TYP_FLOAT => return Vector128FloatHandle
    | TYP_DOUBLE => return Vector128DoubleHandle
    | TYP_INT => return Vector128IntHandle
    | TYP_USHORT => return Vector128UShortHandle
    | TYP_UBYTE => return Vector128UByteHandle
    | TYP_SHORT => return Vector128ShortHandle
    | TYP_BYTE => return Vector128ByteHandle
    | TYP_LONG => return Vector128LongHandle
    | TYP_UINT => return Vector128UIntHandle
    | TYP_ULONG => return Vector128ULongHandle
    | _ => do
      C.assert false
      return NO_CLASS_HANDLE
  else if simdType = TYP_SIMD32 then
    match simdBaseType with
    | TYP_FLOAT => return Vector256FloatHandle
    | TYP_DOUBLE => return Vector256DoubleHandle
    | TYP_INT => return Vector256IntHandle
    | TYP_USHORT => return Vector256UShortHandle
    | TYP_UBYTE => return Vector256UByteHandle
    | TYP_SHORT => return Vector256ShortHandle
    | TYP_BYTE => return Vector256ByteHandle
    | TYP_LONG => return Vector256LongHandle
    | TYP_UINT => return Vector256UIntHandle
    | TYP_ULONG => return Vector256ULongHandle
    | _ => do
      C.assert false
      return NO_CLASS_HANDLE
  else
    return NO_CLASS_HANDLE

/-! ## Expression nodes and the operand stack -/

/-- The expression nodes this layer builds or inspects.  `GT_Opaque` stands for
a node built before the call whose shape the layer does not look into. -/
inductive GenTree where
  | GT_CNS_INT (gtIconVal : Int) (gtType : var_types)
  | GT_Opaque (id : Nat) (gtType : var_types)
  | MustThrowException (helper : CorInfoHelpFunc) (gtType : var_types)
      (clsHnd : CORINFO_CLASS_HANDLE)
  | GT_HWIntrinsic0 (gtType : var_types) (gtHWIntrinsicId : NamedIntrinsic)
      (gtSIMDBaseType : var_types) (gtSIMDSize : Nat)
  | GT_HWIntrinsic1 (gtType : var_types) (op1 : GenTree) (gtHWIntrinsicId : NamedIntrinsic)
      (gtSIMDBaseType : var_types) (gtSIMDSize : Nat)
  | GT_HWIntrinsic2 (gtType : var_types) (op1 op2 : GenTree) (gtHWIntrinsicId : NamedIntrinsic)
      (gtSIMDBaseType : var_types) (gtSIMDSize : Nat)
  | GT_HWIntrinsic3 (gtType : var_types) (op1 op2 op3 : GenTree)
      (gtHWIntrinsicId : NamedIntrinsic) (gtSIMDBaseType : var_types) (gtSIMDSize : Nat)
  deriving DecidableEq, Repr

open GenTree CorInfoHelpFunc

/-- `GenTree::IsCnsIntOrI`. -/
def GenTree.IsCnsIntOrI : GenTree → Bool
  | GT_CNS_INT _ _ => true
  | _ => false

/-- Modelled from the spec: the node factory is not under `src/`. A constant
node; a call that leaves the type out passes `TYP_INT`. -/
def gtNewIconNode (value : Int) (type : var_types) : GenTree :=
  GT_CNS_INT value type

/-- Modelled from the spec: the node factory is not under `src/`. The
hardware-operation node without operand, tagged with base type and width. -/
def gtNewSimdHWIntrinsicNode0 (type : var_types) (hwIntrinsicID : NamedIntrinsic)
    (baseType : var_types) (size : Nat) : GenTree :=
  GT_HWIntrinsic0 type hwIntrinsicID baseType size

/-- Modelled from the spec: the one-operand overload. -/
def gtNewSimdHWIntrinsicNode1 (type : var_types) (op1 : GenTree)
    (hwIntrinsicID : NamedIntrinsic) (baseType : var_types) (size : Nat) : GenTree :=
  GT_HWIntrinsic1 type op1 hwIntrinsicID baseType size

/-- Modelled from the spec: the two-operand overload. -/
def gtNewSimdHWIntrinsicNode2 (type : var_types) (op1 op2 : GenTree)
    (hwIntrinsicID : NamedIntrinsic) (baseType : var_types) (size : Nat) : GenTree :=
  GT_HWIntrinsic2 type op1 op2 hwIntrinsicID baseType size

/-- Modelled from the spec: the three-operand overload. -/
def gtNewSimdHWIntrinsicNode3 (type : var_types) (op1 op2 op3 : GenTree)
    (hwIntrinsicID : NamedIntrinsic) (baseType : var_types) (size : Nat) : GenTree :=
  GT_HWIntrinsic3 type op1 op2 op3 hwIntrinsicID baseType size

/-- Modelled from the spec: the node factory is not under `src/`. A scalar
hardware-operation node is untagged by width: base type `TYP_UNKNOWN`, size 0. -/
def gtNewScalarHWIntrinsicNode1 (type : var_types) (op1 : GenTree)
    (hwIntrinsicID : NamedIntrinsic) : GenTree :=
  GT_HWIntrinsic1 type op1 hwIntrinsicID TYP_UNKNOWN 0

/-- Modelled from the spec: the two-operand scalar overload. -/
def gtNewScalarHWIntrinsicNode2 (type : var_types) (op1 op2 : GenTree)
    (hwIntrinsicID : NamedIntrinsic) : GenTree :=
  GT_HWIntrinsic2 type op1 op2 hwIntrinsicID TYP_UNKNOWN 0

/-- The assignment `node->gtHWIntrinsic.gtSIMDBaseType = baseType`. -/
def GenTree.setSIMDBaseType (baseType : var_types) : GenTree → GenTree
  | GT_HWIntrinsic0 t id _ sz => GT_HWIntrinsic0 t id baseType sz
  | GT_HWIntrinsic1 t a id _ sz => GT_HWIntrinsic1 t a id baseType sz
  | GT_HWIntrinsic2 t a b id _ sz => GT_HWIntrinsic2 t a b id baseType sz
  | GT_HWIntrinsic3 t a b c id _ sz => GT_HWIntrinsic3 t a b c id baseType sz
  | node => node

/-- Modelled from the spec: the node factory is not under `src/`. A must-throw
node carries the helper that raises the fault and the declared type. -/
def gtNewMustThrowException (helper : CorInfoHelpFunc) (type : var_types)
    (clsHnd : CORINFO_CLASS_HANDLE) : GenTree :=
  MustThrowException helper type clsHnd

/-- Conversion of a C++ `bool` to an integer. -/
def boolToInt (b : Bool) : Int := if b then 1 else 0

/-- The importer's operand stack, top first (`StackEntry::val` only). -/
abbrev Stack := List GenTree

/-- Modelled from the spec: `impPopStack` is not under `src/`. It removes and
yields the top entry; popping an empty stack aborts the import. -/
def impPopStack (stk : Stack) : Except Fault (GenTree × Stack) :=
  match stk with
  | [] => .error .stackUnderflow
  | t :: rest => .ok (t, rest)

/-- Modelled from the spec: `impStackTop` is not under `src/`. It yields the
top entry and leaves the stack as it is. -/
def impStackTop (stk : Stack) : Except Fault GenTree :=
  match stk with
  | [] => .error .stackUnderflow
  | t :: _ => .ok t

/-- Modelled from the spec: `impSIMDPopStack` is not under `src/`. The
pop-one-vector operation removes and yields the top entry. -/
def impSIMDPopStack (_type : var_types) (stk : Stack) : Except Fault (GenTree × Stack) :=
  impPopStack stk

/-! ## The unsupported-call policy -/

/-- The loop `for (unsigned i = 0; i < sig->numArgs; i++) impPopStack();` with
`remaining` iterations left. -/
def impUnsupportedHWIntrinsicLoop : (remaining : Nat) → Stack → Except Fault Stack
  | 0, stk => .ok stk
  | remaining + 1, stk => do
    let (_, stk) ← impPopStack stk
    impUnsupportedHWIntrinsicLoop remaining stk

/-- `Compiler::impUnsupportedHWIntrinsic`. -/
def impUnsupportedHWIntrinsic (C : Compiler) (helper : CorInfoHelpFunc)
    (_method : CORINFO_METHOD_HANDLE) (sig : CORINFO_SIG_INFO) (mustExpand : Bool)
    (stk : Stack) : Except Fault (Option GenTree × Stack) :=
  if mustExpand then do
    let stk ← impUnsupportedHWIntrinsicLoop sig.numArgs stk
    return (some (gtNewMustThrowException helper (C.JITtype2varType sig.retType)
      sig.retTypeClass), stk)
  else
    return (none, stk)

/-! ## The per-family expanders -/

/-- `Compiler::impSSEIntrinsic`. -/
def impSSEIntrinsic (C : Compiler) (intrinsic : NamedIntrinsic) (method : CORINFO_METHOD_HANDLE)
    (sig : CORINFO_SIG_INFO) (mustExpand : Bool) (stk : Stack) :
    Except Fault (Option GenTree × Stack) :=
  match intrinsic with
  | NI_SSE_SetVector128 => do
    C.assert (sig.numArgs == 4)
    C.assert (C.getBaseTypeOfSIMDType sig.retTypeSigClass == TYP_FLOAT)
    let (op4, stk) ← impPopStack stk
    let (op3, stk) ← impPopStack stk
    let (op2, stk) ← impPopStack stk
    let (op1, stk) ← impPopStack stk
    let left := gtNewSimdHWIntrinsicNode2 TYP_SIMD16 op4 op3 NI_SSE_UnpackLow TYP_FLOAT 16
    let right := gtNewSimdHWIntrinsicNode2 TYP_SIMD16 op2 op1 NI_SSE_UnpackLow TYP_FLOAT 16
    let control := gtNewIconNode 68 TYP_UBYTE
    return (some (gtNewSimdHWIntrinsicNode3 TYP_SIMD16 left right control NI_SSE_Shuffle
      TYP_FLOAT 16), stk)
  | NI_SSE_Shuffle => do
    C.assert (sig.numArgs == 3)
    C.assert (C.getBaseTypeOfSIMDType sig.retTypeSigClass == TYP_FLOAT)
    let op3 ← impStackTop stk
    if op3.IsCnsIntOrI || mustExpand then
      let (_, stk) ← impPopStack stk
      let (op2, stk) ← impSIMDPopStack TYP_SIMD16 stk
      let (op1, stk) ← impSIMDPopStack TYP_SIMD16 stk
      return (some (gtNewSimdHWIntrinsicNode3 TYP_SIMD16 op1 op2 op3 intrinsic TYP_FLOAT 16), stk)
    else
      return (none, stk)
  | NI_SSE_Add
  | NI_SSE_AddScalar
  | NI_SSE_And
  | NI_SSE_AndNot
  | NI_SSE_CompareEqual
  | NI_SSE_CompareEqualScalar
  | NI_SSE_CompareGreaterThan
  | NI_SSE_CompareGreaterThanScalar
  | NI_SSE_CompareGreaterThanOrEqual
  | NI_SSE_CompareGreaterThanOrEqualScalar
  | NI_SSE_CompareLessThan
  | NI_SSE_CompareLessThanScalar
  | NI_SSE_CompareLessThanOrEqual
  | NI_SSE_CompareLessThanOrEqualScalar
  | NI_SSE_CompareNotEqual
  | NI_SSE_CompareNotEqualScalar
  | NI_SSE_CompareNotGreaterThan
  | NI_SSE_CompareNotGreaterThanScalar
  | NI_SSE_CompareNotGreaterThanOrEqual
  | NI_SSE_CompareNotGreaterThanOrEqualScalar
  | NI_SSE_CompareNotLessThan
  | NI_SSE_CompareNotLessThanScalar
  | NI_SSE_CompareNotLessThanOrEqual
  | NI_SSE_CompareNotLessThanOrEqualScalar
  | NI_SSE_CompareOrdered
  | NI_SSE_CompareOrderedScalar
  | NI_SSE_CompareUnordered
  | NI_SSE_CompareUnorderedScalar
  | NI_SSE_Divide
  | NI_SSE_DivideScalar
  | NI_SSE_Max
  | NI_SSE_MaxScalar
  | NI_SSE_Min
  | NI_SSE_MinScalar
  | NI_SSE_MoveHighToLow
  | NI_SSE_MoveLowToHigh
  | NI_SSE_MoveScalar
  | NI_SSE_Multiply
  | NI_SSE_MultiplyScalar
  | NI_SSE_Or
  | NI_SSE_Subtract
  | NI_SSE_SubtractScalar
  | NI_SSE_UnpackHigh
  | NI_SSE_UnpackLow
  | NI_SSE_Xor => do
    C.assert (sig.numArgs == 2)
    C.assert (C.getBaseTypeOfSIMDType sig.retTypeSigClass == TYP_FLOAT)
    let (op2, stk) ← impSIMDPopStack TYP_SIMD16 stk
    let (op1, stk) ← impSIMDPopStack TYP_SIMD16 stk
    return (some (gtNewSimdHWIntrinsicNode2 TYP_SIMD16 op1 op2 intrinsic TYP_FLOAT 16), stk)
  | NI_SSE_CompareEqualOrderedScalar
  | NI_SSE_CompareEqualUnorderedScalar
  | NI_SSE_CompareGreaterThanOrderedScalar
  | NI_SSE_CompareGreaterThanUnorderedScalar
  | NI_SSE_CompareGreaterThanOrEqualOrderedScalar
  | NI_SSE_CompareGreaterThanOrEqualUnorderedScalar
  | NI_SSE_CompareLessThanOrderedScalar
  | NI_SSE_CompareLessThanUnorderedScalar
  | NI_SSE_CompareLessThanOrEqualOrderedScalar
  | NI_SSE_CompareLessThanOrEqualUnorderedScalar
  | NI_SSE_CompareNotEqualOrderedScalar
  | NI_SSE_CompareNotEqualUnorderedScalar => do
    C.assert (sig.numArgs == 2)
    C.assert (C.JITtype2varType sig.retType == TYP_BOOL)
    C.assert (C.getBaseTypeOfSIMDType (C.getArgClass sig sig.args) == TYP_FLOAT)
    let (op2, stk) ← impSIMDPopStack TYP_SIMD16 stk
    let (op1, stk) ← impSIMDPopStack TYP_SIMD16 stk
    return (some (gtNewSimdHWIntrinsicNode2 TYP_BOOL op1 op2 intrinsic TYP_FLOAT 16), stk)
  | NI_SSE_ConvertToVector128SingleScalar => do
    C.assert (sig.numArgs == 2)
    C.assert (C.getBaseTypeOfSIMDType sig.retTypeSigClass == TYP_FLOAT)
    let argLst := C.getArgNext sig.args
    let corType := C.strip (C.getArgType sig argLst)
    if C.TARGET_X86 && C.varTypeIsLong (C.JITtype2varType corType) then
      impUnsupportedHWIntrinsic C CORINFO_HELP_THROW_PLATFORM_NOT_SUPPORTED method sig
        mustExpand stk
    else
      let (op2, stk) ← impPopStack stk
      let (op1, stk) ← impSIMDPopStack TYP_SIMD16 stk
      return (some (gtNewSimdHWIntrinsicNode2 TYP_SIMD16 op1 op2 intrinsic TYP_FLOAT 16), stk)
  | NI_SSE_LoadHigh
  | NI_SSE_LoadLow => do
    C.assert (sig.numArgs == 2)
    C.assert (C.getBaseTypeOfSIMDType sig.retTypeSigClass == TYP_FLOAT)
    let (op2, stk) ← impPopStack stk
    let (op1, stk) ← impSIMDPopStack TYP_SIMD16 stk
    return (some (gtNewSimdHWIntrinsicNode2 TYP_SIMD16 op1 op2 intrinsic TYP_FLOAT 16), stk)
  | NI_SSE_MoveMask => do
    C.assert (sig.numArgs == 1)
    C.assert (C.JITtype2varType sig.retType == TYP_INT)
    C.assert (C.getBaseTypeOfSIMDType (C.getArgClass sig sig.args) == TYP_FLOAT)
    let (op1, stk) ← impSIMDPopStack TYP_SIMD16 stk
    return (some (gtNewSimdHWIntrinsicNode1 TYP_INT op1 intrinsic TYP_FLOAT 16), stk)
  | NI_SSE_StaticCast => do
    C.assert (sig.numArgs == 1)
    let tgtType := C.getBaseTypeOfSIMDType sig.retTypeSigClass
    let srcType := C.getBaseTypeOfSIMDType (C.getArgClass sig sig.args)
    if C.varTypeIsArithmetic tgtType && C.varTypeIsArithmetic srcType then
      let (op1, stk) ← impSIMDPopStack TYP_SIMD16 stk
      return (some (gtNewSimdHWIntrinsicNode1 TYP_SIMD16 op1 intrinsic tgtType 16), stk)
    else
      impUnsupportedHWIntrinsic C CORINFO_HELP_THROW_PLATFORM_NOT_SUPPORTED method sig
        mustExpand stk
  | NI_SSE_LoadAlignedVector128
  | NI_SSE_LoadScalar
  | NI_SSE_LoadVector128
  | NI_SSE_SetAllVector128
  | NI_SSE_SetScalar => do
    C.assert (sig.numArgs == 1)
    C.assert (C.getBaseTypeOfSIMDType sig.retTypeSigClass == TYP_FLOAT)
    let (op1, stk) ← impPopStack stk
    return (some (gtNewSimdHWIntrinsicNode1 TYP_SIMD16 op1 intrinsic TYP_FLOAT 16), stk)
  | NI_SSE_Reciprocal
  | NI_SSE_ReciprocalScalar
  | NI_SSE_ReciprocalSqrt
  | NI_SSE_ReciprocalSqrtScalar
  | NI_SSE_Sqrt
  | NI_SSE_SqrtScalar => do
    C.assert (sig.numArgs == 1)
    C.assert (C.getBaseTypeOfSIMDType sig.retTypeSigClass == TYP_FLOAT)
    let (op1, stk) ← impSIMDPopStack TYP_SIMD16 stk
    return (some (gtNewSimdHWIntrinsicNode1 TYP_SIMD16 op1 intrinsic TYP_FLOAT 16), stk)
  | NI_SSE_ConvertToInt32
  | NI_SSE_ConvertToInt32WithTruncation
  | NI_SSE_ConvertToInt64
  | NI_SSE_ConvertToInt64WithTruncation
  | NI_SSE_ConvertToSingle => do
    C.assert (sig.numArgs == 1)
    C.assert (C.getBaseTypeOfSIMDType (C.getArgClass sig sig.args) == TYP_FLOAT)
    let callType := C.JITtype2varType sig.retType
    if C.TARGET_X86 && C.varTypeIsLong callType then
      C.assert (decide (intrinsic = NI_SSE_ConvertToInt64) ||
        decide (intrinsic = NI_SSE_ConvertToInt64WithTruncation))
      impUnsupportedHWIntrinsic C CORINFO_HELP_THROW_PLATFORM_NOT_SUPPORTED method sig
        mustExpand stk
    else
      let (op1, stk) ← impSIMDPopStack TYP_SIMD16 stk
      return (some (gtNewSimdHWIntrinsicNode1 callType op1 intrinsic TYP_FLOAT 16), stk)
  | NI_SSE_SetZeroVector128 => do
    C.assert (sig.numArgs == 0)
    C.assert (C.getBaseTypeOfSIMDType sig.retTypeSigClass == TYP_FLOAT)
    return (some (gtNewSimdHWIntrinsicNode0 TYP_SIMD16 intrinsic TYP_FLOAT 16), stk)
  | _ => return (none, stk)

/-- `Compiler::impSSE2Intrinsic`. -/
def impSSE2Intrinsic (C : Compiler) (intrinsic : NamedIntrinsic) (_method : CORINFO_METHOD_HANDLE)
    (sig : CORINFO_SIG_INFO) (_mustExpand : Bool) (stk : Stack) :
    Except Fault (Option GenTree × Stack) :=
  match intrinsic with
  | NI_SSE2_Add => do
    C.assert (sig.numArgs == 2)
    let (op2, stk) ← impSIMDPopStack TYP_SIMD16 stk
    let (op1, stk) ← impSIMDPopStack TYP_SIMD16 stk
    let baseType := C.getBaseTypeOfSIMDType sig.retTypeSigClass
    return (some (gtNewSimdHWIntrinsicNode2 TYP_SIMD16 op1 op2 NI_SSE2_Add baseType 16), stk)
  | _ => return (none, stk)

/-- `Compiler::impSSE3Intrinsic`. -/
def impSSE3Intrinsic (_C : Compiler) (_intrinsic : NamedIntrinsic)
    (_method : CORINFO_METHOD_HANDLE) (_sig : CORINFO_SIG_INFO) (_mustExpand : Bool)
    (stk : Stack) : Except Fault (Option GenTree × Stack) :=
  return (none, stk)

/-- `Compiler::impSSSE3Intrinsic`. -/
def impSSSE3Intrinsic (_C : Compiler) (_intrinsic : NamedIntrinsic)
    (_method : CORINFO_METHOD_HANDLE) (_sig : CORINFO_SIG_INFO) (_mustExpand : Bool)
    (stk : Stack) : Except Fault (Option GenTree × Stack) :=
  return (none, stk)

/-- `Compiler::impSSE41Intrinsic`. -/
def impSSE41Intrinsic (_C : Compiler) (_intrinsic : NamedIntrinsic)
    (_method : CORINFO_METHOD_HANDLE) (_sig : CORINFO_SIG_INFO) (_mustExpand : Bool)
    (stk : Stack) : Except Fault (Option GenTree × Stack) :=
  return (none, stk)

/-- `Compiler::impSSE42Intrinsic`. -/
def impSSE42Intrinsic (C : Compiler) (intrinsic : NamedIntrinsic)
    (method : CORINFO_METHOD_HANDLE) (sig : CORINFO_SIG_INFO) (mustExpand : Bool)
    (stk : Stack) : Except Fault (Option GenTree × Stack) :=
  let callType := C.JITtype2varType sig.retType
  let argLst := sig.args
  match intrinsic with
  | NI_SSE42_Crc32 => do
    C.assert (sig.numArgs == 2)
    if C.TARGET_X86 && C.varTypeIsLong callType then
      impUnsupportedHWIntrinsic C CORINFO_HELP_THROW_PLATFORM_NOT_SUPPORTED method sig
        mustExpand stk
    else
      let (op2, stk) ← impPopStack stk
      let (op1, stk) ← impPopStack stk
      let argLst := C.getArgNext argLst
      let corType := C.strip (C.getArgType sig argLst)
      let retNode := gtNewScalarHWIntrinsicNode2 callType op1 op2 NI_SSE42_Crc32
      return (some (retNode.setSIMDBaseType (C.JITtype2varType corType)), stk)
  | _ => return (none, stk)

/-- `Compiler::impAVXIntrinsic`. -/
def impAVXIntrinsic (C : Compiler) (intrinsic : NamedIntrinsic) (_method : CORINFO_METHOD_HANDLE)
    (sig : CORINFO_SIG_INFO) (_mustExpand : Bool) (stk : Stack) :
    Except Fault (Option GenTree × Stack) :=
  match intrinsic with
  | NI_AVX_Add => do
    C.assert (sig.numArgs == 2)
    let (op2, stk) ← impSIMDPopStack TYP_SIMD32 stk
    let (op1, stk) ← impSIMDPopStack TYP_SIMD32 stk
    let baseType := C.getBaseTypeOfSIMDType sig.retTypeSigClass
    return (some (gtNewSimdHWIntrinsicNode2 TYP_SIMD32 op1 op2 NI_AVX_Add baseType 32), stk)
  | _ => return (none, stk)

/-- `Compiler::impAVX2Intrinsic`. -/
def impAVX2Intrinsic (C : Compiler) (intrinsic : NamedIntrinsic) (_method : CORINFO_METHOD_HANDLE)
    (sig : CORINFO_SIG_INFO) (_mustExpand : Bool) (stk : Stack) :
    Except Fault (Option GenTree × Stack) :=
  match intrinsic with
  | NI_AVX2_Add => do
    C.assert (sig.numArgs == 2)
    let (op2, stk) ← impSIMDPopStack TYP_SIMD32 stk
    let (op1, stk) ← impSIMDPopStack TYP_SIMD32 stk
    let baseType := C.getBaseTypeOfSIMDType sig.retTypeSigClass
    return (some (gtNewSimdHWIntrinsicNode2 TYP_SIMD32 op1 op2 NI_AVX2_Add baseType 32), stk)
  | _ => return (none, stk)

/-- `Compiler::impAESIntrinsic`. -/
def impAESIntrinsic (_C : Compiler) (_intrinsic : NamedIntrinsic)
    (_method : CORINFO_METHOD_HANDLE) (_sig : CORINFO_SIG_INFO) (_mustExpand : Bool)
    (stk : Stack) : Except Fault (Option GenTree × Stack) :=
  return (none, stk)

/-- `Compiler::impBMI1Intrinsic`. -/
def impBMI1Intrinsic (_C : Compiler) (_intrinsic : NamedIntrinsic)
    (_method : CORINFO_METHOD_HANDLE) (_sig : CORINFO_SIG_INFO) (_mustExpand : Bool)
    (stk : Stack) : Except Fault (Option GenTree × Stack) :=
  return (none, stk)

/-- `Compiler::impBMI2Intrinsic`. -/
def impBMI2Intrinsic (_C : Compiler) (_intrinsic : NamedIntrinsic)
    (_method : CORINFO_METHOD_HANDLE) (_sig : CORINFO_SIG_INFO) (_mustExpand : Bool)
    (stk : Stack) : Except Fault (Option GenTree × Stack) :=
  return (none, stk)

/-- `Compiler::impFMAIntrinsic`. -/
def impFMAIntrinsic (_C : Compiler) (_intrinsic : NamedIntrinsic)
    (_method : CORINFO_METHOD_HANDLE) (_sig : CORINFO_SIG_INFO) (_mustExpand : Bool)
    (stk : Stack) : Except Fault (Option GenTree × Stack) :=
  return (none, stk)

/-- `Compiler::impLZCNTIntrinsic`. -/
def impLZCNTIntrinsic (C : Compiler) (_intrinsic : NamedIntrinsic)
    (method : CORINFO_METHOD_HANDLE) (sig : CORINFO_SIG_INFO) (mustExpand : Bool)
    (stk : Stack) : Except Fault (Option GenTree × Stack) := do
  C.assert (sig.numArgs == 1)
  let callType := C.JITtype2varType sig.retType
  if C.TARGET_X86 && C.varTypeIsLong callType then
    impUnsupportedHWIntrinsic C CORINFO_HELP_THROW_PLATFORM_NOT_SUPPORTED method sig
      mustExpand stk
  else
    let (op1, stk) ← impPopStack stk
    return (some (gtNewScalarHWIntrinsicNode1 callType op1 NI_LZCNT_LeadingZeroCount), stk)

/-- `Compiler::impPCLMULQDQIntrinsic`. -/
def impPCLMULQDQIntrinsic (_C : Compiler) (_intrinsic : NamedIntrinsic)
    (_method : CORINFO_METHOD_HANDLE) (_sig : CORINFO_SIG_INFO) (_mustExpand : Bool)
    (stk : Stack) : Except Fault (Option GenTree × Stack) :=
  return (none, stk)

/-- `Compiler::impPOPCNTIntrinsic`. -/
def impPOPCNTIntrinsic (C : Compiler) (_intrinsic : NamedIntrinsic)
    (method : CORINFO_METHOD_HANDLE) (sig : CORINFO_SIG_INFO) (mustExpand : Bool)
    (stk : Stack) : Except Fault (Option GenTree × Stack) := do
  C.assert (sig.numArgs == 1)
  let callType := C.JITtype2varType sig.retType
  if C.TARGET_X86 && C.varTypeIsLong callType then
    impUnsupportedHWIntrinsic C CORINFO_HELP_THROW_PLATFORM_NOT_SUPPORTED method sig
      mustExpand stk
  else
    let (op1, stk) ← impPopStack stk
    return (some (gtNewScalarHWIntrinsicNode1 callType op1 NI_POPCNT_PopCount), stk)

/-! ## The dispatcher -/

/-- The expression `compSupports(isa) && compSupportsHWIntrinsic(isa)`. -/
def isSupportedISA (C : Compiler) (isa : InstructionSet) : Except Fault Bool :=
  if C.compSupports isa then compSupportsHWIntrinsic C isa else .ok false

/-- `Compiler::impX86HWIntrinsic`. -/
def impX86HWIntrinsic (K : Catalog) (C : Compiler) (intrinsic : NamedIntrinsic)
    (method : CORINFO_METHOD_HANDLE) (sig : CORINFO_SIG_INFO) (mustExpand : Bool)
    (stk : Stack) : Except Fault (Option GenTree × Stack) := do
  let isa ← isaOfHWIntrinsic K C intrinsic
  let issupported ← isSupportedISA C isa
  if isIntrinsicAnIsSupportedPropertyGetter intrinsic then
    return (some (gtNewIconNode (boolToInt issupported) TYP_INT), stk)
  else if !issupported then
    impUnsupportedHWIntrinsic C CORINFO_HELP_THROW_PLATFORM_NOT_SUPPORTED method sig
      mustExpand stk
  else
    match isa with
    | InstructionSet_SSE => impSSEIntrinsic C intrinsic method sig mustExpand stk
    | InstructionSet_SSE2 => impSSE2Intrinsic C intrinsic method sig mustExpand stk
    | InstructionSet_SSE3 => impSSE3Intrinsic C intrinsic method sig mustExpand stk
    | InstructionSet_SSSE3 => impSSSE3Intrinsic C intrinsic method sig mustExpand stk
    | InstructionSet_SSE41 => impSSE41Intrinsic C intrinsic method sig mustExpand stk
    | InstructionSet_SSE42 => impSSE42Intrinsic C intrinsic method sig mustExpand stk
    | InstructionSet_AVX => impAVXIntrinsic C intrinsic method sig mustExpand stk
    | InstructionSet_AVX2 => impAVX2Intrinsic C intrinsic method sig mustExpand stk
    | InstructionSet_AES => impAESIntrinsic C intrinsic method sig mustExpand stk
    | InstructionSet_BMI1 => impBMI1Intrinsic C intrinsic method sig mustExpand stk
    | InstructionSet_BMI2 => impBMI2Intrinsic C intrinsic method sig mustExpand stk
    | InstructionSet_FMA => impFMAIntrinsic C intrinsic method sig mustExpand stk
    | InstructionSet_LZCNT => impLZCNTIntrinsic C intrinsic method sig mustExpand stk
    | InstructionSet_PCLMULQDQ => impPCLMULQDQIntrinsic C intrinsic method sig mustExpand stk
    | InstructionSet_POPCNT => impPOPCNTIntrinsic C intrinsic method sig mustExpand stk
    | _ => return (none, stk)

/-! ## Vocabulary of the specification and sample inputs -/

/-- The fifteen instruction-set families. -/
def InstructionSet.families : List InstructionSet :=
  [InstructionSet_SSE, InstructionSet_SSE2, InstructionSet_SSE3, InstructionSet_SSSE3,
   InstructionSet_SSE41, InstructionSet_SSE42, InstructionSet_AVX, InstructionSet_AVX2,
   InstructionSet_AES, InstructionSet_BMI1, InstructionSet_BMI2, InstructionSet_FMA,
   InstructionSet_LZCNT, InstructionSet_PCLMULQDQ, InstructionSet_POPCNT]

/-- The fixed set of family labels of the specification, each with its family. -/
def knownFamilyLabels : List (String × InstructionSet) :=
  [("Aes", InstructionSet_AES), ("Avx", InstructionSet_AVX), ("Avx2", InstructionSet_AVX2),
   ("Sse", InstructionSet_SSE), ("Sse2", InstructionSet_SSE2), ("Sse3", InstructionSet_SSE3),
   ("Ssse3", InstructionSet_SSSE3), ("Sse41", InstructionSet_SSE41),
   ("Sse42", InstructionSet_SSE42), ("Bmi1", InstructionSet_BMI1),
   ("Bmi2", InstructionSet_BMI2), ("Fma", InstructionSet_FMA),
   ("Lzcnt", InstructionSet_LZCNT), ("Pclmulqdq", InstructionSet_PCLMULQDQ),
   ("Popcnt", InstructionSet_POPCNT)]

/-- The incomplete-family override as the code sees it: the configuration
switch, which only a DEBUG build reads. -/
def Compiler.incompleteOverride (C : Compiler) : Bool :=
  C.DEBUG && C.EnableIncompleteISAClass

/-- The array holds one row for each enumerator strictly between
`NI_HW_INTRINSIC_START` and `NI_HW_INTRINSIC_END`. -/
def Catalog.RowPerId (K : Catalog) : Prop :=
  K.hwIntrinsicInfoArray.length + 1 = K.stop - K.start

instance (K : Catalog) : Decidable K.RowPerId := by
  unfold Catalog.RowPerId; exact inferInstance

/-- The row at position `k` carries the identifier `NI_HW_INTRINSIC_START + 1 + k`. -/
def Catalog.RowsInEnumOrder (K : Catalog) : Prop :=
  ∀ k (h : k < K.hwIntrinsicInfoArray.length),
    K.enumValue (K.hwIntrinsicInfoArray.get ⟨k, h⟩).intrinsicID = K.start + 1 + k

/-- A compiler instance with every toggle given and simple type helpers:
type token 1 is `long`, token 2 is `float`, every other token is `int`; class
handle 1 is a vector of `float`; the argument list is numbered 0, 1, 2, ... -/
def sampleCompiler (debug x86 simd override hw : Bool) : Compiler :=
  ⟨debug, x86, simd, override, fun _ => hw,
   fun t => if t = 1 then TYP_LONG else if t = 2 then TYP_FLOAT else TYP_INT,
   fun c => if c = 1 then TYP_FLOAT else TYP_INT,
   fun t => t,
   fun a => a + 1,
   fun _ _ => 0,
   fun _ _ => 1,
   fun t => decide (t = TYP_LONG) || decide (t = TYP_ULONG),
   fun t => decide (t = TYP_INT) || decide (t = TYP_LONG) || decide (t = TYP_FLOAT)⟩

/-- An enum layout with six hardware intrinsics between the two markers; every
other enumerator lies above them. -/
def sampleEnumValue : NamedIntrinsic → Nat
  | NI_Illegal => 0
  | NI_HW_INTRINSIC_START => 1
  | NI_SSE_IsSupported => 2
  | NI_SSE_Add => 3
  | NI_SSE2_IsSupported => 4
  | NI_SSE2_Add => 5
  | NI_LZCNT_IsSupported => 6
  | NI_LZCNT_LeadingZeroCount => 7
  | NI_HW_INTRINSIC_END => 8
  | x => 100 + x.ctorCode

/-- Inverse of `sampleEnumValue`. -/
def sampleEnumDecode (v : Nat) : NamedIntrinsic :=
  if v < 100 then
    [NI_Illegal, NI_HW_INTRINSIC_START, NI_SSE_IsSupported, NI_SSE_Add, NI_SSE2_IsSupported,
     NI_SSE2_Add, NI_LZCNT_IsSupported, NI_LZCNT_LeadingZeroCount,
     NI_HW_INTRINSIC_END].getD v NI_Illegal
  else NamedIntrinsic.ofCtorCode (v - 100)

/-- The catalog over `sampleEnumValue`: one row per declared identifier. -/
def sampleCatalog : Catalog :=
  ⟨sampleEnumValue,
   [⟨NI_SSE_IsSupported, "get_IsSupported", InstructionSet_SSE⟩,
    ⟨NI_SSE_Add, "Add", InstructionSet_SSE⟩,
    ⟨NI_SSE2_IsSupported, "get_IsSupported", InstructionSet_SSE2⟩,
    ⟨NI_SSE2_Add, "Add", InstructionSet_SSE2⟩,
    ⟨NI_LZCNT_IsSupported, "get_IsSupported", InstructionSet_LZCNT⟩,
    ⟨NI_LZCNT_LeadingZeroCount, "LeadingZeroCount", InstructionSet_LZCNT⟩]⟩

/-- A signature with two arguments, returning `int`. -/
def sampleSig2 : CORINFO_SIG_INFO := ⟨0, 0, 1, 2, 0⟩

/-- The catalog is laid out as the enum declares it: enumerators have distinct
values, `NI_Illegal` is not above `NI_HW_INTRINSIC_START`, and the array holds
the declared identifiers in enum order, one row each. -/
structure Catalog.WellFormed (K : Catalog) : Prop where
  distinct : Function.Injective K.enumValue
  illegalBelow : K.enumValue NI_Illegal ≤ K.start
  rowPerId : K.RowPerId
  rowsInEnumOrder : K.RowsInEnumOrder

/-- The specification's scan of a label set: the family of the first entry
whose label equals the query, the illegal sentinel when there is none. -/
def resolveFamilyIn : List (String × InstructionSet) → String → InstructionSet
  | [], _ => InstructionSet_ILLEGAL
  | (known, family) :: rest, label =>
    if label = known then family else resolveFamilyIn rest label

/-- The specification's `resolveFamily`: an exact match against the fixed label
set; a missing label resolves to the illegal sentinel. -/
def resolveFamilySpec (label : Option String) : InstructionSet :=
  match label with
  | none => InstructionSet_ILLEGAL
  | some s => resolveFamilyIn knownFamilyLabels s

/-- One step of the scan: a row that matches replaces the running result. -/
def scanStep (methodName : String) (isa : InstructionSet) (result : NamedIntrinsic)
    (e : HWIntrinsicInfo) : NamedIntrinsic :=
  if isa = e.isa ∧ methodName = e.intrinsicName then e.intrinsicID else result

/-- The last row of `rows` with the given family and name. -/
def lastMatchingRow (methodName : String) (isa : InstructionSet)
    (rows : List HWIntrinsicInfo) : Option HWIntrinsicInfo :=
  rows.reverse.find? (fun e => decide (isa = e.isa ∧ methodName = e.intrinsicName))

/-- A stack of three operands. -/
def sampleStack : Stack :=
  [GT_Opaque 1 TYP_SIMD16, GT_Opaque 2 TYP_SIMD16, GT_Opaque 3 TYP_INT]

/-! ## Vocabulary and sample inputs for the selectors, the registry and the expanders -/

/-- The identifier is a declared hardware intrinsic: not `NI_Illegal` and
strictly between `NI_HW_INTRINSIC_START` and `NI_HW_INTRINSIC_END`. -/
def Catalog.Declares (K : Catalog) (intrinsic : NamedIntrinsic) : Prop :=
  intrinsic ≠ NI_Illegal ∧ K.start < K.enumValue intrinsic ∧ K.enumValue intrinsic < K.stop

instance (K : Catalog) (intrinsic : NamedIntrinsic) : Decidable (K.Declares intrinsic) := by
  unfold Catalog.Declares; exact inferInstance

/-- The predicate-immediate table of the specification: each packed
float-compare intrinsic with its scalar twin and its predicate code. -/
def packedCompareCodes : List (NamedIntrinsic × NamedIntrinsic × Int) :=
  [(NI_SSE_CompareEqual, NI_SSE_CompareEqualScalar, 0),
   (NI_SSE_CompareLessThan, NI_SSE_CompareLessThanScalar, 1),
   (NI_SSE_CompareLessThanOrEqual, NI_SSE_CompareLessThanOrEqualScalar, 2),
   (NI_SSE_CompareUnordered, NI_SSE_CompareUnorderedScalar, 3),
   (NI_SSE_CompareNotEqual, NI_SSE_CompareNotEqualScalar, 4),
   (NI_SSE_CompareGreaterThanOrEqual, NI_SSE_CompareGreaterThanOrEqualScalar, 5),
   (NI_SSE_CompareGreaterThan, NI_SSE_CompareGreaterThanScalar, 6),
   (NI_SSE_CompareOrdered, NI_SSE_CompareOrderedScalar, 7),
   (NI_SSE_CompareNotGreaterThanOrEqual, NI_SSE_CompareNotGreaterThanOrEqualScalar, 1),
   (NI_SSE_CompareNotGreaterThan, NI_SSE_CompareNotGreaterThanScalar, 2),
   (NI_SSE_CompareNotLessThan, NI_SSE_CompareNotLessThanScalar, 5),
   (NI_SSE_CompareNotLessThanOrEqual, NI_SSE_CompareNotLessThanOrEqualScalar, 6)]

/-- The 24 predicate intrinsics: the twelve packed compares and their scalar twins. -/
def predicateIntrinsics : List NamedIntrinsic :=
  packedCompareCodes.map (fun p => p.1) ++ packedCompareCodes.map (fun p => p.2.1)

/-- The two-operand element-wise intrinsics of the float-vector family. -/
def binaryElementwise : List NamedIntrinsic :=
  [NI_SSE_Add, NI_SSE_AddScalar, NI_SSE_And, NI_SSE_AndNot, NI_SSE_CompareEqual,
   NI_SSE_CompareEqualScalar, NI_SSE_CompareGreaterThan, NI_SSE_CompareGreaterThanScalar,
   NI_SSE_CompareGreaterThanOrEqual, NI_SSE_CompareGreaterThanOrEqualScalar,
   NI_SSE_CompareLessThan, NI_SSE_CompareLessThanScalar, NI_SSE_CompareLessThanOrEqual,
   NI_SSE_CompareLessThanOrEqualScalar, NI_SSE_CompareNotEqual, NI_SSE_CompareNotEqualScalar,
   NI_SSE_CompareNotGreaterThan, NI_SSE_CompareNotGreaterThanScalar,
   NI_SSE_CompareNotGreaterThanOrEqual, NI_SSE_CompareNotGreaterThanOrEqualScalar,
   NI_SSE_CompareNotLessThan, NI_SSE_CompareNotLessThanScalar,
   NI_SSE_CompareNotLessThanOrEqual, NI_SSE_CompareNotLessThanOrEqualScalar,
   NI_SSE_CompareOrdered, NI_SSE_CompareOrderedScalar, NI_SSE_CompareUnordered,
   NI_SSE_CompareUnorderedScalar, NI_SSE_Divide, NI_SSE_DivideScalar, NI_SSE_Max,
   NI_SSE_MaxScalar, NI_SSE_Min, NI_SSE_MinScalar, NI_SSE_MoveHighToLow, NI_SSE_MoveLowToHigh,
   NI_SSE_MoveScalar, NI_SSE_Multiply, NI_SSE_MultiplyScalar, NI_SSE_Or, NI_SSE_Subtract,
   NI_SSE_SubtractScalar, NI_SSE_UnpackHigh, NI_SSE_UnpackLow, NI_SSE_Xor]

/-- The one-operand element-wise intrinsics of the float-vector family. -/
def unaryElementwise : List NamedIntrinsic :=
  [NI_SSE_Reciprocal, NI_SSE_ReciprocalScalar, NI_SSE_ReciprocalSqrt,
   NI_SSE_ReciprocalSqrtScalar, NI_SSE_Sqrt, NI_SSE_SqrtScalar]

/-- The closed grid of the vector type registry: each (width, element type)
pair with the handle slot designated for it. -/
def handleGrid : List ((var_types × var_types) × HWSIMDHandle) :=
  [((TYP_SIMD16, TYP_BYTE), Vector128ByteHandle), ((TYP_SIMD16, TYP_UBYTE), Vector128UByteHandle),
   ((TYP_SIMD16, TYP_SHORT), Vector128ShortHandle),
   ((TYP_SIMD16, TYP_USHORT), Vector128UShortHandle),
   ((TYP_SIMD16, TYP_INT), Vector128IntHandle), ((TYP_SIMD16, TYP_UINT), Vector128UIntHandle),
   ((TYP_SIMD16, TYP_LONG), Vector128LongHandle), ((TYP_SIMD16, TYP_ULONG), Vector128ULongHandle),
   ((TYP_SIMD16, TYP_FLOAT), Vector128FloatHandle),
   ((TYP_SIMD16, TYP_DOUBLE), Vector128DoubleHandle),
   ((TYP_SIMD32, TYP_BYTE), Vector256ByteHandle), ((TYP_SIMD32, TYP_UBYTE), Vector256UByteHandle),
   ((TYP_SIMD32, TYP_SHORT), Vector256ShortHandle),
   ((TYP_SIMD32, TYP_USHORT), Vector256UShortHandle),
   ((TYP_SIMD32, TYP_INT), Vector256IntHandle), ((TYP_SIMD32, TYP_UINT), Vector256UIntHandle),
   ((TYP_SIMD32, TYP_LONG), Vector256LongHandle), ((TYP_SIMD32, TYP_ULONG), Vector256ULongHandle),
   ((TYP_SIMD32, TYP_FLOAT), Vector256FloatHandle),
   ((TYP_SIMD32, TYP_DOUBLE), Vector256DoubleHandle)]

/-- The widths of the grid. -/
def gridWidths : List var_types := [TYP_SIMD16, TYP_SIMD32]

/-- The element types of the grid. -/
def gridElementTypes : List var_types :=
  [TYP_BYTE, TYP_UBYTE, TYP_SHORT, TYP_USHORT, TYP_INT, TYP_UINT, TYP_LONG, TYP_ULONG,
   TYP_FLOAT, TYP_DOUBLE]

/-- The unsupported-call policy of the specification: no expansion and an
untouched stack when the call may still become an ordinary call; otherwise the
declared number of operands is dropped and a must-throw node of the declared
return type, raising platform-not-supported, is produced. -/
def unsupportedCallOutcome (C : Compiler) (sig : CORINFO_SIG_INFO) (mustExpand : Bool)
    (stk : Stack) : Option GenTree × Stack :=
  if mustExpand then
    (some (MustThrowException CORINFO_HELP_THROW_PLATFORM_NOT_SUPPORTED
      (C.JITtype2varType sig.retType) sig.retTypeClass), stk.drop sig.numArgs)
  else (none, stk)

/-- An enum layout in which every hardware intrinsic that the file names lies
between the two markers, in the order of the constructors. -/
def fullEnumValue : NamedIntrinsic → Nat
  | NI_Illegal => 0
  | NI_HW_INTRINSIC_START => 4
  | NI_HW_INTRINSIC_END => 107
  | NI_Other n => 108 + n
  | x => x.ctorCode + 2

/-- A catalog over `fullEnumValue` with one row per named hardware intrinsic. -/
def fullCatalog : Catalog :=
  Catalog.mk fullEnumValue
  [HWIntrinsicInfo.mk NamedIntrinsic.NI_SSE_IsSupported "get_IsSupported" InstructionSet.InstructionSet_SSE,
   HWIntrinsicInfo.mk NamedIntrinsic.NI_SSE2_IsSupported "get_IsSupported" InstructionSet.InstructionSet_SSE2,
   HWIntrinsicInfo.mk NamedIntrinsic.NI_SSE3_IsSupported "get_IsSupported" InstructionSet.InstructionSet_SSE3,
   HWIntrinsicInfo.mk NamedIntrinsic.NI_SSSE3_IsSupported "get_IsSupported" InstructionSet.InstructionSet_SSSE3,
   HWIntrinsicInfo.mk NamedIntrinsic.NI_SSE41_IsSupported "get_IsSupported" InstructionSet.InstructionSet_SSE41,
   HWIntrinsicInfo.mk NamedIntrinsic.NI_SSE42_IsSupported "get_IsSupported" InstructionSet.InstructionSet_SSE42,
   HWIntrinsicInfo.mk NamedIntrinsic.NI_AVX_IsSupported "get_IsSupported" InstructionSet.InstructionSet_AVX,
   HWIntrinsicInfo.mk NamedIntrinsic.NI_AVX2_IsSupported "get_IsSupported" InstructionSet.InstructionSet_AVX2,
   HWIntrinsicInfo.mk NamedIntrinsic.NI_AES_IsSupported "get_IsSupported" InstructionSet.InstructionSet_AES,
   HWIntrinsicInfo.mk NamedIntrinsic.NI_BMI1_IsSupported "get_IsSupported" InstructionSet.InstructionSet_BMI1,
   HWIntrinsicInfo.mk NamedIntrinsic.NI_BMI2_IsSupported "get_IsSupported" InstructionSet.InstructionSet_BMI2,
   HWIntrinsicInfo.mk NamedIntrinsic.NI_FMA_IsSupported "get_IsSupported" InstructionSet.InstructionSet_FMA,
   HWIntrinsicInfo.mk NamedIntrinsic.NI_LZCNT_IsSupported "get_IsSupported" InstructionSet.InstructionSet_LZCNT,
   HWIntrinsicInfo.mk NamedIntrinsic.NI_PCLMULQDQ_IsSupported "get_IsSupported" InstructionSet.InstructionSet_PCLMULQDQ,
   HWIntrinsicInfo.mk NamedIntrinsic.NI_POPCNT_IsSupported "get_IsSupported" InstructionSet.InstructionSet_POPCNT,
   HWIntrinsicInfo.mk NamedIntrinsic.NI_SSE_Add "Add" InstructionSet.InstructionSet_SSE,
   HWIntrinsicInfo.mk NamedIntrinsic.NI_SSE_AddScalar "AddScalar" InstructionSet.InstructionSet_SSE,
   HWIntrinsicInfo.mk NamedIntrinsic.NI_SSE_And "And" InstructionSet.InstructionSet_SSE,
   HWIntrinsicInfo.mk NamedIntrinsic.NI_SSE_AndNot "AndNot" InstructionSet.InstructionSet_SSE,
   HWIntrinsicInfo.mk NamedIntrinsic.NI_SSE_CompareEqual "CompareEqual" InstructionSet.InstructionSet_SSE,
   HWIntrinsicInfo.mk NamedIntrinsic.NI_SSE_CompareEqualScalar "CompareEqualScalar" InstructionSet.InstructionSet_SSE,
   HWIntrinsicInfo.mk NamedIntrinsic.NI_SSE_CompareEqualOrderedScalar "CompareEqualOrderedScalar" InstructionSet.InstructionSet_SSE,
   HWIntrinsicInfo.mk NamedIntrinsic.NI_SSE_CompareEqualUnorderedScalar "CompareEqualUnorderedScalar" InstructionSet.InstructionSet_SSE,
   HWIntrinsicInfo.mk NamedIntrinsic.NI_SSE_CompareGreaterThan "CompareGreaterThan" InstructionSet.InstructionSet_SSE,
   HWIntrinsicInfo.mk NamedIntrinsic.NI_SSE_CompareGreaterThanScalar "CompareGreaterThanScalar" InstructionSet.InstructionSet_SSE,
   HWIntrinsicInfo.mk NamedIntrinsic.NI_SSE_CompareGreaterThanOrderedScalar "CompareGreaterThanOrderedScalar" InstructionSet.InstructionSet_SSE,
   HWIntrinsicInfo.mk NamedIntrinsic.NI_SSE_CompareGreaterThanUnorderedScalar "CompareGreaterThanUnorderedScalar" InstructionSet.InstructionSet_SSE,
   HWIntrinsicInfo.mk NamedIntrinsic.NI_SSE_CompareGreaterThanOrEqual "CompareGreaterThanOrEqual" InstructionSet.InstructionSet_SSE,
   HWIntrinsicInfo.mk NamedIntrinsic.NI_SSE_CompareGreaterThanOrEqualScalar "CompareGreaterThanOrEqualScalar" InstructionSet.InstructionSet_SSE,
   HWIntrinsicInfo.mk NamedIntrinsic.NI_SSE_CompareGreaterThanOrEqualOrderedScalar "CompareGreaterThanOrEqualOrderedScalar" InstructionSet.InstructionSet_SSE,
   HWIntrinsicInfo.mk NamedIntrinsic.NI_SSE_CompareGreaterThanOrEqualUnorderedScalar "CompareGreaterThanOrEqualUnorderedScalar" InstructionSet.InstructionSet_SSE,
   HWIntrinsicInfo.mk NamedIntrinsic.NI_SSE_CompareLessThan "CompareLessThan" InstructionSet.InstructionSet_SSE,
   HWIntrinsicInfo.mk NamedIntrinsic.NI_SSE_CompareLessThanScalar "CompareLessThanScalar" InstructionSet.InstructionSet_SSE,
   HWIntrinsicInfo.mk NamedIntrinsic.NI_SSE_CompareLessThanOrderedScalar "CompareLessThanOrderedScalar" InstructionSet.InstructionSet_SSE,
   HWIntrinsicInfo.mk NamedIntrinsic.NI_SSE_CompareLessThanUnorderedScalar "CompareLessThanUnorderedScalar" InstructionSet.InstructionSet_SSE,
   HWIntrinsicInfo.mk NamedIntrinsic.NI_SSE_CompareLessThanOrEqual "CompareLessThanOrEqual" InstructionSet.InstructionSet_SSE,
   HWIntrinsicInfo.mk NamedIntrinsic.NI_SSE_CompareLessThanOrEqualScalar "CompareLessThanOrEqualScalar" InstructionSet.InstructionSet_SSE,
   HWIntrinsicInfo.mk NamedIntrinsic.NI_SSE_CompareLessThanOrEqualOrderedScalar "CompareLessThanOrEqualOrderedScalar" InstructionSet.InstructionSet_SSE,
   HWIntrinsicInfo.mk NamedIntrinsic.NI_SSE_CompareLessThanOrEqualUnorderedScalar "CompareLessThanOrEqualUnorderedScalar" InstructionSet.InstructionSet_SSE,
   HWIntrinsicInfo.mk NamedIntrinsic.NI_SSE_CompareNotEqual "CompareNotEqual" InstructionSet.InstructionSet_SSE,
   HWIntrinsicInfo.mk NamedIntrinsic.NI_SSE_CompareNotEqualScalar "CompareNotEqualScalar" InstructionSet.InstructionSet_SSE,
   HWIntrinsicInfo.mk NamedIntrinsic.NI_SSE_CompareNotEqualOrderedScalar "CompareNotEqualOrderedScalar" InstructionSet.InstructionSet_SSE,
   HWIntrinsicInfo.mk NamedIntrinsic.NI_SSE_CompareNotEqualUnorderedScalar "CompareNotEqualUnorderedScalar" InstructionSet.InstructionSet_SSE,
   HWIntrinsicInfo.mk NamedIntrinsic.NI_SSE_CompareNotGreaterThan "CompareNotGreaterThan" InstructionSet.InstructionSet_SSE,
   HWIntrinsicInfo.mk NamedIntrinsic.NI_SSE_CompareNotGreaterThanScalar "CompareNotGreaterThanScalar" InstructionSet.InstructionSet_SSE,
   HWIntrinsicInfo.mk NamedIntrinsic.NI_SSE_CompareNotGreaterThanOrEqual "CompareNotGreaterThanOrEqual" InstructionSet.InstructionSet_SSE,
   HWIntrinsicInfo.mk NamedIntrinsic.NI_SSE_CompareNotGreaterThanOrEqualScalar "CompareNotGreaterThanOrEqualScalar" InstructionSet.InstructionSet_SSE,
   HWIntrinsicInfo.mk NamedIntrinsic.NI_SSE_CompareNotLessThan "CompareNotLessThan" InstructionSet.InstructionSet_SSE,
   HWIntrinsicInfo.mk NamedIntrinsic.NI_SSE_CompareNotLessThanScalar "CompareNotLessThanScalar" InstructionSet.InstructionSet_SSE,
   HWIntrinsicInfo.mk NamedIntrinsic.NI_SSE_CompareNotLessThanOrEqual "CompareNotLessThanOrEqual" InstructionSet.InstructionSet_SSE,
   HWIntrinsicInfo.mk NamedIntrinsic.NI_SSE_CompareNotLessThanOrEqualScalar "CompareNotLessThanOrEqualScalar" InstructionSet.InstructionSet_SSE,
   HWIntrinsicInfo.mk NamedIntrinsic.NI_SSE_CompareOrdered "CompareOrdered" InstructionSet.InstructionSet_SSE,
   HWIntrinsicInfo.mk NamedIntrinsic.NI_SSE_CompareOrderedScalar "CompareOrderedScalar" InstructionSet.InstructionSet_SSE,
   HWIntrinsicInfo.mk NamedIntrinsic.NI_SSE_CompareUnordered "CompareUnordered" InstructionSet.InstructionSet_SSE,
   HWIntrinsicInfo.mk NamedIntrinsic.NI_SSE_CompareUnorderedScalar "CompareUnorderedScalar" InstructionSet.InstructionSet_SSE,
   HWIntrinsicInfo.mk NamedIntrinsic.NI_SSE_ConvertToInt32 "ConvertToInt32" InstructionSet.InstructionSet_SSE,
   HWIntrinsicInfo.mk NamedIntrinsic.NI_SSE_ConvertToInt32WithTruncation "ConvertToInt32WithTruncation" InstructionSet.InstructionSet_SSE,
   HWIntrinsicInfo.mk NamedIntrinsic.NI_SSE_ConvertToInt64 "ConvertToInt64" InstructionSet.InstructionSet_SSE,
   HWIntrinsicInfo.mk NamedIntrinsic.NI_SSE_ConvertToInt64WithTruncation "ConvertToInt64WithTruncation" InstructionSet.InstructionSet_SSE,
   HWIntrinsicInfo.mk NamedIntrinsic.NI_SSE_ConvertToSingle "ConvertToSingle" InstructionSet.InstructionSet_SSE,
   HWIntrinsicInfo.mk NamedIntrinsic.NI_SSE_ConvertToVector128SingleScalar "ConvertToVector128SingleScalar" InstructionSet.InstructionSet_SSE,
   HWIntrinsicInfo.mk NamedIntrinsic.NI_SSE_Divide "Divide" InstructionSet.InstructionSet_SSE,
   HWIntrinsicInfo.mk NamedIntrinsic.NI_SSE_DivideScalar "DivideScalar" InstructionSet.InstructionSet_SSE,
   HWIntrinsicInfo.mk NamedIntrinsic.NI_SSE_LoadAlignedVector128 "LoadAlignedVector128" InstructionSet.InstructionSet_SSE,
   HWIntrinsicInfo.mk NamedIntrinsic.NI_SSE_LoadHigh "LoadHigh" InstructionSet.InstructionSet_SSE,
   HWIntrinsicInfo.mk NamedIntrinsic.NI_SSE_LoadLow "LoadLow" InstructionSet.InstructionSet_SSE,
   HWIntrinsicInfo.mk NamedIntrinsic.NI_SSE_LoadScalar "LoadScalar" InstructionSet.InstructionSet_SSE,
   HWIntrinsicInfo.mk NamedIntrinsic.NI_SSE_LoadVector128 "LoadVector128" InstructionSet.InstructionSet_SSE,
   HWIntrinsicInfo.mk NamedIntrinsic.NI_SSE_Max "Max" InstructionSet.InstructionSet_SSE,
   HWIntrinsicInfo.mk NamedIntrinsic.NI_SSE_MaxScalar "MaxScalar" InstructionSet.InstructionSet_SSE,
   HWIntrinsicInfo.mk NamedIntrinsic.NI_SSE_Min "Min" InstructionSet.InstructionSet_SSE,
   HWIntrinsicInfo.mk NamedIntrinsic.NI_SSE_MinScalar "MinScalar" InstructionSet.InstructionSet_SSE,
   HWIntrinsicInfo.mk NamedIntrinsic.NI_SSE_MoveHighToLow "MoveHighToLow" InstructionSet.InstructionSet_SSE,
   HWIntrinsicInfo.mk NamedIntrinsic.NI_SSE_MoveLowToHigh "MoveLowToHigh" InstructionSet.InstructionSet_SSE,
   HWIntrinsicInfo.mk NamedIntrinsic.NI_SSE_MoveMask "MoveMask" InstructionSet.InstructionSet_SSE,
   HWIntrinsicInfo.mk NamedIntrinsic.NI_SSE_MoveScalar "MoveScalar" InstructionSet.InstructionSet_SSE,
   HWIntrinsicInfo.mk NamedIntrinsic.NI_SSE_Multiply "Multiply" InstructionSet.InstructionSet_SSE,
   HWIntrinsicInfo.mk NamedIntrinsic.NI_SSE_MultiplyScalar "MultiplyScalar" InstructionSet.InstructionSet_SSE,
   HWIntrinsicInfo.mk NamedIntrinsic.NI_SSE_Or "Or" InstructionSet.InstructionSet_SSE,
   HWIntrinsicInfo.mk NamedIntrinsic.NI_SSE_Reciprocal "Reciprocal" InstructionSet.InstructionSet_SSE,
   HWIntrinsicInfo.mk NamedIntrinsic.NI_SSE_ReciprocalScalar "ReciprocalScalar" InstructionSet.InstructionSet_SSE,
   HWIntrinsicInfo.mk NamedIntrinsic.NI_SSE_ReciprocalSqrt "ReciprocalSqrt" InstructionSet.InstructionSet_SSE,
   HWIntrinsicInfo.mk NamedIntrinsic.NI_SSE_ReciprocalSqrtScalar "ReciprocalSqrtScalar" InstructionSet.InstructionSet_SSE,
   HWIntrinsicInfo.mk NamedIntrinsic.NI_SSE_SetAllVector128 "SetAllVector128" InstructionSet.InstructionSet_SSE,
   HWIntrinsicInfo.mk NamedIntrinsic.NI_SSE_SetScalar "SetScalar" InstructionSet.InstructionSet_SSE,
   HWIntrinsicInfo.mk NamedIntrinsic.NI_SSE_SetVector128 "SetVector128" InstructionSet.InstructionSet_SSE,
   HWIntrinsicInfo.mk NamedIntrinsic.NI_SSE_SetZeroVector128 "SetZeroVector128" InstructionSet.InstructionSet_SSE,
   HWIntrinsicInfo.mk NamedIntrinsic.NI_SSE_Shuffle "Shuffle" InstructionSet.InstructionSet_SSE,
   HWIntrinsicInfo.mk NamedIntrinsic.NI_SSE_Sqrt "Sqrt" InstructionSet.InstructionSet_SSE,
   HWIntrinsicInfo.mk NamedIntrinsic.NI_SSE_SqrtScalar "SqrtScalar" InstructionSet.InstructionSet_SSE,
   HWIntrinsicInfo.mk NamedIntrinsic.NI_SSE_StaticCast "StaticCast" InstructionSet.InstructionSet_SSE,
   HWIntrinsicInfo.mk NamedIntrinsic.NI_SSE_Subtract "Subtract" InstructionSet.InstructionSet_SSE,
   HWIntrinsicInfo.mk NamedIntrinsic.NI_SSE_SubtractScalar "SubtractScalar" InstructionSet.InstructionSet_SSE,
   HWIntrinsicInfo.mk NamedIntrinsic.NI_SSE_UnpackHigh "UnpackHigh" InstructionSet.InstructionSet_SSE,
   HWIntrinsicInfo.mk NamedIntrinsic.NI_SSE_UnpackLow "UnpackLow" InstructionSet.InstructionSet_SSE,
   HWIntrinsicInfo.mk NamedIntrinsic.NI_SSE_Xor "Xor" InstructionSet.InstructionSet_SSE,
   HWIntrinsicInfo.mk NamedIntrinsic.NI_SSE2_Add "Add" InstructionSet.InstructionSet_SSE2,
   HWIntrinsicInfo.mk NamedIntrinsic.NI_SSE42_Crc32 "Crc32" InstructionSet.InstructionSet_SSE42,
   HWIntrinsicInfo.mk NamedIntrinsic.NI_AVX_Add "Add" InstructionSet.InstructionSet_AVX,
   HWIntrinsicInfo.mk NamedIntrinsic.NI_AVX2_Add "Add" InstructionSet.InstructionSet_AVX2,
   HWIntrinsicInfo.mk NamedIntrinsic.NI_LZCNT_LeadingZeroCount "LeadingZeroCount" InstructionSet.InstructionSet_LZCNT,
   HWIntrinsicInfo.mk NamedIntrinsic.NI_POPCNT_PopCount "PopCount" InstructionSet.InstructionSet_POPCNT]

/-- A compiler instance like `sampleCompiler` on a 32-bit target in which the
second argument of every signature has the type `long`. -/
def sampleCompilerLongArg (debug : Bool) : Compiler :=
  { sampleCompiler debug true true true true with
    getArgType := fun _ a => if a = 1 then 1 else 0 }

/-- A signature with one argument, returning `int`. -/
def sampleSig1 : CORINFO_SIG_INFO := ⟨0, 0, 1, 1, 0⟩

/-- A signature with one argument, returning `long`. -/
def sampleSigLong1 : CORINFO_SIG_INFO := ⟨1, 0, 1, 1, 0⟩

/-- A signature with two arguments, returning `long`. -/
def sampleSigLong2 : CORINFO_SIG_INFO := ⟨1, 0, 1, 2, 0⟩

/-- A signature with three arguments, returning a vector of `float`. -/
def sampleSig3 : CORINFO_SIG_INFO := ⟨0, 0, 1, 3, 0⟩

/-- A signature with four arguments, returning a vector of `float`. -/
def sampleSig4 : CORINFO_SIG_INFO := ⟨0, 0, 1, 4, 0⟩

/-- A stack of five operands; the top one is a constant. -/
def sampleStack5 : Stack :=
  [GT_CNS_INT 27 TYP_INT, GT_Opaque 1 TYP_SIMD16, GT_Opaque 2 TYP_SIMD16, GT_Opaque 3 TYP_FLOAT,
   GT_Opaque 4 TYP_INT]

/-- The call carries a 64-bit scalar operand or result, in one of the shapes
the expanders know: a float-to-integer conversion of the float-vector family
that returns `long`, the integer-to-float conversion whose second argument is
`long`,
and the checksum, leading-zero-count and population-count operations that
return `long`. Each shape comes with the argument count and element types that
the expander asserts. -/
def Carries64BitScalar (C : Compiler) (sig : CORINFO_SIG_INFO) (isa : InstructionSet)
    (intrinsic : NamedIntrinsic) : Prop :=
  (isa = InstructionSet_SSE ∧
    (intrinsic = NI_SSE_ConvertToInt64 ∨ intrinsic = NI_SSE_ConvertToInt64WithTruncation) ∧
    sig.numArgs = 1 ∧ C.getBaseTypeOfSIMDType (C.getArgClass sig sig.args) = TYP_FLOAT ∧
    C.varTypeIsLong (C.JITtype2varType sig.retType) = true) ∨
  (isa = InstructionSet_SSE ∧ intrinsic = NI_SSE_ConvertToVector128SingleScalar ∧
    sig.numArgs = 2 ∧ C.getBaseTypeOfSIMDType sig.retTypeSigClass = TYP_FLOAT ∧
    C.varTypeIsLong
      (C.JITtype2varType (C.strip (C.getArgType sig (C.getArgNext sig.args)))) = true) ∨
  (isa = InstructionSet_SSE42 ∧ intrinsic = NI_SSE42_Crc32 ∧ sig.numArgs = 2 ∧
    C.varTypeIsLong (C.JITtype2varType sig.retType) = true) ∨
  (isa = InstructionSet_LZCNT ∧ intrinsic = NI_LZCNT_LeadingZeroCount ∧ sig.numArgs = 1 ∧
    C.varTypeIsLong (C.JITtype2varType sig.retType) = true) ∨
  (isa = InstructionSet_POPCNT ∧ intrinsic = NI_POPCNT_PopCount ∧ sig.numArgs = 1 ∧
    C.varTypeIsLong (C.JITtype2varType sig.retType) = true)

/-- The expander that the dispatcher selects for a family (`none` for the
default branch). -/
def expanderOf (isa : InstructionSet) :
    Option (Compiler → NamedIntrinsic → CORINFO_METHOD_HANDLE → CORINFO_SIG_INFO → Bool →
      Stack → Except Fault (Option GenTree × Stack)) :=
  match isa with
  | InstructionSet_SSE => some impSSEIntrinsic
  | InstructionSet_SSE2 => some impSSE2Intrinsic
  | InstructionSet_SSE3 => some impSSE3Intrinsic
  | InstructionSet_SSSE3 => some impSSSE3Intrinsic
  | InstructionSet_SSE41 => some impSSE41Intrinsic
  | InstructionSet_SSE42 => some impSSE42Intrinsic
  | InstructionSet_AVX => some impAVXIntrinsic
  | InstructionSet_AVX2 => some impAVX2Intrinsic
  | InstructionSet_AES => some impAESIntrinsic
  | InstructionSet_BMI1 => some impBMI1Intrinsic
  | InstructionSet_BMI2 => some impBMI2Intrinsic
  | InstructionSet_FMA => some impFMAIntrinsic
  | InstructionSet_LZCNT => some impLZCNTIntrinsic
  | InstructionSet_PCLMULQDQ => some impPCLMULQDQIntrinsic
  | InstructionSet_POPCNT => some impPOPCNTIntrinsic
  | _ => none

/-! ## Vocabulary for the catalog scan, the stack balance and the lane semantics -/

/-- The argument count that the expander of family `isa` asserts on the path of
`intrinsic` (`assert(sig->numArgs == k)`), and `none` where the expander asserts
no count: the default branches and the families without an expander. -/
def assertedArity (isa : InstructionSet) (intrinsic : NamedIntrinsic) : Option Nat :=
  match isa with
  | InstructionSet_SSE =>
    match intrinsic with
    | NI_SSE_SetVector128 => some 4
    | NI_SSE_Shuffle => some 3
    | NI_SSE_Add
    | NI_SSE_AddScalar
    | NI_SSE_And
    | NI_SSE_AndNot
    | NI_SSE_CompareEqual
    | NI_SSE_CompareEqualScalar
    | NI_SSE_CompareGreaterThan
    | NI_SSE_CompareGreaterThanScalar
    | NI_SSE_CompareGreaterThanOrEqual
    | NI_SSE_CompareGreaterThanOrEqualScalar
    | NI_SSE_CompareLessThan
    | NI_SSE_CompareLessThanScalar
    | NI_SSE_CompareLessThanOrEqual
    | NI_SSE_CompareLessThanOrEqualScalar
    | NI_SSE_CompareNotEqual
    | NI_SSE_CompareNotEqualScalar
    | NI_SSE_CompareNotGreaterThan
    | NI_SSE_CompareNotGreaterThanScalar
    | NI_SSE_CompareNotGreaterThanOrEqual
    | NI_SSE_CompareNotGreaterThanOrEqualScalar
    | NI_SSE_CompareNotLessThan
    | NI_SSE_CompareNotLessThanScalar
    | NI_SSE_CompareNotLessThanOrEqual
    | NI_SSE_CompareNotLessThanOrEqualScalar
    | NI_SSE_CompareOrdered
    | NI_SSE_CompareOrderedScalar
    | NI_SSE_CompareUnordered
    | NI_SSE_CompareUnorderedScalar
    | NI_SSE_Divide
    | NI_SSE_DivideScalar
    | NI_SSE_Max
    | NI_SSE_MaxScalar
    | NI_SSE_Min
    | NI_SSE_MinScalar
    | NI_SSE_MoveHighToLow
    | NI_SSE_MoveLowToHigh
    | NI_SSE_MoveScalar
    | NI_SSE_Multiply
    | NI_SSE_MultiplyScalar
    | NI_SSE_Or
    | NI_SSE_Subtract
    | NI_SSE_SubtractScalar
    | NI_SSE_UnpackHigh
    | NI_SSE_UnpackLow
    | NI_SSE_Xor => some 2
    | NI_SSE_CompareEqualOrderedScalar
    | NI_SSE_CompareEqualUnorderedScalar
    | NI_SSE_CompareGreaterThanOrderedScalar
    | NI_SSE_CompareGreaterThanUnorderedScalar
    | NI_SSE_CompareGreaterThanOrEqualOrderedScalar
    | NI_SSE_CompareGreaterThanOrEqualUnorderedScalar
    | NI_SSE_CompareLessThanOrderedScalar
    | NI_SSE_CompareLessThanUnorderedScalar
    | NI_SSE_CompareLessThanOrEqualOrderedScalar
    | NI_SSE_CompareLessThanOrEqualUnorderedScalar
    | NI_SSE_CompareNotEqualOrderedScalar
    | NI_SSE_CompareNotEqualUnorderedScalar => some 2
    | NI_SSE_ConvertToVector128SingleScalar => some 2
    | NI_SSE_LoadHigh
    | NI_SSE_LoadLow => some 2
    | NI_SSE_MoveMask => some 1
    | NI_SSE_StaticCast => some 1
    | NI_SSE_LoadAlignedVector128
    | NI_SSE_LoadScalar
    | NI_SSE_LoadVector128
    | NI_SSE_SetAllVector128
    | NI_SSE_SetScalar => some 1
    | NI_SSE_Reciprocal
    | NI_SSE_ReciprocalScalar
    | NI_SSE_ReciprocalSqrt
    | NI_SSE_ReciprocalSqrtScalar
    | NI_SSE_Sqrt
    | NI_SSE_SqrtScalar => some 1
    | NI_SSE_ConvertToInt32
    | NI_SSE_ConvertToInt32WithTruncation
    | NI_SSE_ConvertToInt64
    | NI_SSE_ConvertToInt64WithTruncation
    | NI_SSE_ConvertToSingle => some 1
    | NI_SSE_SetZeroVector128 => some 0
    | _ => none
  | InstructionSet_SSE2 =>
    match intrinsic with
    | NI_SSE2_Add => some 2
    | _ => none
  | InstructionSet_SSE42 =>
    match intrinsic with
    | NI_SSE42_Crc32 => some 2
    | _ => none
  | InstructionSet_AVX =>
    match intrinsic with
    | NI_AVX_Add => some 2
    | _ => none
  | InstructionSet_AVX2 =>
    match intrinsic with
    | NI_AVX2_Add => some 2
    | _ => none
  | InstructionSet_LZCNT => some 1
  | InstructionSet_POPCNT => some 1
  | _ => none

/-- The outcomes that the stack-balance invariant allows for a call with
`numArgs` declared operands on the stack `stk`: a result without node and the
stack as it was, a result with a node and exactly `numArgs` entries gone from
the top, or, in a checked build, a failed assertion. -/
def StackBalanced (numArgs : Nat) (stk : Stack) (debug : Bool)
    (res : Except Fault (Option GenTree × Stack)) : Prop :=
  (∃ r stk2, res = .ok (r, stk2) ∧ (r = none → stk2 = stk) ∧
    (r ≠ none → stk2 = stk.drop numArgs)) ∨
  (debug = true ∧ res = .error .assertFailed)

/-- The lane that a shuffle control selects at bit position `shift`:
`(imm >> shift) & 3`. -/
def shuffleLane (imm shift : Nat) : Fin 4 :=
  ⟨(imm >>> shift) &&& 3, Nat.lt_succ_of_le Nat.and_le_right⟩

/-- The interleave of the claim: `UnpackLow(x, y)` is `[x0, y0, x1, y1]`. -/
def unpackLowLanes {V : Type} (x y : Fin 4 → V) : Fin 4 → V :=
  ![x 0, y 0, x 1, y 1]

/-- The lane shuffle of the claim: `Shuffle(x, y, imm)` is
`[x[imm & 3], x[(imm >> 2) & 3], y[(imm >> 4) & 3], y[(imm >> 6) & 3]]`. -/
def shuffleLanes {V : Type} (x y : Fin 4 → V) (imm : Nat) : Fin 4 → V :=
  ![x (shuffleLane imm 0), x (shuffleLane imm 2), y (shuffleLane imm 4), y (shuffleLane imm 6)]

/-- The four lanes that a tree computes under the interpretation of the claim:
an `NI_SSE_UnpackLow` node interleaves its children, an `NI_SSE_Shuffle` node
with a constant control shuffles them, and every other node is an operand whose
lanes `operand` gives. -/
def laneValue {V : Type} (operand : GenTree → Fin 4 → V) : GenTree → Fin 4 → V
  | GT_HWIntrinsic2 t x y id b s =>
    if id = NI_SSE_UnpackLow then unpackLowLanes (laneValue operand x) (laneValue operand y)
    else operand (GT_HWIntrinsic2 t x y id b s)
  | GT_HWIntrinsic3 t x y (GT_CNS_INT imm ty) id b s =>
    if id = NI_SSE_Shuffle then
      shuffleLanes (laneValue operand x) (laneValue operand y) imm.toNat
    else operand (GT_HWIntrinsic3 t x y (GT_CNS_INT imm ty) id b s)
  | t => operand t

/-- An operand reading for the sample inputs: lane 0 of a labelled operand holds
its label and lane i holds the label plus 100 * i. -/
def sampleOperandLanes : GenTree → Fin 4 → Nat
  | GT_Opaque n _, i => n + 100 * i.val
  | _, _ => 0

/-- The identifier has a case label in the switch of `impSSEIntrinsic`: every
case of that switch opens with an assertion on the argument count and the
default branch ("Not implemented hardware intrinsic") carries none. -/
def impSSEIntrinsicHasCase (intrinsic : NamedIntrinsic) : Bool :=
  (assertedArity InstructionSet_SSE intrinsic).isSome

/-- The identifiers that the claim names as expanded by `impSSEIntrinsic` while
`insOfHWIntrinsic` maps them to `INS_invalid`. -/
def expandedWithoutInstruction : List NamedIntrinsic :=
  [NI_SSE_Shuffle, NI_SSE_SetVector128, NI_SSE_SetAllVector128, NI_SSE_SetScalar,
   NI_SSE_SetZeroVector128]

theorem Catalog.at_natCast_lt (K : Catalog) (i : Nat) (h : i < K.hwIntrinsicInfoArray.length) :
    K.at (i : Int) = .ok (K.hwIntrinsicInfoArray.get ⟨i, h⟩) := by
  simp [Catalog.at, List.getElem?_eq_getElem h]

theorem Catalog.at_natCast_ge (K : Catalog) (i : Nat) (h : K.hwIntrinsicInfoArray.length ≤ i) :
    K.at (i : Int) = .error .outOfBounds := by
  simp [Catalog.at, List.getElem?_eq_none h]

theorem Catalog.at_neg (K : Catalog) (i : Int) (h : i < 0) :
    K.at i = .error .outOfBounds := by
  simp [Catalog.at, not_le.2 h]

theorem Compiler.assert_ok_or_failed (C : Compiler) (cond : Bool) :
    C.assert cond = .ok () ∨ C.assert cond = .error .assertFailed := by
  unfold Compiler.assert
  split_ifs
  · exact Or.inr rfl
  · exact Or.inl rfl

/-- A scan that starts inside the array and whose bound lies past its end
stops on the read of the element one past the last row. -/
theorem lookupHWIntrinsicLoop_outOfBounds (K : Catalog) (methodName : String)
    (isa : InstructionSet) (remaining : Nat) :
    ∀ (i : Nat) (result : NamedIntrinsic), i ≤ K.hwIntrinsicInfoArray.length →
      K.hwIntrinsicInfoArray.length < i + remaining →
      lookupHWIntrinsicLoop K methodName isa remaining i result = .error .outOfBounds := by
  induction remaining with
  | zero => intro i result h1 h2; omega
  | succ n ih =>
    intro i result h1 h2
    rcases Nat.lt_or_ge i K.hwIntrinsicInfoArray.length with hlt | hge
    · simp only [lookupHWIntrinsicLoop, Catalog.at_natCast_lt K i hlt, bind, Except.bind]
      split_ifs
      · exact ih (i + 1) _ hlt (by omega)
      · exact ih (i + 1) _ hlt (by omega)
    · simp only [lookupHWIntrinsicLoop, Catalog.at_natCast_ge K i hge, bind, Except.bind]

/-- A scan that stays inside the array folds `scanStep` over the rows it reads. -/
theorem lookupHWIntrinsicLoop_inBounds (K : Catalog) (methodName : String)
    (isa : InstructionSet) (remaining : Nat) :
    ∀ (i : Nat) (result : NamedIntrinsic), i + remaining ≤ K.hwIntrinsicInfoArray.length →
      lookupHWIntrinsicLoop K methodName isa remaining i result =
        .ok (((K.hwIntrinsicInfoArray.drop i).take remaining).foldl
          (scanStep methodName isa) result) := by
  induction remaining with
  | zero => intro i result _; simp [lookupHWIntrinsicLoop]
  | succ n ih =>
    intro i result h
    have hlt : i < K.hwIntrinsicInfoArray.length := by omega
    have hdrop : K.hwIntrinsicInfoArray.drop i =
        K.hwIntrinsicInfoArray.get ⟨i, hlt⟩ :: K.hwIntrinsicInfoArray.drop (i + 1) := by
      simp
    simp only [lookupHWIntrinsicLoop, Catalog.at_natCast_lt K i hlt, bind, Except.bind]
    rw [hdrop, List.take_succ_cons, List.foldl_cons]
    unfold scanStep
    split_ifs
    · exact ih (i + 1) _ (by omega)
    · exact ih (i + 1) _ (by omega)

/-- Folding `scanStep` yields the identifier of the last matching row, or the
initial value when no row matches. -/
theorem foldl_scanStep (methodName : String) (isa : InstructionSet)
    (rows : List HWIntrinsicInfo) :
    ∀ init : NamedIntrinsic, rows.foldl (scanStep methodName isa) init =
      match lastMatchingRow methodName isa rows with
      | some e => e.intrinsicID
      | none => init := by
  induction rows with
  | nil => intro init; rfl
  | cons e rest ih =>
    intro init
    rw [List.foldl_cons, ih]
    simp only [lastMatchingRow, List.reverse_cons, List.find?_append]
    cases hrest : List.find? (fun e => decide (isa = e.isa ∧ methodName = e.intrinsicName))
        rest.reverse with
    | some e2 => simp
    | none =>
      by_cases hm : isa = e.isa ∧ methodName = e.intrinsicName
      · simp [scanStep, hm, List.find?]
      · simp [scanStep, hm, List.find?]

/-! ## Lemmas on the label scan of the specification -/

theorem lookupHWIntrinsicISA_eq_spec (className : Option String) :
    lookupHWIntrinsicISA className = resolveFamilySpec className := by
  cases className with
  | none => rfl
  | some s =>
    simp only [lookupHWIntrinsicISA, resolveFamilySpec, knownFamilyLabels, resolveFamilyIn]
    by_cases h1 : s = "Aes"
    · subst h1; decide
    by_cases h2 : s = "Avx"
    · subst h2; decide
    by_cases h3 : s = "Avx2"
    · subst h3; decide
    by_cases h4 : s = "Sse"
    · subst h4; decide
    by_cases h5 : s = "Sse2"
    · subst h5; decide
    by_cases h6 : s = "Sse3"
    · subst h6; decide
    by_cases h7 : s = "Ssse3"
    · subst h7; decide
    by_cases h8 : s = "Sse41"
    · subst h8; decide
    by_cases h9 : s = "Sse42"
    · subst h9; decide
    by_cases h10 : s = "Bmi1"
    · subst h10; decide
    by_cases h11 : s = "Bmi2"
    · subst h11; decide
    by_cases h12 : s = "Fma"
    · subst h12; decide
    by_cases h13 : s = "Lzcnt"
    · subst h13; decide
    by_cases h14 : s = "Pclmulqdq"
    · subst h14; decide
    by_cases h15 : s = "Popcnt"
    · subst h15; decide
    simp [h1, h2, h3, h4, h5, h6, h7, h8, h9, h10, h11, h12, h13, h14, h15]

theorem resolveFamilyIn_illegal_or_mem (l : List (String × InstructionSet)) (s : String) :
    resolveFamilyIn l s = InstructionSet_ILLEGAL ∨ (s, resolveFamilyIn l s) ∈ l := by
  induction l with
  | nil => exact Or.inl rfl
  | cons p rest ih =>
    obtain ⟨known, family⟩ := p
    simp only [resolveFamilyIn]
    by_cases h : s = known
    · subst h; simp
    · rw [if_neg h]
      rcases ih with ih | ih
      · exact Or.inl ih
      · exact Or.inr (List.mem_cons_of_mem _ ih)

theorem resolveFamilyIn_of_mem (l : List (String × InstructionSet)) (label : String)
    (family : InstructionSet) (hnd : (l.map Prod.fst).Nodup) (hmem : (label, family) ∈ l) :
    resolveFamilyIn l label = family := by
  induction l with
  | nil => cases hmem
  | cons p rest ih =>
    obtain ⟨known, fam⟩ := p
    simp only [List.map_cons, List.nodup_cons] at hnd
    simp only [resolveFamilyIn]
    rcases List.mem_cons.1 hmem with h | h
    · cases h; simp
    · have hne : label ≠ known := by
        intro e; subst e
        exact hnd.1 (List.mem_map_of_mem Prod.fst h)
      rw [if_neg hne]; exact ih hnd.2 h

theorem resolveFamilyIn_eq_iff (l : List (String × InstructionSet)) (s label : String)
    (family : InstructionSet) (hfst : (l.map Prod.fst).Nodup) (hsnd : (l.map Prod.snd).Nodup)
    (hill : InstructionSet_ILLEGAL ∉ l.map Prod.snd) (hmem : (label, family) ∈ l) :
    resolveFamilyIn l s = family ↔ s = label := by
  constructor
  · intro h
    rcases resolveFamilyIn_illegal_or_mem l s with h2 | h2
    · exact absurd (List.mem_map_of_mem Prod.snd hmem) (by rw [← h, h2]; exact hill)
    · rw [h] at h2
      have := List.inj_on_of_nodup_map hsnd h2 hmem rfl
      exact (Prod.mk.inj this).1
  · intro h; subst h; exact resolveFamilyIn_of_mem l s family hfst hmem

theorem resolveFamilyIn_of_not_mem (l : List (String × InstructionSet)) (s : String)
    (h : ∀ p ∈ l, s ≠ p.1) : resolveFamilyIn l s = InstructionSet_ILLEGAL := by
  rcases resolveFamilyIn_illegal_or_mem l s with h2 | h2
  · exact h2
  · exact absurd rfl (h _ h2)

/-! ## Lemmas on the sample inputs -/

theorem sampleEnumDecode_sampleEnumValue (x : NamedIntrinsic) :
    sampleEnumDecode (sampleEnumValue x) = x := by
  cases x <;> first | rfl | simp [sampleEnumValue, sampleEnumDecode, NamedIntrinsic.ctorCode,
    NamedIntrinsic.ofCtorCode]

theorem sampleEnumValue_injective : Function.Injective sampleEnumValue := by
  intro a b h
  have h2 := congrArg sampleEnumDecode h
  simpa [sampleEnumDecode_sampleEnumValue] using h2

theorem sampleCatalog_wellFormed : sampleCatalog.WellFormed where
  distinct := sampleEnumValue_injective
  illegalBelow := by decide
  rowPerId := by decide
  rowsInEnumOrder := by
    intro k h
    have h6 : k < 6 := h
    interval_cases k <;> rfl

/-! ## Lemmas on the support resolver -/

/-- On the fifteen families `isFullyImplmentedISAClass` returns, and the
short-circuit evaluation in `compSupportsHWIntrinsic` yields the plain boolean
combination. -/
theorem compSupportsHWIntrinsic_of_family (C : Compiler) (isa : InstructionSet)
    (hfam : isa ∈ InstructionSet.families) :
    ∃ full, isFullyImplmentedISAClass isa = .ok full ∧
      compSupportsHWIntrinsic C isa =
        .ok ((C.featureSIMD || isScalarISA isa) && (full || C.incompleteOverride)) := by
  simp only [InstructionSet.families, List.mem_cons, List.mem_singleton, List.not_mem_nil,
    or_false] at hfam
  rcases hfam with h | h | h | h | h | h | h | h | h | h | h | h | h | h | h <;> subst h <;>
    cases hs : C.featureSIMD <;> cases hd : C.DEBUG <;> cases ho : C.EnableIncompleteISAClass <;>
    simp [compSupportsHWIntrinsic, isFullyImplmentedISAClass, isScalarISA,
      Compiler.incompleteOverride, hs, hd, ho]

/-! ## The claims -/

/-- C1: for each of the fifteen families and every configuration,
`compSupportsHWIntrinsic(isa)` returns
`(featureSIMD || isScalarISA(isa)) && (isFullyImplmentedISAClass(isa) || override)`,
the override being `EnableIncompleteISAClass` in a DEBUG build and false in a
build without DEBUG. -/
theorem compSupportsHWIntrinsic_formula (C : Compiler) (isa : InstructionSet)
    (hfam : isa ∈ InstructionSet.families) :
    ∃ full, isFullyImplmentedISAClass isa = .ok full ∧
      compSupportsHWIntrinsic C isa =
        .ok ((C.featureSIMD || isScalarISA isa) &&
          (full || (C.DEBUG && C.EnableIncompleteISAClass))) :=
  compSupportsHWIntrinsic_of_family C isa hfam

/-- Witness of C1 at the leading-zero-count family, vector codegen off, release build. -/
theorem compSupportsHWIntrinsic_formula_witness :
    InstructionSet_LZCNT ∈ InstructionSet.families ∧
    ∃ full, isFullyImplmentedISAClass InstructionSet_LZCNT = .ok full ∧
      compSupportsHWIntrinsic (sampleCompiler false false false true true) InstructionSet_LZCNT =
        .ok (((sampleCompiler false false false true true).featureSIMD ||
              isScalarISA InstructionSet_LZCNT) &&
          (full || ((sampleCompiler false false false true true).DEBUG &&
            (sampleCompiler false false false true true).EnableIncompleteISAClass))) :=
  ⟨by decide, compSupportsHWIntrinsic_formula _ _ (by decide)⟩

/-- C2: with vector codegen disabled and the incomplete-family override off,
`compSupportsHWIntrinsic` returns false for the partially implemented family
SSE42 and true for the scalar-only, fully implemented family LZCNT. -/
theorem compSupportsHWIntrinsic_simd_off (C : Compiler) (hsimd : C.featureSIMD = false)
    (hov : C.incompleteOverride = false) :
    compSupportsHWIntrinsic C InstructionSet_SSE42 = .ok false ∧
    compSupportsHWIntrinsic C InstructionSet_LZCNT = .ok true := by
  unfold Compiler.incompleteOverride at hov
  simp [compSupportsHWIntrinsic, isScalarISA, isFullyImplmentedISAClass, hsimd, hov]

/-- Witness of C2: a release build with vector codegen off. -/
theorem compSupportsHWIntrinsic_simd_off_witness :
    (sampleCompiler false false false true true).featureSIMD = false ∧
    (sampleCompiler false false false true true).incompleteOverride = false ∧
    compSupportsHWIntrinsic (sampleCompiler false false false true true) InstructionSet_SSE42 =
      .ok false ∧
    compSupportsHWIntrinsic (sampleCompiler false false false true true) InstructionSet_LZCNT =
      .ok true :=
  ⟨rfl, rfl, compSupportsHWIntrinsic_simd_off _ rfl rfl⟩

/-- C3: when the intrinsic is an IsSupported property getter whose family, read
from the catalog, is one of the fifteen families, `impX86HWIntrinsic` returns,
for either value of mustExpand, the integer constant node holding
`compSupports(isa) && compSupportsHWIntrinsic(isa)` (1 or 0): never nullptr,
never a must-throw node, and the operand stack is left untouched. -/
theorem impX86HWIntrinsic_isSupported_getter (K : Catalog) (C : Compiler)
    (intrinsic : NamedIntrinsic) (method : CORINFO_METHOD_HANDLE) (sig : CORINFO_SIG_INFO)
    (mustExpand : Bool) (stk : Stack) (isa : InstructionSet)
    (hget : isIntrinsicAnIsSupportedPropertyGetter intrinsic = true)
    (hisa : isaOfHWIntrinsic K C intrinsic = .ok isa)
    (hfam : isa ∈ InstructionSet.families) :
    ∃ b, compSupportsHWIntrinsic C isa = .ok b ∧
      impX86HWIntrinsic K C intrinsic method sig mustExpand stk =
        .ok (some (GT_CNS_INT (boolToInt (C.compSupports isa && b)) TYP_INT), stk) := by
  obtain ⟨full, -, hb⟩ := compSupportsHWIntrinsic_of_family C isa hfam
  refine ⟨_, hb, ?_⟩
  cases hc : C.compSupports isa <;>
    simp [impX86HWIntrinsic, hisa, isSupportedISA, hc, hb, hget, bind, Except.bind, pure,
      Except.pure, gtNewIconNode]

/-- Witness of C3: the getter of a family that the compiler does not support
(SSE, override off) with mustExpand set and operands on the stack. -/
theorem impX86HWIntrinsic_isSupported_getter_witness :
    isIntrinsicAnIsSupportedPropertyGetter NI_SSE_IsSupported = true ∧
    isaOfHWIntrinsic sampleCatalog (sampleCompiler true false true false true)
      NI_SSE_IsSupported = .ok InstructionSet_SSE ∧
    InstructionSet_SSE ∈ InstructionSet.families ∧
    ∃ b, compSupportsHWIntrinsic (sampleCompiler true false true false true)
        InstructionSet_SSE = .ok b ∧
      impX86HWIntrinsic sampleCatalog (sampleCompiler true false true false true)
        NI_SSE_IsSupported 0 sampleSig2 true sampleStack =
        .ok (some (GT_CNS_INT (boolToInt
          ((sampleCompiler true false true false true).compSupports InstructionSet_SSE && b))
          TYP_INT), sampleStack) :=
  ⟨rfl, rfl, by decide,
    impX86HWIntrinsic_isSupported_getter sampleCatalog _ NI_SSE_IsSupported 0 sampleSig2 true
      sampleStack InstructionSet_SSE rfl rfl (by decide)⟩

/-- C4: on a stack holding at least `sig.numArgs` entries,
`impUnsupportedHWIntrinsic` with mustExpand set removes exactly the top
`sig.numArgs` entries, leaves the rest as it was, and returns the must-throw
node built with the given helper and the declared return type. -/
theorem impUnsupportedHWIntrinsic_mustExpand (C : Compiler) (helper : CorInfoHelpFunc)
    (method : CORINFO_METHOD_HANDLE) (sig : CORINFO_SIG_INFO) (stk : Stack)
    (h : sig.numArgs ≤ stk.length) :
    impUnsupportedHWIntrinsic C helper method sig true stk =
      .ok (some (MustThrowException helper (C.JITtype2varType sig.retType) sig.retTypeClass),
        stk.drop sig.numArgs) := by
  have hloop : ∀ (n : Nat) (s : Stack), n ≤ s.length →
      impUnsupportedHWIntrinsicLoop n s = .ok (s.drop n) := by
    intro n
    induction n with
    | zero => intro s _; rfl
    | succ n ih =>
      intro s hs
      cases s with
      | nil => simp at hs
      | cons t rest =>
        simp only [impUnsupportedHWIntrinsicLoop, impPopStack, bind, Except.bind,
          List.drop_succ_cons]
        exact ih rest (by simpa using hs)
  simp [impUnsupportedHWIntrinsic, hloop _ _ h, bind, Except.bind, pure, Except.pure,
    gtNewMustThrowException]

/-- Witness of C4: a call with two arguments on a stack of three operands pops
two of them. -/
theorem impUnsupportedHWIntrinsic_mustExpand_witness :
    sampleSig2.numArgs ≤ sampleStack.length ∧
    impUnsupportedHWIntrinsic (sampleCompiler true false true false true)
      CORINFO_HELP_THROW_PLATFORM_NOT_SUPPORTED 0 sampleSig2 true sampleStack =
      .ok (some (MustThrowException CORINFO_HELP_THROW_PLATFORM_NOT_SUPPORTED
        ((sampleCompiler true false true false true).JITtype2varType sampleSig2.retType)
        sampleSig2.retTypeClass), sampleStack.drop sampleSig2.numArgs) :=
  ⟨by decide, impUnsupportedHWIntrinsic_mustExpand _ _ 0 sampleSig2 sampleStack (by decide)⟩

/-- C5: when the intrinsic is not an IsSupported getter and
`compSupports(isa) && compSupportsHWIntrinsic(isa)` is false for its family,
`impX86HWIntrinsic` with mustExpand clear returns nullptr and leaves the operand
stack exactly as it was. -/
theorem impX86HWIntrinsic_unsupported_mayInline (K : Catalog) (C : Compiler)
    (intrinsic : NamedIntrinsic) (method : CORINFO_METHOD_HANDLE) (sig : CORINFO_SIG_INFO)
    (stk : Stack) (isa : InstructionSet)
    (hget : isIntrinsicAnIsSupportedPropertyGetter intrinsic = false)
    (hisa : isaOfHWIntrinsic K C intrinsic = .ok isa)
    (hsup : isSupportedISA C isa = .ok false) :
    impX86HWIntrinsic K C intrinsic method sig false stk = .ok (none, stk) := by
  simp [impX86HWIntrinsic, hisa, hsup, hget, bind, Except.bind, pure, Except.pure,
    impUnsupportedHWIntrinsic]

/-- Witness of C5: `Sse.Add` when the hardware lacks the family. -/
theorem impX86HWIntrinsic_unsupported_mayInline_witness :
    isIntrinsicAnIsSupportedPropertyGetter NI_SSE_Add = false ∧
    isaOfHWIntrinsic sampleCatalog (sampleCompiler true false true true false) NI_SSE_Add =
      .ok InstructionSet_SSE ∧
    isSupportedISA (sampleCompiler true false true true false) InstructionSet_SSE = .ok false ∧
    impX86HWIntrinsic sampleCatalog (sampleCompiler true false true true false) NI_SSE_Add 0
      sampleSig2 false sampleStack = .ok (none, sampleStack) :=
  ⟨rfl, rfl, rfl,
    impX86HWIntrinsic_unsupported_mayInline sampleCatalog _ NI_SSE_Add 0 sampleSig2 sampleStack
      InstructionSet_SSE rfl rfl rfl⟩

/-- C6: `lookupHWIntrinsicISA` is a total function that agrees with the exact
match against the fifteen known labels: for every class name, the null pointer
included, the result is the family of a known label exactly when the name is
that label, and a name that is no known label ("Avx512", "sse", "SSE", the empty
string, the null pointer) yields `InstructionSet_ILLEGAL`. -/
theorem lookupHWIntrinsicISA_exact :
    (∀ className : Option String, lookupHWIntrinsicISA className = resolveFamilySpec className) ∧
    (∀ (className : Option String) (label : String) (family : InstructionSet),
      (label, family) ∈ knownFamilyLabels →
        (lookupHWIntrinsicISA className = family ↔ className = some label)) ∧
    (∀ className : Option String,
      (∀ label family, (label, family) ∈ knownFamilyLabels → className ≠ some label) →
        lookupHWIntrinsicISA className = InstructionSet_ILLEGAL) ∧
    lookupHWIntrinsicISA none = InstructionSet_ILLEGAL ∧
    lookupHWIntrinsicISA (some "Avx512") = InstructionSet_ILLEGAL ∧
    lookupHWIntrinsicISA (some "sse") = InstructionSet_ILLEGAL ∧
    lookupHWIntrinsicISA (some "SSE") = InstructionSet_ILLEGAL ∧
    lookupHWIntrinsicISA (some "") = InstructionSet_ILLEGAL := by
  refine ⟨lookupHWIntrinsicISA_eq_spec, ?_, ?_, by decide, by decide, by decide, by decide,
    by decide⟩
  · intro className label family hmem
    rw [lookupHWIntrinsicISA_eq_spec]
    cases className with
    | none =>
      simp only [resolveFamilySpec]
      constructor
      · intro h
        have hill : InstructionSet_ILLEGAL ∉ knownFamilyLabels.map Prod.snd := by decide
        exact absurd (List.mem_map_of_mem Prod.snd hmem) (by rw [← h]; exact hill)
      · intro h; cases h
    | some s =>
      simp only [resolveFamilySpec, Option.some.injEq]
      exact resolveFamilyIn_eq_iff _ s label family (by decide) (by decide) (by decide) hmem
  · intro className hne
    rw [lookupHWIntrinsicISA_eq_spec]
    cases className with
    | none => rfl
    | some s =>
      exact resolveFamilyIn_of_not_mem _ s (fun p hp e => hne p.1 p.2 hp (by rw [e]))

/-- C7: for every catalog and every method name, `lookupHWIntrinsic` called with
`InstructionSet_ILLEGAL` returns `NI_Illegal` without scanning, in particular
with the family that `lookupHWIntrinsicISA` resolves for "Avx512". -/
theorem lookupHWIntrinsic_illegal_family (K : Catalog) (methodName : String) :
    lookupHWIntrinsic K methodName InstructionSet_ILLEGAL = .ok NI_Illegal ∧
    lookupHWIntrinsic K methodName (lookupHWIntrinsicISA (some "Avx512")) = .ok NI_Illegal := by
  have h : lookupHWIntrinsicISA (some "Avx512") = InstructionSet_ILLEGAL := by decide
  rw [h]
  simp [lookupHWIntrinsic]

/-- C9: over a well-formed catalog (row k carries the identifier
`NI_HW_INTRINSIC_START + 1 + k`), for every identifier strictly between
`NI_HW_INTRINSIC_START` and `NI_HW_INTRINSIC_END` the array has exactly one row
whose `intrinsicID` is that identifier, and `getHWIntrinsicName` and
`isaOfHWIntrinsic` return the name and the family of that row. -/
theorem catalog_roundTrip (K : Catalog) (C : Compiler) (intrinsic : NamedIntrinsic)
    (hK : K.WellFormed) (hlo : K.start < K.enumValue intrinsic)
    (hhi : K.enumValue intrinsic < K.stop) :
    ∃ e ∈ K.hwIntrinsicInfoArray, e.intrinsicID = intrinsic ∧
      getHWIntrinsicName K intrinsic = .ok e.intrinsicName ∧
      isaOfHWIntrinsic K C intrinsic = .ok e.isa ∧
      ∀ e2 ∈ K.hwIntrinsicInfoArray, e2.intrinsicID = intrinsic → e2 = e := by
  obtain ⟨hinj, hill, hrows, hord⟩ := hK
  unfold Catalog.RowPerId at hrows
  have hk : K.enumValue intrinsic - K.start - 1 < K.hwIntrinsicInfoArray.length := by omega
  have hidx : K.indexOf intrinsic = ((K.enumValue intrinsic - K.start - 1 : Nat) : Int) := by
    unfold Catalog.indexOf; omega
  have hid : (K.hwIntrinsicInfoArray.get ⟨_, hk⟩).intrinsicID = intrinsic := by
    apply hinj
    rw [hord _ hk]; omega
  have hne : intrinsic ≠ NI_Illegal := by
    intro e; rw [e] at hlo; omega
  refine ⟨K.hwIntrinsicInfoArray.get ⟨_, hk⟩, List.get_mem _ _ _, hid, ?_, ?_, ?_⟩
  · unfold getHWIntrinsicName
    rw [hidx, Catalog.at_natCast_lt K _ hk]
    rfl
  · have ha1 : C.assert (decide (intrinsic ≠ NI_Illegal)) = .ok () := by
      simp [Compiler.assert, hne]
    have ha2 : C.assert (decide (K.start < K.enumValue intrinsic ∧
        K.enumValue intrinsic < K.stop)) = .ok () := by
      simp [Compiler.assert, hlo, hhi]
    unfold isaOfHWIntrinsic
    rw [ha1, ha2, hidx, Catalog.at_natCast_lt K _ hk]
    rfl
  · intro e2 hmem hid2
    obtain ⟨⟨k2, hk2⟩, rfl⟩ := List.mem_iff_get.1 hmem
    have h2 := hord k2 hk2
    rw [hid2] at h2
    have : k2 = K.enumValue intrinsic - K.start - 1 := by omega
    subst this
    rfl

/-- Witness of C9: `NI_SSE2_Add` in the sample catalog. -/
theorem catalog_roundTrip_witness :
    sampleCatalog.WellFormed ∧ sampleCatalog.start < sampleCatalog.enumValue NI_SSE2_Add ∧
    sampleCatalog.enumValue NI_SSE2_Add < sampleCatalog.stop ∧
    ∃ e ∈ sampleCatalog.hwIntrinsicInfoArray, e.intrinsicID = NI_SSE2_Add ∧
      getHWIntrinsicName sampleCatalog NI_SSE2_Add = .ok e.intrinsicName ∧
      isaOfHWIntrinsic sampleCatalog (sampleCompiler true false true false true) NI_SSE2_Add =
        .ok e.isa ∧
      ∀ e2 ∈ sampleCatalog.hwIntrinsicInfoArray, e2.intrinsicID = NI_SSE2_Add → e2 = e :=
  ⟨sampleCatalog_wellFormed, by decide, by decide,
    catalog_roundTrip sampleCatalog _ NI_SSE2_Add sampleCatalog_wellFormed (by decide)
      (by decide)⟩

/-- C10 (defect in the code): over a catalog that holds one row per declared
identifier, for every identifier outside the declared range
`getHWIntrinsicName` carries no check and reads outside the array, while
`isaOfHWIntrinsic` stops on its range assertion (in a DEBUG build, where
assertions are checked). -/
theorem getHWIntrinsicName_unchecked (K : Catalog) (C : Compiler) (intrinsic : NamedIntrinsic)
    (hrows : K.RowPerId)
    (hout : ¬ (K.start < K.enumValue intrinsic ∧ K.enumValue intrinsic < K.stop)) :
    getHWIntrinsicName K intrinsic = .error .outOfBounds ∧
    (C.DEBUG = true → isaOfHWIntrinsic K C intrinsic = .error .assertFailed) := by
  unfold Catalog.RowPerId at hrows
  constructor
  · rcases Nat.lt_or_ge K.start (K.enumValue intrinsic) with hlt | hge
    · have hidx : K.indexOf intrinsic = ((K.enumValue intrinsic - K.start - 1 : Nat) : Int) := by
        unfold Catalog.indexOf; omega
      have hge2 : K.hwIntrinsicInfoArray.length ≤ K.enumValue intrinsic - K.start - 1 := by
        have : ¬ K.enumValue intrinsic < K.stop := fun h => hout ⟨hlt, h⟩
        omega
      unfold getHWIntrinsicName
      rw [hidx, Catalog.at_natCast_ge K _ hge2]
      rfl
    · have hneg : K.indexOf intrinsic < 0 := by unfold Catalog.indexOf; omega
      unfold getHWIntrinsicName
      rw [Catalog.at_neg K _ hneg]
      rfl
  · intro hd
    have ha2 : C.assert (decide (K.start < K.enumValue intrinsic ∧
        K.enumValue intrinsic < K.stop)) = .error .assertFailed := by
      simp only [Compiler.assert, hd, hout, decide_False, Bool.not_false, Bool.and_self, if_true]
    unfold isaOfHWIntrinsic
    rw [ha2]
    rcases C.assert_ok_or_failed (decide (intrinsic ≠ NI_Illegal)) with h | h <;> rw [h] <;> rfl

/-- Witness of C10: `NI_Illegal` in the sample catalog, DEBUG build. -/
theorem getHWIntrinsicName_unchecked_witness :
    sampleCatalog.RowPerId ∧
    ¬ (sampleCatalog.start < sampleCatalog.enumValue NI_Illegal ∧
        sampleCatalog.enumValue NI_Illegal < sampleCatalog.stop) ∧
    getHWIntrinsicName sampleCatalog NI_Illegal = .error .outOfBounds ∧
    ((sampleCompiler true false true false true).DEBUG = true →
      isaOfHWIntrinsic sampleCatalog (sampleCompiler true false true false true) NI_Illegal =
        .error .assertFailed) :=
  ⟨by decide, by decide,
    getHWIntrinsicName_unchecked sampleCatalog _ NI_Illegal (by decide) (by decide)⟩


/-! ## Lemmas on assertions and the unsupported-call policy -/

theorem Compiler.assert_of_true (C : Compiler) (cond : Bool) (h : cond = true) :
    C.assert cond = .ok () := by
  simp [Compiler.assert, h]

theorem Catalog.Declares.assert_legal {K : Catalog} {intrinsic : NamedIntrinsic}
    (h : K.Declares intrinsic) (C : Compiler) :
    C.assert (decide (intrinsic ≠ NI_Illegal)) = .ok () :=
  C.assert_of_true _ (decide_eq_true h.1)

theorem Catalog.Declares.assert_range {K : Catalog} {intrinsic : NamedIntrinsic}
    (h : K.Declares intrinsic) (C : Compiler) :
    C.assert (decide (K.start < K.enumValue intrinsic ∧ K.enumValue intrinsic < K.stop)) =
      .ok () :=
  C.assert_of_true _ (decide_eq_true h.2)

theorem impUnsupportedHWIntrinsicLoop_drop (n : Nat) :
    ∀ s : Stack, n ≤ s.length → impUnsupportedHWIntrinsicLoop n s = .ok (s.drop n) := by
  induction n with
  | zero => intro s _; rfl
  | succ n ih =>
    intro s hs
    cases s with
    | nil => simp at hs
    | cons t rest =>
      simp only [impUnsupportedHWIntrinsicLoop, impPopStack, bind, Except.bind,
        List.drop_succ_cons]
      exact ih rest (by simpa using hs)

/-- The code's unsupported-call helper yields the outcome that the policy of
the specification describes, provided the stack holds the declared operands
when they have to be dropped. -/
theorem impUnsupportedHWIntrinsic_outcome (C : Compiler) (method : CORINFO_METHOD_HANDLE)
    (sig : CORINFO_SIG_INFO) (mustExpand : Bool) (stk : Stack)
    (h : mustExpand = true → sig.numArgs ≤ stk.length) :
    impUnsupportedHWIntrinsic C CORINFO_HELP_THROW_PLATFORM_NOT_SUPPORTED method sig mustExpand
      stk = .ok (unsupportedCallOutcome C sig mustExpand stk) := by
  cases mustExpand with
  | false => rfl
  | true =>
    simp [impUnsupportedHWIntrinsic, unsupportedCallOutcome,
      impUnsupportedHWIntrinsicLoop_drop _ _ (h rfl), bind, Except.bind, pure, Except.pure,
      gtNewMustThrowException]

/-! ## Lemmas on the expanders and the dispatcher -/

set_option maxHeartbeats 2000000 in
/-- An identifier outside the switch of `impSSEIntrinsic` takes the default
branch: no expansion, stack untouched. -/
theorem impSSEIntrinsic_NI_Illegal (C : Compiler) (method : CORINFO_METHOD_HANDLE)
    (sig : CORINFO_SIG_INFO) (mustExpand : Bool) (stk : Stack) :
    impSSEIntrinsic C NI_Illegal method sig mustExpand stk = .ok (none, stk) := by
  simp [impSSEIntrinsic, pure, Except.pure]

/-- The Shuffle case of `impSSEIntrinsic` on a stack of three pending operands. -/
theorem impSSEIntrinsic_Shuffle_aux (C : Compiler) (method : CORINFO_METHOD_HANDLE)
    (sig : CORINFO_SIG_INFO) (mustExpand : Bool) (v1 v2 sel : GenTree) (rest : Stack)
    (hargs : sig.numArgs = 3)
    (hbase : C.getBaseTypeOfSIMDType sig.retTypeSigClass = TYP_FLOAT) :
    impSSEIntrinsic C NI_SSE_Shuffle method sig mustExpand (sel :: v2 :: v1 :: rest) =
      if sel.IsCnsIntOrI || mustExpand then
        .ok (some (GT_HWIntrinsic3 TYP_SIMD16 v1 v2 sel NI_SSE_Shuffle TYP_FLOAT 16), rest)
      else .ok (none, sel :: v2 :: v1 :: rest) := by
  cases hsel : sel.IsCnsIntOrI <;> cases mustExpand <;>
    simp [impSSEIntrinsic, Compiler.assert, hargs, hbase, impPopStack, impSIMDPopStack,
      impStackTop, hsel, gtNewSimdHWIntrinsicNode3, bind, Except.bind, pure, Except.pure]

/-- For a supported family and an intrinsic that is no IsSupported getter the
dispatcher hands the call to the expander of the family. -/
theorem impX86HWIntrinsic_dispatch (K : Catalog) (C : Compiler) (intrinsic : NamedIntrinsic)
    (method : CORINFO_METHOD_HANDLE) (sig : CORINFO_SIG_INFO) (mustExpand : Bool) (stk : Stack)
    (isa : InstructionSet)
    (hget : isIntrinsicAnIsSupportedPropertyGetter intrinsic = false)
    (hisa : isaOfHWIntrinsic K C intrinsic = .ok isa)
    (hsup : isSupportedISA C isa = .ok true) :
    impX86HWIntrinsic K C intrinsic method sig mustExpand stk =
      match expanderOf isa with
      | some expander => expander C intrinsic method sig mustExpand stk
      | none => .ok (none, stk) := by
  cases isa <;>
    simp [impX86HWIntrinsic, hisa, hsup, hget, expanderOf, bind, Except.bind, pure, Except.pure]

/-! ## The claims C11 to C20 -/

/-- C11: over a catalog that declares the 24 predicate intrinsics,
`ivalOfHWIntrinsic` maps each packed float-compare intrinsic to the code of the
table (CompareEqual 0, CompareLessThan 1, CompareLessThanOrEqual 2,
CompareUnordered 3, CompareNotEqual 4, CompareGreaterThanOrEqual 5,
CompareGreaterThan 6, CompareOrdered 7, CompareNotGreaterThanOrEqual 1,
CompareNotGreaterThan 2, CompareNotLessThan 5, CompareNotLessThanOrEqual 6) and
its scalar twin to the same code. -/
theorem ivalOfHWIntrinsic_compare_codes (K : Catalog) (C : Compiler)
    (hdecl : ∀ id ∈ predicateIntrinsics, K.Declares id) :
    ∀ p ∈ packedCompareCodes,
      ivalOfHWIntrinsic K C p.1 = .ok p.2.2 ∧ ivalOfHWIntrinsic K C p.2.1 = .ok p.2.2 := by
  intro p hp
  have h1 : K.Declares p.1 := hdecl _ (by
    simp only [predicateIntrinsics, List.mem_append, List.mem_map]
    exact Or.inl ⟨p, hp, rfl⟩)
  have h2 : K.Declares p.2.1 := hdecl _ (by
    simp only [predicateIntrinsics, List.mem_append, List.mem_map]
    exact Or.inr ⟨p, hp, rfl⟩)
  simp only [packedCompareCodes, List.mem_cons, List.mem_singleton, List.not_mem_nil,
    or_false] at hp
  rcases hp with h | h | h | h | h | h | h | h | h | h | h | h <;> subst h <;>
    constructor <;> unfold ivalOfHWIntrinsic <;>
    first
      | (rw [h1.assert_legal C, h1.assert_range C]; rfl)
      | (rw [h2.assert_legal C, h2.assert_range C]; rfl)

/-- Witness of C11: the catalog that declares every named hardware intrinsic,
DEBUG build. -/
theorem ivalOfHWIntrinsic_compare_codes_witness :
    (∀ id ∈ predicateIntrinsics, fullCatalog.Declares id) ∧
    ∀ p ∈ packedCompareCodes,
      ivalOfHWIntrinsic fullCatalog (sampleCompiler true false true true true) p.1 = .ok p.2.2 ∧
      ivalOfHWIntrinsic fullCatalog (sampleCompiler true false true true true) p.2.1 = .ok p.2.2 :=
  ⟨by decide, ivalOfHWIntrinsic_compare_codes fullCatalog _ (by decide)⟩

/-- C12: for every declared identifier, `ivalOfHWIntrinsic` returns -1 when
the identifier is none of the 24 predicate intrinsics and a value in 0..7 when
it is one of them, so the result always lies in -1..7. -/
theorem ivalOfHWIntrinsic_range (K : Catalog) (C : Compiler) (intrinsic : NamedIntrinsic)
    (hdecl : K.Declares intrinsic) :
    (intrinsic ∉ predicateIntrinsics → ivalOfHWIntrinsic K C intrinsic = .ok (-1)) ∧
    (intrinsic ∈ predicateIntrinsics →
      ∃ v, ivalOfHWIntrinsic K C intrinsic = .ok v ∧ 0 ≤ v ∧ v ≤ 7) ∧
    (∃ v, ivalOfHWIntrinsic K C intrinsic = .ok v ∧ -1 ≤ v ∧ v ≤ 7) := by
  unfold ivalOfHWIntrinsic
  rw [hdecl.assert_legal C, hdecl.assert_range C]
  cases intrinsic with
  | NI_Other n =>
    refine ⟨fun _ => rfl, fun h => ?_, ⟨_, rfl, by decide, by decide⟩⟩
    simp [predicateIntrinsics, packedCompareCodes] at h
  | _ =>
    refine ⟨?_, ?_, ⟨_, rfl, by decide, by decide⟩⟩
    · first
        | exact fun _ => rfl
        | exact fun h => absurd (by decide) h
    · first
        | exact fun _ => ⟨_, rfl, by decide, by decide⟩
        | exact fun h => absurd h (by decide)

/-- Witness of C12: `NI_SSE_Shuffle` has no fixed immediate. -/
theorem ivalOfHWIntrinsic_range_witness :
    fullCatalog.Declares NI_SSE_Shuffle ∧ NI_SSE_Shuffle ∉ predicateIntrinsics ∧
    ivalOfHWIntrinsic fullCatalog (sampleCompiler true false true true true) NI_SSE_Shuffle = .ok (-1) :=
  ⟨by decide, by decide,
    (ivalOfHWIntrinsic_range fullCatalog _ NI_SSE_Shuffle (by decide)).1 (by decide)⟩

/-- C13 (defect in the code): `insOfHWIntrinsic` never looks at the base type.
For `NI_SSE_Add` it returns `INS_addps` with `TYP_INT` and with `TYP_DOUBLE`,
where its header comment promises `INS_invalid` for an unsupported base type;
for every identifier the result is the same for any two types. -/
theorem insOfHWIntrinsic_ignores_type (K : Catalog) (C : Compiler)
    (hdecl : K.Declares NI_SSE_Add) :
    insOfHWIntrinsic K C NI_SSE_Add TYP_INT = .ok INS_addps ∧
    insOfHWIntrinsic K C NI_SSE_Add TYP_DOUBLE = .ok INS_addps ∧
    ∀ (intrinsic : NamedIntrinsic) (type1 type2 : var_types),
      insOfHWIntrinsic K C intrinsic type1 = insOfHWIntrinsic K C intrinsic type2 := by
  refine ⟨?_, ?_, fun _ _ _ => rfl⟩ <;> unfold insOfHWIntrinsic <;>
    rw [hdecl.assert_legal C, hdecl.assert_range C] <;> rfl

/-- Witness of C13: `Sse.Add` asked for with the base type `int`. -/
theorem insOfHWIntrinsic_ignores_type_witness :
    fullCatalog.Declares NI_SSE_Add ∧
    insOfHWIntrinsic fullCatalog (sampleCompiler true false true true true) NI_SSE_Add TYP_INT = .ok INS_addps :=
  ⟨by decide, (insOfHWIntrinsic_ignores_type fullCatalog _ (by decide)).1⟩

/-- C14: for every pair of the closed grid (width `TYP_SIMD16` or `TYP_SIMD32`,
one of the ten element types) `gtGetStructHandleForHWSIMD` returns, in every
build and without stopping on an assertion, the handle slot that the grid
designates for that pair; the grid covers exactly the twenty pairs and distinct
pairs get distinct slots. -/
theorem gtGetStructHandleForHWSIMD_grid :
    (∀ (C : Compiler), ∀ e ∈ handleGrid,
      gtGetStructHandleForHWSIMD C e.1.1 e.1.2 = .ok e.2) ∧
    handleGrid.map (fun e => e.1) = gridWidths.product gridElementTypes ∧
    (handleGrid.map (fun e => e.2)).Nodup ∧
    (∀ (C : Compiler) (w1 t1 w2 t2 : var_types),
      (w1, t1) ∈ gridWidths.product gridElementTypes →
      (w2, t2) ∈ gridWidths.product gridElementTypes →
      gtGetStructHandleForHWSIMD C w1 t1 = gtGetStructHandleForHWSIMD C w2 t2 →
      (w1, t1) = (w2, t2)) ∧
    (∀ C : Compiler, gtGetStructHandleForHWSIMD C TYP_SIMD16 TYP_FLOAT = .ok Vector128FloatHandle) ∧
    (∀ C : Compiler, gtGetStructHandleForHWSIMD C TYP_SIMD32 TYP_ULONG = .ok Vector256ULongHandle) := by
  have hall : ∀ (C : Compiler), ∀ e ∈ handleGrid,
      gtGetStructHandleForHWSIMD C e.1.1 e.1.2 = .ok e.2 := by
    intro C e he
    simp only [handleGrid, List.mem_cons, List.mem_singleton, List.not_mem_nil, or_false] at he
    rcases he with h | h | h | h | h | h | h | h | h | h | h | h | h | h | h | h | h | h | h | h <;>
      subst h <;> rfl
  have hkeys : handleGrid.map (fun e => e.1) = gridWidths.product gridElementTypes := by decide
  have hnodup : (handleGrid.map (fun e => e.2)).Nodup := by decide
  refine ⟨hall, hkeys, hnodup, ?_, fun _ => rfl, fun _ => rfl⟩
  intro C w1 t1 w2 t2 h1 h2 heq
  rw [← hkeys] at h1 h2
  obtain ⟨e1, he1, hk1⟩ := List.mem_map.1 h1
  obtain ⟨e2, he2, hk2⟩ := List.mem_map.1 h2
  have r1 := hall C e1 he1
  have r2 := hall C e2 he2
  rw [hk1] at r1
  rw [hk2] at r2
  simp only at r1 r2
  rw [r1, r2] at heq
  have hsnd : e1.2 = e2.2 := Except.ok.inj heq
  have := List.inj_on_of_nodup_map hnodup he1 he2 hsnd
  rw [← hk1, ← hk2, this]

/-- C15, counterexample: asked for the width `TYP_SIMD8`, in a DEBUG build,
`gtGetStructHandleForHWSIMD` returns `NO_CLASS_HANDLE`; it does not stop on an
assertion. -/
theorem gtGetStructHandleForHWSIMD_simd8_returns :
    gtGetStructHandleForHWSIMD (sampleCompiler true false true true true) TYP_SIMD8 TYP_FLOAT =
      .ok NO_CLASS_HANDLE ∧
    gtGetStructHandleForHWSIMD (sampleCompiler true false true true true) TYP_SIMD8 TYP_FLOAT ≠
      .error .assertFailed := by
  constructor
  · rfl
  · intro h; cases h

/-- C15, amended: for a width other than `TYP_SIMD16` and `TYP_SIMD32`
`gtGetStructHandleForHWSIMD` reaches no assertion and returns `NO_CLASS_HANDLE`,
whatever the element type; for a width of the grid and an element type outside
the ten listed it stops on its assertion in a DEBUG build (and returns
`NO_CLASS_HANDLE` in a build without DEBUG, where assertions are compiled out). -/
theorem gtGetStructHandleForHWSIMD_outOfGrid (C : Compiler) (simdType simdBaseType : var_types) :
    (simdType ∉ gridWidths →
      gtGetStructHandleForHWSIMD C simdType simdBaseType = .ok NO_CLASS_HANDLE) ∧
    (simdType ∈ gridWidths → simdBaseType ∉ gridElementTypes →
      gtGetStructHandleForHWSIMD C simdType simdBaseType =
        if C.DEBUG then .error .assertFailed else .ok NO_CLASS_HANDLE) := by
  constructor
  · intro hw
    simp only [gridWidths, List.mem_cons, List.mem_singleton, List.not_mem_nil, or_false,
      not_or] at hw
    simp [gtGetStructHandleForHWSIMD, hw.1, hw.2, pure, Except.pure]
  · intro hw ht
    simp only [gridWidths, List.mem_cons, List.mem_singleton, List.not_mem_nil, or_false] at hw
    cases hd : C.DEBUG <;> rcases hw with hw | hw <;> subst hw <;>
      cases simdBaseType <;>
      first
        | exact absurd (by decide) ht
        | simp [gtGetStructHandleForHWSIMD, Compiler.assert, hd, bind, Except.bind, pure,
            Except.pure]

/-- C16: on a stack whose top four entries are the arguments a, b, c, d of a
`NI_SSE_SetVector128` call (d on top), `impSSEIntrinsic` pops the four operands
and returns one `NI_SSE_Shuffle` node (`TYP_SIMD16`, base `TYP_FLOAT`, width 16)
whose three children are UnpackLow(d, c), UnpackLow(b, a) and the constant 68,
for either value of mustExpand. -/
theorem impSSEIntrinsic_SetVector128 (C : Compiler) (method : CORINFO_METHOD_HANDLE)
    (sig : CORINFO_SIG_INFO) (mustExpand : Bool) (a b c d : GenTree) (rest : Stack)
    (hargs : sig.numArgs = 4)
    (hbase : C.getBaseTypeOfSIMDType sig.retTypeSigClass = TYP_FLOAT) :
    impSSEIntrinsic C NI_SSE_SetVector128 method sig mustExpand (d :: c :: b :: a :: rest) =
      .ok (some (GT_HWIntrinsic3 TYP_SIMD16
        (GT_HWIntrinsic2 TYP_SIMD16 d c NI_SSE_UnpackLow TYP_FLOAT 16)
        (GT_HWIntrinsic2 TYP_SIMD16 b a NI_SSE_UnpackLow TYP_FLOAT 16)
        (GT_CNS_INT 68 TYP_UBYTE) NI_SSE_Shuffle TYP_FLOAT 16), rest) := by
  simp [impSSEIntrinsic, Compiler.assert, hargs, hbase, impPopStack, gtNewSimdHWIntrinsicNode2,
    gtNewSimdHWIntrinsicNode3, gtNewIconNode, bind, Except.bind, pure, Except.pure]

/-- Witness of C16: four operands above one more entry, mustExpand clear. -/
theorem impSSEIntrinsic_SetVector128_witness :
    sampleSig4.numArgs = 4 ∧
    (sampleCompiler true false true true true).getBaseTypeOfSIMDType sampleSig4.retTypeSigClass = TYP_FLOAT ∧
    impSSEIntrinsic (sampleCompiler true false true true true) NI_SSE_SetVector128 0 sampleSig4 false
      (GT_Opaque 4 TYP_FLOAT :: GT_Opaque 3 TYP_FLOAT :: GT_Opaque 2 TYP_FLOAT ::
        GT_Opaque 1 TYP_FLOAT :: [GT_Opaque 0 TYP_INT]) =
      .ok (some (GT_HWIntrinsic3 TYP_SIMD16
        (GT_HWIntrinsic2 TYP_SIMD16 (GT_Opaque 4 TYP_FLOAT) (GT_Opaque 3 TYP_FLOAT)
          NI_SSE_UnpackLow TYP_FLOAT 16)
        (GT_HWIntrinsic2 TYP_SIMD16 (GT_Opaque 2 TYP_FLOAT) (GT_Opaque 1 TYP_FLOAT)
          NI_SSE_UnpackLow TYP_FLOAT 16)
        (GT_CNS_INT 68 TYP_UBYTE) NI_SSE_Shuffle TYP_FLOAT 16), [GT_Opaque 0 TYP_INT]) :=
  ⟨rfl, rfl, impSSEIntrinsic_SetVector128 _ 0 sampleSig4 false _ _ _ _ _ rfl rfl⟩

/-- C17: for `NI_SSE_Shuffle` with three pending operands, when the top operand
is an integer constant or mustExpand is set, `impSSEIntrinsic` pops the three
operands and returns the Shuffle node whose third child is that top operand;
otherwise it returns nullptr and the stack is the one it was given. -/
theorem impSSEIntrinsic_Shuffle (C : Compiler) (method : CORINFO_METHOD_HANDLE)
    (sig : CORINFO_SIG_INFO) (mustExpand : Bool) (v1 v2 sel : GenTree) (rest : Stack)
    (hargs : sig.numArgs = 3)
    (hbase : C.getBaseTypeOfSIMDType sig.retTypeSigClass = TYP_FLOAT) :
    impSSEIntrinsic C NI_SSE_Shuffle method sig mustExpand (sel :: v2 :: v1 :: rest) =
      if sel.IsCnsIntOrI || mustExpand then
        .ok (some (GT_HWIntrinsic3 TYP_SIMD16 v1 v2 sel NI_SSE_Shuffle TYP_FLOAT 16), rest)
      else .ok (none, sel :: v2 :: v1 :: rest) :=
  impSSEIntrinsic_Shuffle_aux C method sig mustExpand v1 v2 sel rest hargs hbase

/-- Witness of C17: a selector that is no constant, mustExpand clear: no
expansion and the three operands stay on the stack. -/
theorem impSSEIntrinsic_Shuffle_witness :
    sampleSig3.numArgs = 3 ∧
    (sampleCompiler true false true true true).getBaseTypeOfSIMDType sampleSig3.retTypeSigClass = TYP_FLOAT ∧
    impSSEIntrinsic (sampleCompiler true false true true true) NI_SSE_Shuffle 0 sampleSig3 false
      (GT_Opaque 3 TYP_INT :: GT_Opaque 2 TYP_SIMD16 :: GT_Opaque 1 TYP_SIMD16 :: []) =
      .ok (none, GT_Opaque 3 TYP_INT :: GT_Opaque 2 TYP_SIMD16 :: GT_Opaque 1 TYP_SIMD16 :: []) :=
  ⟨rfl, rfl, impSSEIntrinsic_Shuffle _ 0 sampleSig3 false _ _ _ _ rfl rfl⟩

/-- C18: on a 32-bit target, a call that carries a 64-bit scalar operand or
result (ConvertToInt64 and ConvertToInt64WithTruncation returning long,
ConvertToVector128SingleScalar with a long second argument, Crc32,
LeadingZeroCount and PopCount returning long) is answered by the expander of its
family, and so by the dispatcher when the family is supported, with the outcome
of the unsupported-call policy: nullptr and an untouched stack when mustExpand
is clear, `sig.numArgs` operands dropped and a must-throw node when it is set. -/
theorem x86_long_scalar_rejected (C : Compiler) (method : CORINFO_METHOD_HANDLE)
    (sig : CORINFO_SIG_INFO) (mustExpand : Bool) (stk : Stack)
    (hx86 : C.TARGET_X86 = true)
    (hstk : mustExpand = true → sig.numArgs ≤ stk.length) :
    (∀ (isa : InstructionSet) (intrinsic : NamedIntrinsic),
      Carries64BitScalar C sig isa intrinsic →
      ∃ expander, expanderOf isa = some expander ∧
        expander C intrinsic method sig mustExpand stk =
          .ok (unsupportedCallOutcome C sig mustExpand stk) ∧
        ∀ K : Catalog, isIntrinsicAnIsSupportedPropertyGetter intrinsic = false →
          isaOfHWIntrinsic K C intrinsic = .ok isa → isSupportedISA C isa = .ok true →
          impX86HWIntrinsic K C intrinsic method sig mustExpand stk =
            .ok (unsupportedCallOutcome C sig mustExpand stk)) ∧
    unsupportedCallOutcome C sig false stk = (none, stk) ∧
    unsupportedCallOutcome C sig true stk =
      (some (MustThrowException CORINFO_HELP_THROW_PLATFORM_NOT_SUPPORTED
        (C.JITtype2varType sig.retType) sig.retTypeClass), stk.drop sig.numArgs) := by
  refine ⟨?_, rfl, rfl⟩
  intro isa intrinsic hcar
  have hout := impUnsupportedHWIntrinsic_outcome C method sig mustExpand stk hstk
  have key : ∃ expander, expanderOf isa = some expander ∧
      expander C intrinsic method sig mustExpand stk =
        .ok (unsupportedCallOutcome C sig mustExpand stk) := by
    rcases hcar with ⟨rfl, hid, hargs, hbase, hlong⟩ | ⟨rfl, rfl, hargs, hbase, hlong⟩ |
      ⟨rfl, rfl, hargs, hlong⟩ | ⟨rfl, rfl, hargs, hlong⟩ | ⟨rfl, rfl, hargs, hlong⟩
    · refine ⟨_, rfl, ?_⟩
      rcases hid with rfl | rfl <;>
        simp [impSSEIntrinsic, Compiler.assert, hargs, hbase, hlong, hx86, hout, bind,
          Except.bind]
    · refine ⟨_, rfl, ?_⟩
      simp [impSSEIntrinsic, Compiler.assert, hargs, hbase, hlong, hx86, hout, bind,
        Except.bind]
    · refine ⟨_, rfl, ?_⟩
      simp [impSSE42Intrinsic, Compiler.assert, hargs, hlong, hx86, hout, bind, Except.bind]
    · refine ⟨_, rfl, ?_⟩
      simp [impLZCNTIntrinsic, Compiler.assert, hargs, hlong, hx86, hout, bind, Except.bind]
    · refine ⟨_, rfl, ?_⟩
      simp [impPOPCNTIntrinsic, Compiler.assert, hargs, hlong, hx86, hout, bind, Except.bind]
  obtain ⟨expander, hexp, hres⟩ := key
  refine ⟨expander, hexp, hres, ?_⟩
  intro K hget hisa hsup
  rw [impX86HWIntrinsic_dispatch K C intrinsic method sig mustExpand stk isa hget hisa hsup,
    hexp]
  exact hres

/-- Witness of C18: `Lzcnt.LeadingZeroCount` returning `long` on a 32-bit target
with the family supported and mustExpand set: the dispatcher drops the operand
and returns the must-throw node. -/
theorem x86_long_scalar_rejected_witness :
    (sampleCompilerLongArg true).TARGET_X86 = true ∧
    ((true = true) → sampleSigLong1.numArgs ≤ sampleStack.length) ∧
    Carries64BitScalar (sampleCompilerLongArg true) sampleSigLong1 InstructionSet_LZCNT
      NI_LZCNT_LeadingZeroCount ∧
    isSupportedISA (sampleCompilerLongArg true) InstructionSet_LZCNT = .ok true ∧
    impX86HWIntrinsic fullCatalog (sampleCompilerLongArg true) NI_LZCNT_LeadingZeroCount 0
      sampleSigLong1 true sampleStack =
      .ok (some (MustThrowException CORINFO_HELP_THROW_PLATFORM_NOT_SUPPORTED TYP_LONG 0),
        [GT_Opaque 2 TYP_SIMD16, GT_Opaque 3 TYP_INT]) :=
  ⟨rfl, fun _ => by decide, Or.inr (Or.inr (Or.inr (Or.inl ⟨rfl, rfl, rfl, rfl⟩))), rfl,
    by
      obtain ⟨_, _, _, hdisp⟩ :=
        (x86_long_scalar_rejected (sampleCompilerLongArg true) 0 sampleSigLong1 true sampleStack
          rfl (fun _ => by decide)).1 InstructionSet_LZCNT NI_LZCNT_LeadingZeroCount
          (Or.inr (Or.inr (Or.inr (Or.inl ⟨rfl, rfl, rfl, rfl⟩))))
      exact hdisp fullCatalog rfl rfl rfl⟩

/-- C19: when the call is not rejected for target width, `impLZCNTIntrinsic`,
`impPOPCNTIntrinsic` and the Crc32 case of `impSSE42Intrinsic` return a scalar
hardware-operation node (size 0) typed by the declared return type, with the
operands in argument order; the Crc32 node carries as `gtSIMDBaseType` the type
of the second argument of the call. -/
theorem scalar_expanders_build_scalar_nodes (C : Compiler) (method : CORINFO_METHOD_HANDLE)
    (sig : CORINFO_SIG_INFO) (mustExpand : Bool) (arg1 arg2 : GenTree) (rest : Stack)
    (hwidth : (C.TARGET_X86 && C.varTypeIsLong (C.JITtype2varType sig.retType)) = false) :
    (sig.numArgs = 1 → ∀ intrinsic : NamedIntrinsic,
      impLZCNTIntrinsic C intrinsic method sig mustExpand (arg1 :: rest) =
        .ok (some (GT_HWIntrinsic1 (C.JITtype2varType sig.retType) arg1
          NI_LZCNT_LeadingZeroCount TYP_UNKNOWN 0), rest)) ∧
    (sig.numArgs = 1 → ∀ intrinsic : NamedIntrinsic,
      impPOPCNTIntrinsic C intrinsic method sig mustExpand (arg1 :: rest) =
        .ok (some (GT_HWIntrinsic1 (C.JITtype2varType sig.retType) arg1
          NI_POPCNT_PopCount TYP_UNKNOWN 0), rest)) ∧
    (sig.numArgs = 2 →
      impSSE42Intrinsic C NI_SSE42_Crc32 method sig mustExpand (arg2 :: arg1 :: rest) =
        .ok (some (GT_HWIntrinsic2 (C.JITtype2varType sig.retType) arg1 arg2 NI_SSE42_Crc32
          (C.JITtype2varType (C.strip (C.getArgType sig (C.getArgNext sig.args)))) 0),
          rest)) ∧
    gtNewScalarHWIntrinsicNode1 (C.JITtype2varType sig.retType) arg1 NI_LZCNT_LeadingZeroCount =
      GT_HWIntrinsic1 (C.JITtype2varType sig.retType) arg1 NI_LZCNT_LeadingZeroCount
        TYP_UNKNOWN 0 := by
  refine ⟨?_, ?_, ?_, rfl⟩
  · intro hargs intrinsic
    simp [impLZCNTIntrinsic, Compiler.assert, hargs, hwidth, impPopStack,
      gtNewScalarHWIntrinsicNode1, bind, Except.bind, pure, Except.pure]
  · intro hargs intrinsic
    simp [impPOPCNTIntrinsic, Compiler.assert, hargs, hwidth, impPopStack,
      gtNewScalarHWIntrinsicNode1, bind, Except.bind, pure, Except.pure]
  · intro hargs
    simp [impSSE42Intrinsic, Compiler.assert, hargs, hwidth, impPopStack,
      gtNewScalarHWIntrinsicNode2, GenTree.setSIMDBaseType, bind, Except.bind, pure,
      Except.pure]

/-- Witness of C19: `Sse42.Crc32` on a 32-bit target, returning `int`, with a
second argument of type `long`: the node is typed `int` and stamped `long`. -/
theorem scalar_expanders_build_scalar_nodes_witness :
    ((sampleCompilerLongArg true).TARGET_X86 &&
      (sampleCompilerLongArg true).varTypeIsLong
        ((sampleCompilerLongArg true).JITtype2varType sampleSig2.retType)) = false ∧
    sampleSig2.numArgs = 2 ∧
    impSSE42Intrinsic (sampleCompilerLongArg true) NI_SSE42_Crc32 0 sampleSig2 false
      (GT_Opaque 2 TYP_LONG :: GT_Opaque 1 TYP_INT :: []) =
      .ok (some (GT_HWIntrinsic2 TYP_INT (GT_Opaque 1 TYP_INT) (GT_Opaque 2 TYP_LONG)
        NI_SSE42_Crc32 TYP_LONG 0), []) :=
  ⟨rfl, rfl,
    (scalar_expanders_build_scalar_nodes (sampleCompilerLongArg true) 0 sampleSig2 false
      (GT_Opaque 1 TYP_INT) (GT_Opaque 2 TYP_LONG) [] rfl).2.2.1 rfl⟩

/-- C20: for each of the 45 two-operand element-wise intrinsics of the
float-vector family, with two declared arguments, `impSSEIntrinsic` pops the
second argument, then the first, and returns the `TYP_SIMD16` node of the same
identifier (base `TYP_FLOAT`, width 16) with children (first, second); the
one-operand intrinsics and Shuffle likewise place argument k as child k. -/
theorem impSSEIntrinsic_children_in_argument_order (C : Compiler)
    (method : CORINFO_METHOD_HANDLE) (sig : CORINFO_SIG_INFO) (mustExpand : Bool)
    (hbase : C.getBaseTypeOfSIMDType sig.retTypeSigClass = TYP_FLOAT) :
    (∀ intrinsic ∈ binaryElementwise, sig.numArgs = 2 → ∀ (arg1 arg2 : GenTree) (rest : Stack),
      impSSEIntrinsic C intrinsic method sig mustExpand (arg2 :: arg1 :: rest) =
        .ok (some (GT_HWIntrinsic2 TYP_SIMD16 arg1 arg2 intrinsic TYP_FLOAT 16), rest)) ∧
    (∀ intrinsic ∈ unaryElementwise, sig.numArgs = 1 → ∀ (arg1 : GenTree) (rest : Stack),
      impSSEIntrinsic C intrinsic method sig mustExpand (arg1 :: rest) =
        .ok (some (GT_HWIntrinsic1 TYP_SIMD16 arg1 intrinsic TYP_FLOAT 16), rest)) ∧
    (sig.numArgs = 3 → ∀ (arg1 arg2 arg3 : GenTree) (rest : Stack),
      (arg3.IsCnsIntOrI || mustExpand) = true →
      impSSEIntrinsic C NI_SSE_Shuffle method sig mustExpand (arg3 :: arg2 :: arg1 :: rest) =
        .ok (some (GT_HWIntrinsic3 TYP_SIMD16 arg1 arg2 arg3 NI_SSE_Shuffle TYP_FLOAT 16),
          rest)) ∧
    binaryElementwise.length = 45 := by
  refine ⟨?_, ?_, ?_, rfl⟩
  · intro intrinsic hmem hargs arg1 arg2 rest
    cases intrinsic with
    | NI_Other n => simp [binaryElementwise] at hmem
    | _ =>
      first
        | exact absurd hmem (by decide)
        | simp [impSSEIntrinsic, Compiler.assert, hargs, hbase, impPopStack, impSIMDPopStack,
            gtNewSimdHWIntrinsicNode2, bind, Except.bind, pure, Except.pure]
  · intro intrinsic hmem hargs arg1 rest
    cases intrinsic with
    | NI_Other n => simp [unaryElementwise] at hmem
    | _ =>
      first
        | exact absurd hmem (by decide)
        | simp [impSSEIntrinsic, Compiler.assert, hargs, hbase, impPopStack, impSIMDPopStack,
            gtNewSimdHWIntrinsicNode1, bind, Except.bind, pure, Except.pure]
  · intro hargs arg1 arg2 arg3 rest hsel
    rw [impSSEIntrinsic_Shuffle_aux C method sig mustExpand arg1 arg2 arg3 rest hargs hbase, hsel]
    rfl

/-- Witness of C20: `Sse.Add` with the second argument on top of the stack. -/
theorem impSSEIntrinsic_children_in_argument_order_witness :
    (sampleCompiler true false true true true).getBaseTypeOfSIMDType sampleSig2.retTypeSigClass = TYP_FLOAT ∧
    NI_SSE_Add ∈ binaryElementwise ∧ sampleSig2.numArgs = 2 ∧
    impSSEIntrinsic (sampleCompiler true false true true true) NI_SSE_Add 0 sampleSig2 false
      (GT_Opaque 2 TYP_SIMD16 :: GT_Opaque 1 TYP_SIMD16 :: [GT_Opaque 0 TYP_INT]) =
      .ok (some (GT_HWIntrinsic2 TYP_SIMD16 (GT_Opaque 1 TYP_SIMD16) (GT_Opaque 2 TYP_SIMD16)
        NI_SSE_Add TYP_FLOAT 16), [GT_Opaque 0 TYP_INT]) :=
  ⟨rfl, by decide, rfl,
    (impSSEIntrinsic_children_in_argument_order _ 0 sampleSig2 false rfl).1 NI_SSE_Add
      (by decide) rfl _ _ _⟩

/-! ## Lemmas on the scan of the rows inside the array -/

/-- A scan of `a + b` iterations is a scan of `a` iterations followed by a scan
of `b` iterations that starts where the first one stopped. -/
theorem lookupHWIntrinsicLoop_add (K : Catalog) (methodName : String) (isa : InstructionSet)
    (a b : Nat) : ∀ (i : Nat) (result : NamedIntrinsic),
      lookupHWIntrinsicLoop K methodName isa (a + b) i result =
        (lookupHWIntrinsicLoop K methodName isa a i result >>= fun r =>
          lookupHWIntrinsicLoop K methodName isa b (i + a) r) := by
  induction a with
  | zero => intro i result; simp [lookupHWIntrinsicLoop, bind, Except.bind]
  | succ n ih =>
    intro i result
    have hn : n + 1 + b = (n + b) + 1 := by omega
    rw [hn]
    simp only [lookupHWIntrinsicLoop]
    cases hat : K.at (i : Int) with
    | error f => simp [bind, Except.bind]
    | ok e =>
      have hi : i + (n + 1) = i + 1 + n := by omega
      simp only [bind, Except.bind, hi]
      split_ifs
      · exact ih (i + 1) _
      · exact ih (i + 1) _

/-- The scan over exactly the rows of the array returns the identifier of the
last matching row, or the initial value when no row matches. -/
theorem lookupHWIntrinsicLoop_rows (K : Catalog) (methodName : String) (isa : InstructionSet)
    (init : NamedIntrinsic) :
    lookupHWIntrinsicLoop K methodName isa K.hwIntrinsicInfoArray.length 0 init =
      .ok (match lastMatchingRow methodName isa K.hwIntrinsicInfoArray with
        | some e => e.intrinsicID
        | none => init) := by
  rw [lookupHWIntrinsicLoop_inBounds K methodName isa _ 0 init (by omega)]
  simp only [List.drop_zero, List.take_length]
  rw [foldl_scanStep]

theorem StackBalanced.none (numArgs : Nat) (stk : Stack) (debug : Bool) :
    StackBalanced numArgs stk debug (.ok (Option.none, stk)) :=
  Or.inl ⟨_, _, rfl, fun _ => rfl, fun h => absurd rfl h⟩

theorem StackBalanced.node (numArgs : Nat) (stk : Stack) (debug : Bool) (t : GenTree)
    (stk2 : Stack) (h : stk2 = stk.drop numArgs) :
    StackBalanced numArgs stk debug (.ok (some t, stk2)) :=
  Or.inl ⟨_, _, rfl, fun h0 => Option.noConfusion h0, fun _ => h⟩

theorem StackBalanced.assert {numArgs : Nat} {stk : Stack} {C : Compiler} (cond : Bool)
    {k : Except Fault (Option GenTree × Stack)} (h : StackBalanced numArgs stk C.DEBUG k) :
    StackBalanced numArgs stk C.DEBUG (C.assert cond >>= fun _ => k) := by
  unfold Compiler.assert
  by_cases hc : (C.DEBUG && !cond) = true
  · rw [if_pos hc]
    exact Or.inr ⟨by simpa using (Bool.and_eq_true _ _ ▸ hc).1, rfl⟩
  · rw [if_neg hc]
    exact h

theorem StackBalanced.ite {numArgs : Nat} {stk : Stack} {debug : Bool} (c : Prop)
    [Decidable c] {a b : Except Fault (Option GenTree × Stack)}
    (ha : StackBalanced numArgs stk debug a) (hb : StackBalanced numArgs stk debug b) :
    StackBalanced numArgs stk debug (if c then a else b) := by
  split
  · exact ha
  · exact hb

theorem impUnsupportedHWIntrinsic_balanced (C : Compiler) (method : CORINFO_METHOD_HANDLE)
    (sig : CORINFO_SIG_INFO) (mustExpand : Bool) (stk : Stack) (debug : Bool)
    (hstk : sig.numArgs ≤ stk.length) :
    StackBalanced sig.numArgs stk debug
      (impUnsupportedHWIntrinsic C CORINFO_HELP_THROW_PLATFORM_NOT_SUPPORTED method sig
        mustExpand stk) := by
  rw [impUnsupportedHWIntrinsic_outcome C method sig mustExpand stk (fun _ => hstk)]
  cases mustExpand
  · exact StackBalanced.none _ _ _
  · exact StackBalanced.node _ _ _ _ _ rfl

theorem Stack.exists_cons (n : Nat) (stk : Stack) (h : n + 1 ≤ stk.length) :
    ∃ t rest, stk = t :: rest ∧ n ≤ rest.length := by
  cases stk with
  | nil => simp at h
  | cons t rest => exact ⟨t, rest, rfl, by simpa using h⟩

theorem impLZCNTIntrinsic_balanced (C : Compiler) (intrinsic : NamedIntrinsic)
    (method : CORINFO_METHOD_HANDLE) (sig : CORINFO_SIG_INFO) (mustExpand : Bool) (stk : Stack)
    (harity : sig.numArgs = 1) (hstk : sig.numArgs ≤ stk.length) :
    StackBalanced sig.numArgs stk C.DEBUG
      (impLZCNTIntrinsic C intrinsic method sig mustExpand stk) := by
  obtain ⟨a, rest, rfl, -⟩ := Stack.exists_cons 0 stk (by omega)
  unfold impLZCNTIntrinsic
  refine StackBalanced.assert _ (StackBalanced.ite _
    (impUnsupportedHWIntrinsic_balanced C method sig mustExpand _ _ hstk) ?_)
  exact StackBalanced.node _ _ _ _ _ (by rw [harity]; rfl)

theorem impPOPCNTIntrinsic_balanced (C : Compiler) (intrinsic : NamedIntrinsic)
    (method : CORINFO_METHOD_HANDLE) (sig : CORINFO_SIG_INFO) (mustExpand : Bool) (stk : Stack)
    (harity : sig.numArgs = 1) (hstk : sig.numArgs ≤ stk.length) :
    StackBalanced sig.numArgs stk C.DEBUG
      (impPOPCNTIntrinsic C intrinsic method sig mustExpand stk) := by
  obtain ⟨a, rest, rfl, -⟩ := Stack.exists_cons 0 stk (by omega)
  unfold impPOPCNTIntrinsic
  refine StackBalanced.assert _ (StackBalanced.ite _
    (impUnsupportedHWIntrinsic_balanced C method sig mustExpand _ _ hstk) ?_)
  exact StackBalanced.node _ _ _ _ _ (by rw [harity]; rfl)

theorem binaryPop_balanced (C : Compiler) (sig : CORINFO_SIG_INFO) (stk : Stack)
    (f : GenTree → GenTree → GenTree)
    (harity : sig.numArgs = 2) (hstk : sig.numArgs ≤ stk.length) :
    StackBalanced sig.numArgs stk C.DEBUG
      (C.assert (sig.numArgs == 2) >>= fun _ =>
        impPopStack stk >>= fun p => impPopStack p.2 >>= fun q =>
          pure (some (f q.1 p.1), q.2)) := by
  obtain ⟨a, s1, rfl, h1⟩ := Stack.exists_cons 1 stk (by omega)
  obtain ⟨b, rest, rfl, -⟩ := Stack.exists_cons 0 s1 h1
  exact StackBalanced.assert _ (StackBalanced.node _ _ _ _ _ (by rw [harity]; rfl))

theorem impSSE2Intrinsic_balanced (C : Compiler) (intrinsic : NamedIntrinsic)
    (method : CORINFO_METHOD_HANDLE) (sig : CORINFO_SIG_INFO) (mustExpand : Bool) (stk : Stack)
    (harity : ∀ k, assertedArity InstructionSet_SSE2 intrinsic = some k → sig.numArgs = k)
    (hstk : sig.numArgs ≤ stk.length) :
    StackBalanced sig.numArgs stk C.DEBUG
      (impSSE2Intrinsic C intrinsic method sig mustExpand stk) := by
  cases intrinsic with
  | NI_SSE2_Add =>
    exact binaryPop_balanced C sig stk
      (fun op1 op2 => gtNewSimdHWIntrinsicNode2 TYP_SIMD16 op1 op2 NI_SSE2_Add
        (C.getBaseTypeOfSIMDType sig.retTypeSigClass) 16) (harity 2 rfl) hstk
  | _ => exact StackBalanced.none _ _ _

theorem impAVXIntrinsic_balanced (C : Compiler) (intrinsic : NamedIntrinsic)
    (method : CORINFO_METHOD_HANDLE) (sig : CORINFO_SIG_INFO) (mustExpand : Bool) (stk : Stack)
    (harity : ∀ k, assertedArity InstructionSet_AVX intrinsic = some k → sig.numArgs = k)
    (hstk : sig.numArgs ≤ stk.length) :
    StackBalanced sig.numArgs stk C.DEBUG
      (impAVXIntrinsic C intrinsic method sig mustExpand stk) := by
  cases intrinsic with
  | NI_AVX_Add =>
    exact binaryPop_balanced C sig stk
      (fun op1 op2 => gtNewSimdHWIntrinsicNode2 TYP_SIMD32 op1 op2 NI_AVX_Add
        (C.getBaseTypeOfSIMDType sig.retTypeSigClass) 32) (harity 2 rfl) hstk
  | _ => exact StackBalanced.none _ _ _

theorem impAVX2Intrinsic_balanced (C : Compiler) (intrinsic : NamedIntrinsic)
    (method : CORINFO_METHOD_HANDLE) (sig : CORINFO_SIG_INFO) (mustExpand : Bool) (stk : Stack)
    (harity : ∀ k, assertedArity InstructionSet_AVX2 intrinsic = some k → sig.numArgs = k)
    (hstk : sig.numArgs ≤ stk.length) :
    StackBalanced sig.numArgs stk C.DEBUG
      (impAVX2Intrinsic C intrinsic method sig mustExpand stk) := by
  cases intrinsic with
  | NI_AVX2_Add =>
    exact binaryPop_balanced C sig stk
      (fun op1 op2 => gtNewSimdHWIntrinsicNode2 TYP_SIMD32 op1 op2 NI_AVX2_Add
        (C.getBaseTypeOfSIMDType sig.retTypeSigClass) 32) (harity 2 rfl) hstk
  | _ => exact StackBalanced.none _ _ _

theorem impSSE42Intrinsic_balanced (C : Compiler) (intrinsic : NamedIntrinsic)
    (method : CORINFO_METHOD_HANDLE) (sig : CORINFO_SIG_INFO) (mustExpand : Bool) (stk : Stack)
    (harity : ∀ k, assertedArity InstructionSet_SSE42 intrinsic = some k → sig.numArgs = k)
    (hstk : sig.numArgs ≤ stk.length) :
    StackBalanced sig.numArgs stk C.DEBUG
      (impSSE42Intrinsic C intrinsic method sig mustExpand stk) := by
  cases intrinsic with
  | NI_SSE42_Crc32 =>
    have h : sig.numArgs = 2 := harity 2 rfl
    obtain ⟨a, s1, rfl, h1⟩ := Stack.exists_cons 1 stk (by omega)
    obtain ⟨b, rest, rfl, -⟩ := Stack.exists_cons 0 s1 h1
    refine StackBalanced.assert _ (StackBalanced.ite _
      (impUnsupportedHWIntrinsic_balanced C method sig mustExpand _ _ hstk) ?_)
    exact StackBalanced.node _ _ _ _ _ (by rw [h]; rfl)
  | _ => exact StackBalanced.none _ _ _

set_option maxHeartbeats 4000000 in
theorem impSSEIntrinsic_balanced (C : Compiler) (intrinsic : NamedIntrinsic)
    (method : CORINFO_METHOD_HANDLE) (sig : CORINFO_SIG_INFO) (mustExpand : Bool) (stk : Stack)
    (harity : ∀ k, assertedArity InstructionSet_SSE intrinsic = some k → sig.numArgs = k)
    (hstk : sig.numArgs ≤ stk.length) :
    StackBalanced sig.numArgs stk C.DEBUG
      (impSSEIntrinsic C intrinsic method sig mustExpand stk) := by
  cases intrinsic with
  | NI_SSE_SetVector128 =>
    have h : sig.numArgs = 4 := harity 4 rfl
    obtain ⟨a, s1, rfl, h1⟩ := Stack.exists_cons 3 stk (by omega)
    obtain ⟨b, s2, rfl, h2⟩ := Stack.exists_cons 2 s1 h1
    obtain ⟨c, s3, rfl, h3⟩ := Stack.exists_cons 1 s2 h2
    obtain ⟨d, rest, rfl, -⟩ := Stack.exists_cons 0 s3 h3
    exact StackBalanced.assert _ (StackBalanced.assert _
      (StackBalanced.node _ _ _ _ _ (by rw [h]; rfl)))
  | NI_SSE_Shuffle =>
    have h : sig.numArgs = 3 := harity 3 rfl
    obtain ⟨a, s1, rfl, h1⟩ := Stack.exists_cons 2 stk (by omega)
    obtain ⟨b, s2, rfl, h2⟩ := Stack.exists_cons 1 s1 h1
    obtain ⟨c, rest, rfl, -⟩ := Stack.exists_cons 0 s2 h2
    exact StackBalanced.assert _ (StackBalanced.assert _
      (StackBalanced.ite _ (StackBalanced.node _ _ _ _ _ (by rw [h]; rfl))
        (StackBalanced.none _ _ _)))
  | NI_SSE_SetZeroVector128 =>
    have h : sig.numArgs = 0 := harity 0 rfl
    exact StackBalanced.assert _ (StackBalanced.assert _
      (StackBalanced.node _ _ _ _ _ (by rw [h]; rfl)))
  | NI_SSE_StaticCast =>
    have h : sig.numArgs = 1 := harity 1 rfl
    obtain ⟨a, rest, rfl, -⟩ := Stack.exists_cons 0 stk (by omega)
    exact StackBalanced.assert _ (StackBalanced.ite _
      (StackBalanced.node _ _ _ _ _ (by rw [h]; rfl))
      (impUnsupportedHWIntrinsic_balanced C method sig mustExpand _ _ hstk))
  | NI_SSE_MoveMask =>
    have h : sig.numArgs = 1 := harity 1 rfl
    obtain ⟨a, rest, rfl, -⟩ := Stack.exists_cons 0 stk (by omega)
    exact StackBalanced.assert _ (StackBalanced.assert _ (StackBalanced.assert _
      (StackBalanced.node _ _ _ _ _ (by rw [h]; rfl))))
  | NI_SSE_ConvertToVector128SingleScalar =>
    have h : sig.numArgs = 2 := harity 2 rfl
    obtain ⟨a, s1, rfl, h1⟩ := Stack.exists_cons 1 stk (by omega)
    obtain ⟨b, rest, rfl, -⟩ := Stack.exists_cons 0 s1 h1
    exact StackBalanced.assert _ (StackBalanced.assert _ (StackBalanced.ite _
      (impUnsupportedHWIntrinsic_balanced C method sig mustExpand _ _ hstk)
      (StackBalanced.node _ _ _ _ _ (by rw [h]; rfl))))
  | NI_Other n => exact StackBalanced.none _ _ _
  | _ =>
    first
    | exact StackBalanced.none _ _ _
    | (have h : sig.numArgs = 1 := harity 1 rfl
       obtain ⟨a, rest, rfl, -⟩ := Stack.exists_cons 0 stk (by omega)
       first
       | exact StackBalanced.assert _ (StackBalanced.assert _
           (StackBalanced.node _ _ _ _ _ (by rw [h]; rfl)))
       | exact StackBalanced.assert _ (StackBalanced.assert _ (StackBalanced.ite _
           (StackBalanced.assert _
             (impUnsupportedHWIntrinsic_balanced C method sig mustExpand _ _ hstk))
           (StackBalanced.node _ _ _ _ _ (by rw [h]; rfl)))))
    | (have h : sig.numArgs = 2 := harity 2 rfl
       obtain ⟨a, s1, rfl, h1⟩ := Stack.exists_cons 1 stk (by omega)
       obtain ⟨b, rest, rfl, -⟩ := Stack.exists_cons 0 s1 h1
       first
       | exact StackBalanced.assert _ (StackBalanced.assert _
           (StackBalanced.node _ _ _ _ _ (by rw [h]; rfl)))
       | exact StackBalanced.assert _ (StackBalanced.assert _ (StackBalanced.assert _
           (StackBalanced.node _ _ _ _ _ (by rw [h]; rfl)))))

/-! ## Lemmas on the lane selectors -/

set_option maxRecDepth 100000 in
/-- The control value 68 is the only one of the 256 controls that selects
lanes 0 and 1 of the first operand and lanes 0 and 1 of the second. -/
theorem shuffleLane_68_only :
    ∀ imm : Fin 256, (shuffleLane imm 0 = 0 ∧ shuffleLane imm 2 = 1 ∧ shuffleLane imm 4 = 0 ∧
      shuffleLane imm 6 = 1) ↔ imm = 68 := by
  decide

/-- The selectors of control 68. -/
theorem shuffleLane_68 :
    shuffleLane 68 0 = 0 ∧ shuffleLane 68 2 = 1 ∧ shuffleLane 68 4 = 0 ∧ shuffleLane 68 6 = 1 := by
  decide

/-- The lanes of the SetVector128 tree. -/
theorem laneValue_SetVector128_tree {V : Type} (operand : GenTree → Fin 4 → V)
    (a b c d : GenTree) :
    laneValue operand (GT_HWIntrinsic3 TYP_SIMD16
        (GT_HWIntrinsic2 TYP_SIMD16 d c NI_SSE_UnpackLow TYP_FLOAT 16)
        (GT_HWIntrinsic2 TYP_SIMD16 b a NI_SSE_UnpackLow TYP_FLOAT 16)
        (GT_CNS_INT 68 TYP_UBYTE) NI_SSE_Shuffle TYP_FLOAT 16) =
      ![laneValue operand d 0, laneValue operand c 0, laneValue operand b 0,
        laneValue operand a 0] := by
  obtain ⟨h0, h2, h4, h6⟩ := shuffleLane_68
  have h68 : (68 : Int).toNat = 68 := rfl
  simp only [laneValue, if_true, shuffleLanes, unpackLowLanes, h68, h0, h2, h4, h6]
  rfl

/-! ## The claims C21 to C30 -/

/-- C21: each of the eight placeholder expanders (`impSSE3Intrinsic`,
`impSSSE3Intrinsic`, `impSSE41Intrinsic`, `impAESIntrinsic`, `impBMI1Intrinsic`,
`impBMI2Intrinsic`, `impFMAIntrinsic`, `impPCLMULQDQIntrinsic`) returns, for every
compiler instance, identifier, method, signature, mustExpand value and operand
stack, the result nullptr with the stack it was given. -/
theorem placeholder_expanders_total (C : Compiler) (intrinsic : NamedIntrinsic)
    (method : CORINFO_METHOD_HANDLE) (sig : CORINFO_SIG_INFO) (mustExpand : Bool) (stk : Stack) :
    impSSE3Intrinsic C intrinsic method sig mustExpand stk = .ok (none, stk) ∧
    impSSSE3Intrinsic C intrinsic method sig mustExpand stk = .ok (none, stk) ∧
    impSSE41Intrinsic C intrinsic method sig mustExpand stk = .ok (none, stk) ∧
    impAESIntrinsic C intrinsic method sig mustExpand stk = .ok (none, stk) ∧
    impBMI1Intrinsic C intrinsic method sig mustExpand stk = .ok (none, stk) ∧
    impBMI2Intrinsic C intrinsic method sig mustExpand stk = .ok (none, stk) ∧
    impFMAIntrinsic C intrinsic method sig mustExpand stk = .ok (none, stk) ∧
    impPCLMULQDQIntrinsic C intrinsic method sig mustExpand stk = .ok (none, stk) :=
  ⟨rfl, rfl, rfl, rfl, rfl, rfl, rfl, rfl⟩

/-- C22 (defect in the code): over a catalog whose array holds N rows, one per
declared identifier (N + 1 = `NI_HW_INTRINSIC_END - NI_HW_INTRINSIC_START`), a
scan of `lookupHWIntrinsic` for a family other than `InstructionSet_ILLEGAL` is
the scan of the N rows, which returns a running result, followed by one more
iteration at index N; the read at index N is past the end of the array, and
that iteration stops on it for every running result. -/
theorem lookupHWIntrinsic_reads_index_N (K : Catalog) (methodName : String)
    (isa : InstructionSet) (hisa : isa ≠ InstructionSet_ILLEGAL) (hrows : K.RowPerId) :
    K.stop - K.start = K.hwIntrinsicInfoArray.length + 1 ∧
    (∃ r, lookupHWIntrinsicLoop K methodName isa K.hwIntrinsicInfoArray.length 0 NI_Illegal =
        .ok r ∧
      lookupHWIntrinsic K methodName isa =
        lookupHWIntrinsicLoop K methodName isa 1 K.hwIntrinsicInfoArray.length r) ∧
    K.at (K.hwIntrinsicInfoArray.length : Int) = .error .outOfBounds ∧
    (∀ r, lookupHWIntrinsicLoop K methodName isa 1 K.hwIntrinsicInfoArray.length r =
      .error .outOfBounds) := by
  unfold Catalog.RowPerId at hrows
  have hat := Catalog.at_natCast_ge K K.hwIntrinsicInfoArray.length (Nat.le_refl _)
  refine ⟨hrows.symm, ⟨_, lookupHWIntrinsicLoop_rows K methodName isa NI_Illegal, ?_⟩, hat, ?_⟩
  · simp only [lookupHWIntrinsic, hisa, ne_eq, not_false_eq_true, if_true]
    rw [← hrows, lookupHWIntrinsicLoop_add, lookupHWIntrinsicLoop_rows]
    simp [bind, Except.bind]
  · intro r
    simp only [lookupHWIntrinsicLoop, hat, bind, Except.bind]

/-- Witness of C22: the name "Add" under SSE2 in the sample catalog of six rows. -/
theorem lookupHWIntrinsic_reads_index_N_witness :
    InstructionSet_SSE2 ≠ InstructionSet_ILLEGAL ∧ sampleCatalog.RowPerId ∧
    sampleCatalog.stop - sampleCatalog.start = sampleCatalog.hwIntrinsicInfoArray.length + 1 ∧
    sampleCatalog.at (sampleCatalog.hwIntrinsicInfoArray.length : Int) = .error .outOfBounds :=
  ⟨by decide, by decide,
    (lookupHWIntrinsic_reads_index_N sampleCatalog "Add" InstructionSet_SSE2 (by decide)
      (by decide)).1,
    (lookupHWIntrinsic_reads_index_N sampleCatalog "Add" InstructionSet_SSE2 (by decide)
      (by decide)).2.2.1⟩

/-- C24: for an identifier that is no IsSupported getter and whose family is
supported, `impX86HWIntrinsic` returns exactly what the expander of that family
returns on the same identifier, method, signature, mustExpand value and stack,
for each of the 15 families; in particular a nullptr result of the expander is
the result of the dispatcher, whatever mustExpand is. -/
theorem impX86HWIntrinsic_routes_to_expander (K : Catalog) (C : Compiler)
    (intrinsic : NamedIntrinsic) (method : CORINFO_METHOD_HANDLE) (sig : CORINFO_SIG_INFO)
    (mustExpand : Bool) (stk : Stack) (isa : InstructionSet)
    (hget : isIntrinsicAnIsSupportedPropertyGetter intrinsic = false)
    (hisa : isaOfHWIntrinsic K C intrinsic = .ok isa)
    (hsup : isSupportedISA C isa = .ok true) :
    (isa = InstructionSet_SSE → impX86HWIntrinsic K C intrinsic method sig mustExpand stk =
      impSSEIntrinsic C intrinsic method sig mustExpand stk) ∧
    (isa = InstructionSet_SSE2 → impX86HWIntrinsic K C intrinsic method sig mustExpand stk =
      impSSE2Intrinsic C intrinsic method sig mustExpand stk) ∧
    (isa = InstructionSet_SSE3 → impX86HWIntrinsic K C intrinsic method sig mustExpand stk =
      impSSE3Intrinsic C intrinsic method sig mustExpand stk) ∧
    (isa = InstructionSet_SSSE3 → impX86HWIntrinsic K C intrinsic method sig mustExpand stk =
      impSSSE3Intrinsic C intrinsic method sig mustExpand stk) ∧
    (isa = InstructionSet_SSE41 → impX86HWIntrinsic K C intrinsic method sig mustExpand stk =
      impSSE41Intrinsic C intrinsic method sig mustExpand stk) ∧
    (isa = InstructionSet_SSE42 → impX86HWIntrinsic K C intrinsic method sig mustExpand stk =
      impSSE42Intrinsic C intrinsic method sig mustExpand stk) ∧
    (isa = InstructionSet_AVX → impX86HWIntrinsic K C intrinsic method sig mustExpand stk =
      impAVXIntrinsic C intrinsic method sig mustExpand stk) ∧
    (isa = InstructionSet_AVX2 → impX86HWIntrinsic K C intrinsic method sig mustExpand stk =
      impAVX2Intrinsic C intrinsic method sig mustExpand stk) ∧
    (isa = InstructionSet_AES → impX86HWIntrinsic K C intrinsic method sig mustExpand stk =
      impAESIntrinsic C intrinsic method sig mustExpand stk) ∧
    (isa = InstructionSet_BMI1 → impX86HWIntrinsic K C intrinsic method sig mustExpand stk =
      impBMI1Intrinsic C intrinsic method sig mustExpand stk) ∧
    (isa = InstructionSet_BMI2 → impX86HWIntrinsic K C intrinsic method sig mustExpand stk =
      impBMI2Intrinsic C intrinsic method sig mustExpand stk) ∧
    (isa = InstructionSet_FMA → impX86HWIntrinsic K C intrinsic method sig mustExpand stk =
      impFMAIntrinsic C intrinsic method sig mustExpand stk) ∧
    (isa = InstructionSet_LZCNT → impX86HWIntrinsic K C intrinsic method sig mustExpand stk =
      impLZCNTIntrinsic C intrinsic method sig mustExpand stk) ∧
    (isa = InstructionSet_PCLMULQDQ →
      impX86HWIntrinsic K C intrinsic method sig mustExpand stk =
        impPCLMULQDQIntrinsic C intrinsic method sig mustExpand stk) ∧
    (isa = InstructionSet_POPCNT → impX86HWIntrinsic K C intrinsic method sig mustExpand stk =
      impPOPCNTIntrinsic C intrinsic method sig mustExpand stk) ∧
    (∀ expander, expanderOf isa = some expander → ∀ stk2 : Stack,
      expander C intrinsic method sig mustExpand stk = .ok (none, stk2) →
      impX86HWIntrinsic K C intrinsic method sig mustExpand stk = .ok (none, stk2)) ∧
    (isa ∈ InstructionSet.families → ∃ expander, expanderOf isa = some expander) := by
  have hd := impX86HWIntrinsic_dispatch K C intrinsic method sig mustExpand stk isa hget hisa hsup
  refine ⟨?_, ?_, ?_, ?_, ?_, ?_, ?_, ?_, ?_, ?_, ?_, ?_, ?_, ?_, ?_, ?_, ?_⟩
  iterate 15 (intro h; subst h; exact hd)
  · intro expander he stk2 hres
    rw [hd, he]; exact hres
  · intro hfam
    simp only [InstructionSet.families, List.mem_cons, List.mem_singleton, List.not_mem_nil,
      or_false] at hfam
    rcases hfam with h | h | h | h | h | h | h | h | h | h | h | h | h | h | h <;> subst h <;>
      exact ⟨_, rfl⟩

/-- Witness of C24: `Sse.Add` over the full catalog with the family supported. -/
theorem impX86HWIntrinsic_routes_to_expander_witness :
    isIntrinsicAnIsSupportedPropertyGetter NI_SSE_Add = false ∧
    isaOfHWIntrinsic fullCatalog (sampleCompiler true false true true true) NI_SSE_Add = .ok InstructionSet_SSE ∧
    isSupportedISA (sampleCompiler true false true true true) InstructionSet_SSE = .ok true ∧
    impX86HWIntrinsic fullCatalog (sampleCompiler true false true true true) NI_SSE_Add 0 sampleSig2 true sampleStack =
      impSSEIntrinsic (sampleCompiler true false true true true) NI_SSE_Add 0 sampleSig2 true sampleStack :=
  ⟨rfl, rfl, rfl,
    (impX86HWIntrinsic_routes_to_expander fullCatalog (sampleCompiler true false true true true) NI_SSE_Add 0 sampleSig2 true
      sampleStack InstructionSet_SSE rfl rfl rfl).1 rfl⟩

/-- C25: stack balance of the dispatcher. When the family of the identifier is
read from the catalog and its support is decided, an IsSupported getter is
called with no argument, any other identifier is called with the argument count
that the expander of its family asserts for it, and the stack holds at least
`sig.numArgs` entries, then `impX86HWIntrinsic` returns a result: with nullptr
the stack is the one it was given, with a node exactly `sig.numArgs` entries are
gone from the top and the rest is unchanged. The only other outcome is a failed
assertion (on a type) in a DEBUG build. -/
theorem impX86HWIntrinsic_stack_balance (K : Catalog) (C : Compiler) (intrinsic : NamedIntrinsic)
    (method : CORINFO_METHOD_HANDLE) (sig : CORINFO_SIG_INFO) (mustExpand : Bool) (stk : Stack)
    (isa : InstructionSet) (supported : Bool)
    (hisa : isaOfHWIntrinsic K C intrinsic = .ok isa)
    (hsup : isSupportedISA C isa = .ok supported)
    (hgetter : isIntrinsicAnIsSupportedPropertyGetter intrinsic = true → sig.numArgs = 0)
    (harity : isIntrinsicAnIsSupportedPropertyGetter intrinsic = false →
      ∀ k, assertedArity isa intrinsic = some k → sig.numArgs = k)
    (hstk : sig.numArgs ≤ stk.length) :
    (∃ r stk2, impX86HWIntrinsic K C intrinsic method sig mustExpand stk = .ok (r, stk2) ∧
      (r = none → stk2 = stk) ∧ (r ≠ none → stk2 = stk.drop sig.numArgs)) ∨
    (C.DEBUG = true ∧
      impX86HWIntrinsic K C intrinsic method sig mustExpand stk = .error .assertFailed) := by
  show StackBalanced sig.numArgs stk C.DEBUG
    (impX86HWIntrinsic K C intrinsic method sig mustExpand stk)
  cases hg : isIntrinsicAnIsSupportedPropertyGetter intrinsic with
  | true =>
    have : impX86HWIntrinsic K C intrinsic method sig mustExpand stk =
        .ok (some (gtNewIconNode (boolToInt supported) TYP_INT), stk) := by
      simp [impX86HWIntrinsic, hisa, hsup, hg, bind, Except.bind, pure, Except.pure]
    rw [this]
    exact StackBalanced.node _ _ _ _ _ (by rw [hgetter hg]; rfl)
  | false =>
    have har := harity hg
    cases supported with
    | false =>
      have : impX86HWIntrinsic K C intrinsic method sig mustExpand stk =
          impUnsupportedHWIntrinsic C CORINFO_HELP_THROW_PLATFORM_NOT_SUPPORTED method sig
            mustExpand stk := by
        simp [impX86HWIntrinsic, hisa, hsup, hg, bind, Except.bind]
      rw [this]
      exact impUnsupportedHWIntrinsic_balanced C method sig mustExpand stk _ hstk
    | true =>
      rw [impX86HWIntrinsic_dispatch K C intrinsic method sig mustExpand stk isa hg hisa hsup]
      cases isa with
      | InstructionSet_SSE => exact impSSEIntrinsic_balanced C intrinsic method sig mustExpand stk har hstk
      | InstructionSet_SSE2 => exact impSSE2Intrinsic_balanced C intrinsic method sig mustExpand stk har hstk
      | InstructionSet_SSE42 => exact impSSE42Intrinsic_balanced C intrinsic method sig mustExpand stk har hstk
      | InstructionSet_AVX => exact impAVXIntrinsic_balanced C intrinsic method sig mustExpand stk har hstk
      | InstructionSet_AVX2 => exact impAVX2Intrinsic_balanced C intrinsic method sig mustExpand stk har hstk
      | InstructionSet_LZCNT =>
        exact impLZCNTIntrinsic_balanced C intrinsic method sig mustExpand stk (har 1 rfl) hstk
      | InstructionSet_POPCNT =>
        exact impPOPCNTIntrinsic_balanced C intrinsic method sig mustExpand stk (har 1 rfl) hstk
      | _ => exact StackBalanced.none _ _ _

/-- Witness of C25: `Sse.Add` with two declared arguments on a stack of three. -/
theorem impX86HWIntrinsic_stack_balance_witness :
    isaOfHWIntrinsic fullCatalog (sampleCompiler true false true true true) NI_SSE_Add =
      .ok InstructionSet_SSE ∧
    isSupportedISA (sampleCompiler true false true true true) InstructionSet_SSE = .ok true ∧
    sampleSig2.numArgs ≤ sampleStack.length ∧
    ((∃ r stk2, impX86HWIntrinsic fullCatalog (sampleCompiler true false true true true)
        NI_SSE_Add 0 sampleSig2 false sampleStack = .ok (r, stk2) ∧
      (r = none → stk2 = sampleStack) ∧ (r ≠ none → stk2 = sampleStack.drop sampleSig2.numArgs)) ∨
    ((sampleCompiler true false true true true).DEBUG = true ∧
      impX86HWIntrinsic fullCatalog (sampleCompiler true false true true true) NI_SSE_Add 0
        sampleSig2 false sampleStack = .error .assertFailed)) :=
  ⟨rfl, rfl, by decide,
    impX86HWIntrinsic_stack_balance fullCatalog (sampleCompiler true false true true true)
      NI_SSE_Add 0 sampleSig2 false sampleStack InstructionSet_SSE true rfl rfl
      (fun h => absurd h (by decide)) (fun _ k hk => by cases hk; rfl) (by decide)⟩

/-- C26: every family that `isFullyImplmentedISAClass` accepts is scalar-only
for `isScalarISA`; among the 15 families the fully implemented ones are LZCNT
and POPCNT and the scalar-only ones are BMI1, BMI2, LZCNT and POPCNT; with the
incomplete-family override off `compSupportsHWIntrinsic` is true exactly for
LZCNT and POPCNT, for either value of featureSIMD, and with the override on and
featureSIMD off it is true exactly for BMI1, BMI2, LZCNT and POPCNT. -/
theorem fully_implemented_families_are_scalar :
    (∀ isa : InstructionSet, isFullyImplmentedISAClass isa = .ok true → isScalarISA isa = true) ∧
    (∀ isa ∈ InstructionSet.families, isFullyImplmentedISAClass isa = .ok true ↔
      (isa = InstructionSet_LZCNT ∨ isa = InstructionSet_POPCNT)) ∧
    (∀ isa ∈ InstructionSet.families, isScalarISA isa = true ↔
      (isa = InstructionSet_BMI1 ∨ isa = InstructionSet_BMI2 ∨ isa = InstructionSet_LZCNT ∨
        isa = InstructionSet_POPCNT)) ∧
    (∀ (C : Compiler), C.incompleteOverride = false → ∀ isa ∈ InstructionSet.families,
      compSupportsHWIntrinsic C isa =
        .ok (decide (isa = InstructionSet_LZCNT ∨ isa = InstructionSet_POPCNT))) ∧
    (∀ (C : Compiler), C.incompleteOverride = true → C.featureSIMD = false →
      ∀ isa ∈ InstructionSet.families,
      compSupportsHWIntrinsic C isa =
        .ok (decide (isa = InstructionSet_BMI1 ∨ isa = InstructionSet_BMI2 ∨
          isa = InstructionSet_LZCNT ∨ isa = InstructionSet_POPCNT))) := by
  refine ⟨?_, ?_, ?_, ?_, ?_⟩
  · intro isa h
    cases isa <;> first | rfl | (simp [isFullyImplmentedISAClass] at h)
  · intro isa _
    cases isa <;> simp [isFullyImplmentedISAClass]
  · intro isa _
    cases isa <;> simp [isScalarISA]
  · intro C hov isa hfam
    unfold Compiler.incompleteOverride at hov
    simp only [InstructionSet.families, List.mem_cons, List.mem_singleton, List.not_mem_nil,
      or_false] at hfam
    rcases hfam with h | h | h | h | h | h | h | h | h | h | h | h | h | h | h <;> subst h <;>
      cases hs : C.featureSIMD <;>
      simp [compSupportsHWIntrinsic, isScalarISA, isFullyImplmentedISAClass, hov, hs]
  · intro C hov hs isa hfam
    unfold Compiler.incompleteOverride at hov
    simp only [InstructionSet.families, List.mem_cons, List.mem_singleton, List.not_mem_nil,
      or_false] at hfam
    rcases hfam with h | h | h | h | h | h | h | h | h | h | h | h | h | h | h <;> subst h <;>
      simp [compSupportsHWIntrinsic, isScalarISA, isFullyImplmentedISAClass, hov, hs]

/-- C27: for every declared identifier and every element type,
`ivalOfHWIntrinsic` and `insOfHWIntrinsic` both return, and the immediate differs
from -1 exactly when the instruction is `INS_cmpps` or `INS_cmpss`; `INS_cmpps` is
returned exactly for the packed comparisons and `INS_cmpss` exactly for their
scalar twins, and a packed comparison and its scalar twin carry the same
immediate. -/
theorem immediate_and_instruction_tables_agree (K : Catalog) (C : Compiler)
    (intrinsic : NamedIntrinsic) (type : var_types) (hdecl : K.Declares intrinsic)
    (htwins : ∀ id ∈ predicateIntrinsics, K.Declares id) :
    (∃ ival ins, ivalOfHWIntrinsic K C intrinsic = .ok ival ∧
      insOfHWIntrinsic K C intrinsic type = .ok ins ∧
      (ival ≠ -1 ↔ (ins = INS_cmpps ∨ ins = INS_cmpss)) ∧
      (ins = INS_cmpps ↔ intrinsic ∈ packedCompareCodes.map (fun p => p.1)) ∧
      (ins = INS_cmpss ↔ intrinsic ∈ packedCompareCodes.map (fun p => p.2.1))) ∧
    (∀ p ∈ packedCompareCodes,
      insOfHWIntrinsic K C p.1 type = .ok INS_cmpps ∧
      insOfHWIntrinsic K C p.2.1 type = .ok INS_cmpss ∧
      ivalOfHWIntrinsic K C p.1 = ivalOfHWIntrinsic K C p.2.1) := by
  constructor
  · unfold ivalOfHWIntrinsic insOfHWIntrinsic
    rw [hdecl.assert_legal C, hdecl.assert_range C]
    cases intrinsic with
    | NI_Other n =>
      refine ⟨_, _, rfl, rfl, by decide, ?_, ?_⟩ <;>
        simp [packedCompareCodes]
    | _ => exact ⟨_, _, rfl, rfl, by decide, by decide, by decide⟩
  · intro p hp
    have h1 : K.Declares p.1 := htwins _ (by
      simp only [predicateIntrinsics, List.mem_append, List.mem_map]
      exact Or.inl ⟨p, hp, rfl⟩)
    have h2 : K.Declares p.2.1 := htwins _ (by
      simp only [predicateIntrinsics, List.mem_append, List.mem_map]
      exact Or.inr ⟨p, hp, rfl⟩)
    unfold ivalOfHWIntrinsic insOfHWIntrinsic
    rw [h1.assert_legal C, h1.assert_range C, h2.assert_legal C, h2.assert_range C]
    simp only [packedCompareCodes, List.mem_cons, List.mem_singleton, List.not_mem_nil,
      or_false] at hp
    rcases hp with h | h | h | h | h | h | h | h | h | h | h | h <;> subst h <;>
      exact ⟨rfl, rfl, rfl⟩

/-- Witness of C27: `Sse.CompareLessThan` and its scalar twin over the full catalog. -/
theorem immediate_and_instruction_tables_agree_witness :
    fullCatalog.Declares NI_SSE_CompareLessThan ∧
    (∀ id ∈ predicateIntrinsics, fullCatalog.Declares id) ∧
    insOfHWIntrinsic fullCatalog (sampleCompiler true false true true true) NI_SSE_CompareLessThan TYP_FLOAT = .ok INS_cmpps ∧
    insOfHWIntrinsic fullCatalog (sampleCompiler true false true true true) NI_SSE_CompareLessThanScalar TYP_FLOAT = .ok INS_cmpss ∧
    ivalOfHWIntrinsic fullCatalog (sampleCompiler true false true true true) NI_SSE_CompareLessThan =
      ivalOfHWIntrinsic fullCatalog (sampleCompiler true false true true true) NI_SSE_CompareLessThanScalar :=
  ⟨by decide, by decide,
    (immediate_and_instruction_tables_agree fullCatalog (sampleCompiler true false true true true) NI_SSE_CompareLessThan TYP_FLOAT
      (by decide) (by decide)).2
      (NI_SSE_CompareLessThan, NI_SSE_CompareLessThanScalar, 1) (by decide)⟩

/-- C29: for `NI_SSE_StaticCast` called with one argument on a stack with the
operand on top: when the base types of the return vector and of the argument
vector are both arithmetic, `impSSEIntrinsic` pops the operand and returns a
`TYP_SIMD16` node tagged with the base type of the return vector and width 16;
otherwise it follows the unsupported-call policy: with mustExpand set the
operand is dropped and a must-throw node is returned, with mustExpand clear the
result is nullptr and nothing is popped. -/
theorem impSSEIntrinsic_StaticCast (C : Compiler) (method : CORINFO_METHOD_HANDLE)
    (sig : CORINFO_SIG_INFO) (mustExpand : Bool) (arg1 : GenTree) (rest : Stack)
    (hargs : sig.numArgs = 1) :
    impSSEIntrinsic C NI_SSE_StaticCast method sig mustExpand (arg1 :: rest) =
      if C.varTypeIsArithmetic (C.getBaseTypeOfSIMDType sig.retTypeSigClass) &&
          C.varTypeIsArithmetic (C.getBaseTypeOfSIMDType (C.getArgClass sig sig.args)) then
        .ok (some (GT_HWIntrinsic1 TYP_SIMD16 arg1 NI_SSE_StaticCast
          (C.getBaseTypeOfSIMDType sig.retTypeSigClass) 16), rest)
      else if mustExpand then
        .ok (some (MustThrowException CORINFO_HELP_THROW_PLATFORM_NOT_SUPPORTED
          (C.JITtype2varType sig.retType) sig.retTypeClass), rest)
      else .ok (none, arg1 :: rest) := by
  have hout := impUnsupportedHWIntrinsic_outcome C method sig mustExpand (arg1 :: rest)
    (fun _ => by rw [hargs]; simp)
  cases h1 : C.varTypeIsArithmetic (C.getBaseTypeOfSIMDType sig.retTypeSigClass) <;>
    cases h2 : C.varTypeIsArithmetic (C.getBaseTypeOfSIMDType (C.getArgClass sig sig.args)) <;>
    cases mustExpand <;>
    simp [impSSEIntrinsic, Compiler.assert, hargs, h1, h2, hout, unsupportedCallOutcome,
      impPopStack, impSIMDPopStack, gtNewSimdHWIntrinsicNode1, bind, Except.bind, pure,
      Except.pure]

/-- Witness of C29: a cast between vectors of `float`, operand on top. -/
theorem impSSEIntrinsic_StaticCast_witness :
    sampleSig1.numArgs = 1 ∧
    impSSEIntrinsic (sampleCompiler true false true true true) NI_SSE_StaticCast 0 sampleSig1 false
      (GT_Opaque 1 TYP_SIMD16 :: [GT_Opaque 0 TYP_INT]) =
      .ok (some (GT_HWIntrinsic1 TYP_SIMD16 (GT_Opaque 1 TYP_SIMD16) NI_SSE_StaticCast
        TYP_FLOAT 16), [GT_Opaque 0 TYP_INT]) :=
  ⟨rfl, impSSEIntrinsic_StaticCast (sampleCompiler true false true true true) 0 sampleSig1 false _ _ rfl⟩

/-- C30: read with `UnpackLow(x, y) = [x0, y0, x1, y1]` and
`Shuffle(x, y, imm) = [x[imm & 3], x[(imm >> 2) & 3], y[(imm >> 4) & 3],
y[(imm >> 6) & 3]]`, the tree that `impSSEIntrinsic` builds for
`NI_SSE_SetVector128` on the arguments (a, b, c, d) has the lanes
[d0, c0, b0, a0], where x0 is lane 0 of the operand x, whatever the other lanes
of the operands hold; the control 68 selects the lanes 0, 1 of the first pair
and 0, 1 of the second, and it is the only control byte that does. -/
theorem SetVector128_lanes {V : Type} (operand : GenTree → Fin 4 → V) (C : Compiler)
    (method : CORINFO_METHOD_HANDLE) (sig : CORINFO_SIG_INFO) (mustExpand : Bool)
    (a b c d : GenTree) (rest : Stack) (hargs : sig.numArgs = 4)
    (hbase : C.getBaseTypeOfSIMDType sig.retTypeSigClass = TYP_FLOAT) :
    (∃ node, impSSEIntrinsic C NI_SSE_SetVector128 method sig mustExpand
        (d :: c :: b :: a :: rest) = .ok (some node, rest) ∧
      laneValue operand node =
        ![laneValue operand d 0, laneValue operand c 0, laneValue operand b 0,
          laneValue operand a 0]) ∧
    (shuffleLane 68 0 = 0 ∧ shuffleLane 68 2 = 1 ∧ shuffleLane 68 4 = 0 ∧
      shuffleLane 68 6 = 1) ∧
    (∀ imm : Fin 256, (shuffleLane imm 0 = 0 ∧ shuffleLane imm 2 = 1 ∧ shuffleLane imm 4 = 0 ∧
      shuffleLane imm 6 = 1) ↔ imm = 68) := by
  refine ⟨⟨_, ?_, laneValue_SetVector128_tree operand a b c d⟩, shuffleLane_68, shuffleLane_68_only⟩
  simp [impSSEIntrinsic, Compiler.assert, hargs, hbase, impPopStack, gtNewSimdHWIntrinsicNode2,
    gtNewSimdHWIntrinsicNode3, gtNewIconNode, bind, Except.bind, pure, Except.pure]

/-- Witness of C30: the operands labelled 1, 2, 3, 4 give the lanes 4, 3, 2, 1. -/
theorem SetVector128_lanes_witness :
    sampleSig4.numArgs = 4 ∧
    (sampleCompiler true false true true true).getBaseTypeOfSIMDType sampleSig4.retTypeSigClass = TYP_FLOAT ∧
    ∃ node, impSSEIntrinsic (sampleCompiler true false true true true) NI_SSE_SetVector128 0 sampleSig4 false
        (GT_Opaque 4 TYP_FLOAT :: GT_Opaque 3 TYP_FLOAT :: GT_Opaque 2 TYP_FLOAT ::
          GT_Opaque 1 TYP_FLOAT :: [GT_Opaque 0 TYP_INT]) =
        .ok (some node, [GT_Opaque 0 TYP_INT]) ∧
      laneValue sampleOperandLanes node = ![4, 3, 2, 1] :=
  ⟨rfl, rfl,
    (SetVector128_lanes sampleOperandLanes (sampleCompiler true false true true true) 0 sampleSig4 false (GT_Opaque 1 TYP_FLOAT)
      (GT_Opaque 2 TYP_FLOAT) (GT_Opaque 3 TYP_FLOAT) (GT_Opaque 4 TYP_FLOAT)
      [GT_Opaque 0 TYP_INT] rfl rfl).1⟩

/-! ## Lemmas on the case labels of `impSSEIntrinsic` -/

/-- An identifier without a case label takes the default branch of
`impSSEIntrinsic`: no expansion and the stack untouched, for every input. -/
theorem impSSEIntrinsic_default (C : Compiler) (intrinsic : NamedIntrinsic)
    (method : CORINFO_METHOD_HANDLE) (sig : CORINFO_SIG_INFO) (mustExpand : Bool) (stk : Stack)
    (h : impSSEIntrinsicHasCase intrinsic = false) :
    impSSEIntrinsic C intrinsic method sig mustExpand stk = .ok (none, stk) := by
  cases intrinsic with
  | NI_Other n => rfl
  | _ => first | rfl | exact absurd h (by decide)

/-- An identifier with a case label is expanded on some input: in a build
without assertion checks, with mustExpand set and five operands pending, its
case returns a node. -/
theorem impSSEIntrinsic_case_expands (intrinsic : NamedIntrinsic) (method : CORINFO_METHOD_HANDLE)
    (h : impSSEIntrinsicHasCase intrinsic = true) :
    ∃ node stk2, impSSEIntrinsic (sampleCompiler false false true true true) intrinsic method
      sampleSig2 true sampleStack5 = .ok (some node, stk2) := by
  cases intrinsic with
  | NI_Other n => exact Bool.noConfusion (show false = true from h)
  | _ => first | exact ⟨_, _, rfl⟩ | exact absurd h (by decide)

/-- A returned instruction other than `INS_invalid` belongs to an identifier with
a case label in `impSSEIntrinsic`, and the identifiers with a case label whose
instruction is `INS_invalid` are the five of `expandedWithoutInstruction`. -/
theorem insOfHWIntrinsic_ok_hasCase (K : Catalog) (C : Compiler) (intrinsic : NamedIntrinsic)
    (type : var_types) (ins : instruction)
    (h : insOfHWIntrinsic K C intrinsic type = .ok ins) :
    (ins ≠ INS_invalid → impSSEIntrinsicHasCase intrinsic = true) ∧
    ((impSSEIntrinsicHasCase intrinsic = true ∧ ins = INS_invalid) ↔
      intrinsic ∈ expandedWithoutInstruction) := by
  unfold insOfHWIntrinsic at h
  rcases C.assert_ok_or_failed (decide (intrinsic ≠ NI_Illegal)) with h1 | h1
  · rcases C.assert_ok_or_failed (decide (K.start < K.enumValue intrinsic ∧
        K.enumValue intrinsic < K.stop)) with h2 | h2
    · rw [h1, h2] at h
      cases intrinsic with
      | NI_Other n =>
        cases h
        exact ⟨fun hne => absurd rfl hne, by simp [impSSEIntrinsicHasCase, assertedArity,
          expandedWithoutInstruction]⟩
      | _ => cases h; exact ⟨by decide, by decide⟩
    · rw [h1, h2] at h; cases h
  · rw [h1] at h; cases h


/-! ## The claim C31 -/

/-- C31: when `insOfHWIntrinsic` returns for an identifier, with element type
`TYP_FLOAT`, an instruction other than `INS_invalid`, the identifier has a case
label in the switch of `impSSEIntrinsic`, so it does not reach the default
"not implemented" branch: some input makes `impSSEIntrinsic` return a node for
it, whereas an identifier without a case label gets nullptr and an untouched
stack on every input. Conversely, the identifiers with a case label for which
`insOfHWIntrinsic` returns `INS_invalid` are exactly Shuffle, SetVector128,
SetAllVector128, SetScalar and SetZeroVector128. -/
theorem real_instruction_implies_expanded (K : Catalog) (C : Compiler)
    (intrinsic : NamedIntrinsic) (ins : instruction)
    (hins : insOfHWIntrinsic K C intrinsic TYP_FLOAT = .ok ins) (hreal : ins ≠ INS_invalid) :
    impSSEIntrinsicHasCase intrinsic = true ∧
    (∃ (C2 : Compiler) (method : CORINFO_METHOD_HANDLE) (sig : CORINFO_SIG_INFO)
        (mustExpand : Bool) (stk : Stack) (node : GenTree) (stk2 : Stack),
      impSSEIntrinsic C2 intrinsic method sig mustExpand stk = .ok (some node, stk2)) ∧
    (∀ id : NamedIntrinsic, impSSEIntrinsicHasCase id = false →
      ∀ (C2 : Compiler) (method : CORINFO_METHOD_HANDLE) (sig : CORINFO_SIG_INFO)
        (mustExpand : Bool) (stk : Stack),
      impSSEIntrinsic C2 id method sig mustExpand stk = .ok (none, stk)) ∧
    (∀ (id : NamedIntrinsic) (ins2 : instruction),
      insOfHWIntrinsic K C id TYP_FLOAT = .ok ins2 →
      ((impSSEIntrinsicHasCase id = true ∧ ins2 = INS_invalid) ↔
        id ∈ expandedWithoutInstruction)) := by
  have hcase := (insOfHWIntrinsic_ok_hasCase K C intrinsic TYP_FLOAT ins hins).1 hreal
  refine ⟨hcase, ?_, ?_, ?_⟩
  · obtain ⟨node, stk2, h⟩ := impSSEIntrinsic_case_expands intrinsic 0 hcase
    exact ⟨_, _, _, _, _, node, stk2, h⟩
  · intro id hid C2 method sig mustExpand stk
    exact impSSEIntrinsic_default C2 id method sig mustExpand stk hid
  · intro id ins2 h2
    exact (insOfHWIntrinsic_ok_hasCase K C id TYP_FLOAT ins2 h2).2

/-- Witness of C31: `Sse.MoveMask` over the full catalog maps to `INS_movmskps`
and has a case label; `Sse.Shuffle` maps to `INS_invalid` and has one too. -/
theorem real_instruction_implies_expanded_witness :
    insOfHWIntrinsic fullCatalog (sampleCompiler true false true true true) NI_SSE_MoveMask
      TYP_FLOAT = .ok INS_movmskps ∧
    INS_movmskps ≠ INS_invalid ∧
    impSSEIntrinsicHasCase NI_SSE_MoveMask = true ∧
    insOfHWIntrinsic fullCatalog (sampleCompiler true false true true true) NI_SSE_Shuffle
      TYP_FLOAT = .ok INS_invalid ∧
    ((impSSEIntrinsicHasCase NI_SSE_Shuffle = true ∧ INS_invalid = INS_invalid) ↔
      NI_SSE_Shuffle ∈ expandedWithoutInstruction) :=
  ⟨rfl, by decide,
    (real_instruction_implies_expanded fullCatalog (sampleCompiler true false true true true)
      NI_SSE_MoveMask INS_movmskps rfl (by decide)).1,
    rfl,
    (real_instruction_implies_expanded fullCatalog (sampleCompiler true false true true true)
      NI_SSE_MoveMask INS_movmskps rfl (by decide)).2.2.2 NI_SSE_Shuffle INS_invalid rfl⟩

/-! ## Lemmas on the scan over the array and the element behind it -/

end HWIntrinsicXArch
